import Mathlib

/-!
TPBatteryControl: the battery report formatter and the command dispatcher.

A shallow embedding of `sandbox.cpp`.

* Machine integers are `Int` / `Nat` with explicit wrap-around at 32 bits.
* A `std::ostream` is the sequence of values inserted into it (`OStream`), and
  `OStream.str` is the text it holds.
* The vendor library is a set of state-passing entry points (`SMInterface`); the
  dispatcher `run` threads a `World` holding the vendor state, the two output
  streams and a log of the entry points invoked.
* `std::terminate` and a `strftime` call outside the range for which ISO C fixes
  the result end a computation early (`Abort`).
-/

namespace TPBatteryControl

/-! ## Machine integers -/

/-- The value of a `std::int32_t` holding the mathematical integer `x`
(two's complement wrap-around). -/
def wrapInt32 (x : Int) : Int := (x + 2147483648) % 4294967296 - 2147483648

/-- Conversion of an integer to `std::uint32_t` (reduction modulo 2^32). -/
def toUInt32 (x : Int) : Nat := (x % 4294967296).toNat

/-- Predicate: `x` is a value of `std::int32_t`. -/
def IsInt32 (x : Int) : Prop := -2147483648 ≤ x ∧ x ≤ 2147483647

/-- Predicate: `n` is a value of `std::uint32_t`. -/
def IsUInt32 (n : Nat) : Prop := n < 4294967296

instance (x : Int) : Decidable (IsInt32 x) := by unfold IsInt32; infer_instance

instance (n : Nat) : Decidable (IsUInt32 n) := by unfold IsUInt32; infer_instance

/-! ## Output streams -/

/-- One insertion (`<<`) into a `std::ostream`. -/
inductive Item where
  /-- a string literal or a character constant -/
  | lit (s : String)
  /-- a signed integer (`std::int32_t`, `int`), printed in decimal -/
  | int (i : Int)
  /-- an unsigned integer (`std::uint32_t`), printed in decimal -/
  | uint (n : Nat)
  /-- the contents of a NUL-terminated character buffer -/
  | text (s : String)
deriving DecidableEq, Repr

/-- The characters an insertion writes. -/
def Item.str : Item → String
  | .lit s => s
  | .int i => toString i
  | .uint n => toString n
  | .text s => s

/-- A `std::ostream`: the insertions made so far, oldest first. -/
abbrev OStream := List Item

/-- The text held by a stream. -/
def OStream.str (stream : OStream) : String := String.join (stream.map Item.str)

/-- How a computation ends early. -/
inductive Abort where
  /-- The program called `std::terminate()` -/
  | terminate
  /-- The program called `strftime` with `tm_hour` or `tm_min` outside the normal range -/
  | strftime
deriving DecidableEq, Repr

/-- The result of a formatter writing to a stream: it returns with the stream,
or the program ends early with the stream as it was at that point. -/
inductive Outcome where
  | ok (stream : OStream)
  | abort (why : Abort) (stream : OStream)
deriving DecidableEq, Repr

/-- The stream a formatter leaves behind, however it ended. -/
def Outcome.stream : Outcome → OStream
  | .ok stream => stream
  | .abort _ stream => stream

/-- Sequencing: continue with `f` when the first part returned. -/
def Outcome.bind (o : Outcome) (f : OStream → Outcome) : Outcome :=
  match o with
  | .ok stream => f stream
  | .abort why stream => .abort why stream

/-! ## Data model -/

/-- The record exchanged with the threshold entry points (`struct BatteryThresholdData`). -/
structure BatteryThresholdData where
  p0 : List Int := [0, 0]
  threshold : Int := 0
  p1 : List Int := [0, 0, 0, 0, 0]
deriving DecidableEq, Repr

/-- Values of `enum class BatteryChargeStatus : std::int32_t`. The vendor library
fills the field, so it can hold any 32-bit value. -/
abbrev BatteryChargeStatus := Int

def BatteryChargeStatus.inactive : BatteryChargeStatus := 0

def BatteryChargeStatus.charging : BatteryChargeStatus := 1

def BatteryChargeStatus.discharging : BatteryChargeStatus := 2

/-- Insertion of a charge status: `operator <<(std::ostream&, BatteryChargeStatus)`. -/
def insertBatteryChargeStatus (stream : OStream) (chargeStatus : BatteryChargeStatus) : Outcome :=
  if chargeStatus = BatteryChargeStatus.inactive then .ok (stream ++ [.lit "inactive"])
  else if chargeStatus = BatteryChargeStatus.charging then .ok (stream ++ [.lit "charging"])
  else if chargeStatus = BatteryChargeStatus.discharging then .ok (stream ++ [.lit "discharging"])
  else .abort .terminate stream

/-- Values of `enum class BatteryChemistry : std::int32_t`. -/
abbrev BatteryChemistry := Int

def BatteryChemistry.LiIon : BatteryChemistry := 256

def BatteryChemistry.NiMH : BatteryChemistry := 16

def BatteryChemistry.NiCd : BatteryChemistry := 1

def BatteryChemistry.LiPolymer : BatteryChemistry := 4096

def BatteryChemistry.Unknown : BatteryChemistry := -1

def BatteryChemistry.SilverZinc : BatteryChemistry := 65536

/-- Insertion of a chemistry code: `operator <<(std::ostream&, BatteryChemistry)`. -/
def insertBatteryChemistry (stream : OStream) (batteryChemistry : BatteryChemistry) : OStream :=
  if batteryChemistry = BatteryChemistry.LiIon then stream ++ [.lit "Lithium-Ion"]
  else if batteryChemistry = BatteryChemistry.NiMH then stream ++ [.lit "NiMH"]
  else if batteryChemistry = BatteryChemistry.NiCd then stream ++ [.lit "NiCd"]
  else if batteryChemistry = BatteryChemistry.LiPolymer then stream ++ [.lit "Lithium-Polymer"]
  else if batteryChemistry = BatteryChemistry.Unknown then stream ++ [.lit "unknown"]
  else if batteryChemistry = BatteryChemistry.SilverZinc then stream ++ [.lit "Silver-Zinc"]
  else stream ++ [.lit "-"]

/-- The status record (`struct SmartBatteryStatus`), without its padding members.
`IntBool` and `std::int32_t` members are `Int`, `std::uint32_t` members are `Nat`,
character arrays are the text before their first NUL. -/
structure SmartBatteryStatus where
  size : Nat := 0
  canReportChargeStatus : Int := 0
  chargeStatus : BatteryChargeStatus := 0
  acDischarge : Int := 0
  canReportRemainingCharge : Int := 0
  remainingCharge : Nat := 0
  canReportRemainingCapacity : Int := 0
  remainingCapacity : Nat := 0
  canReportRemainingTime : Int := 0
  remainingTime : Nat := 0
  canReportChargeCompletionTime : Int := 0
  chargeCompletionTime : Nat := 0
  canReportVoltage : Int := 0
  voltage : Nat := 0
  canReportCurrent : Int := 0
  current : Int := 0
  canReportTemperature : Int := 0
  temperature : Nat := 0
  canReportCycleCount : Int := 0
  cycleCount : Nat := 0
  canReportFullChargeCapacity : Int := 0
  fullChargeCapacity : Nat := 0
  canReportDesignCapacity : Int := 0
  designCapacity : Nat := 0
  canReportDesignVoltage : Int := 0
  designVoltage : Nat := 0
  canReportDeviceChemistry : Int := 0
  deviceChemistry : BatteryChemistry := 0
  canReportSerialNumber : Int := 0
  serialNumber : Nat := 0
  canReportManufactureDate : Int := 0
  manufactureDate : String := ""
  canReportManufacturer : Int := 0
  manufacturer : String := ""
  canReportDeviceName : Int := 0
  deviceName : String := ""
  canReportBarCodeNumber : Int := 0
  barCodeNumber : String := ""
  canReportFirstUseDate : Int := 0
  firstUseDate : String := ""

/-- The value of `sizeof(SmartBatteryStatus)`, fixed by the `static_assert`. -/
def sizeofSmartBatteryStatus : Nat := 309

/-- The parsed command line (`struct ProgramArgs`). -/
structure ProgramArgs where
  setThreshold : Bool := false
  detailed : Bool := false
  batteryId : Int := 0
  startThreshold : Int := 0
  stopThreshold : Int := 0
  disableThresholds : Bool := false
deriving DecidableEq, Repr

/-! ## Record layout -/

/-- The type of a member of the two packed records. -/
inductive MemberType where
  /-- the type `std::uint32_t` -/
  | uint32
  /-- the type `std::int32_t` -/
  | int32
  /-- the alias `IntBool` of `std::int32_t` -/
  | intBool
  /-- the enumeration `BatteryChargeStatus`, of underlying type `std::int32_t` -/
  | chargeStatus
  /-- the enumeration `BatteryChemistry`, of underlying type `std::int32_t` -/
  | chemistry
  /-- an array `char[n]` -/
  | chars (n : Nat)
deriving DecidableEq, Repr

/-- The width of a member in bytes (`sizeof`). -/
def MemberType.width : MemberType → Nat
  | .uint32 => 4
  | .int32 => 4
  | .intBool => 4
  | .chargeStatus => 4
  | .chemistry => 4
  | .chars n => n

/-- The members of `struct SmartBatteryStatus` in declaration order, padding members
included. -/
def smartBatteryStatusMembers : List (String × MemberType) :=
  [("size", .uint32),
   ("canReportChargeStatus", .intBool), ("chargeStatus", .chargeStatus),
   ("padding0", .chars 4),
   ("acDischarge", .int32),
   ("padding1", .chars 12),
   ("canReportRemainingCharge", .intBool), ("remainingCharge", .uint32),
   ("canReportRemainingCapacity", .intBool), ("remainingCapacity", .uint32),
   ("canReportRemainingTime", .intBool), ("remainingTime", .uint32),
   ("canReportChargeCompletionTime", .intBool), ("chargeCompletionTime", .uint32),
   ("canReportVoltage", .intBool), ("voltage", .uint32),
   ("canReportCurrent", .intBool), ("current", .int32),
   ("canReportTemperature", .intBool), ("temperature", .uint32),
   ("canReportCycleCount", .intBool), ("cycleCount", .uint32),
   ("canReportFullChargeCapacity", .intBool), ("fullChargeCapacity", .uint32),
   ("canReportDesignCapacity", .intBool), ("designCapacity", .uint32),
   ("canReportDesignVoltage", .intBool), ("designVoltage", .uint32),
   ("canReportDeviceChemistry", .intBool), ("deviceChemistry", .chemistry),
   ("canReportSerialNumber", .intBool), ("serialNumber", .uint32),
   ("canReportManufactureDate", .intBool), ("manufactureDate", .chars (19 + 1)),
   ("canReportManufacturer", .intBool), ("manufacturer", .chars (26 + 1)),
   ("canReportDeviceName", .intBool), ("deviceName", .chars (26 + 1)),
   ("canReportBarCodeNumber", .intBool), ("barCodeNumber", .chars (26 + 1)),
   ("canReportFirstUseDate", .intBool), ("firstUseDate", .chars (19 + 1)),
   ("padding2", .chars 32)]

/-- The members of `struct SmartBatteryStatusEx` in declaration order. -/
def smartBatteryStatusExMembers : List (String × MemberType) :=
  [("size", .uint32), ("padding0", .chars 60)]

/-- The layout of a record under `#pragma pack(push, 1)`, starting at byte `offset`:
every member with its offset, which is the sum of the widths of the members declared
before it. -/
def packedLayout : List (String × MemberType) → Nat → List (String × Nat)
  | [], _ => []
  | (name, type) :: members, offset =>
    (name, offset) :: packedLayout members (offset + type.width)

/-- The size of a packed record: the sum of the widths of its members. -/
def packedSize (members : List (String × MemberType)) : Nat :=
  (members.map fun member => member.2.width).sum

/-! ## The C library call used by the formatter -/

/-- The members of `std::tm` read by the format `%H:%M`. -/
structure Tm where
  tm_hour : Int := 0
  tm_min : Int := 0
deriving DecidableEq, Repr

/-- A number in decimal, zero-padded to two digits. -/
def twoDigits (n : Int) : String :=
  if n < 10 then "0" ++ toString n else toString n

/-- The C library call `strftime(timestr, sizeof(timestr), "%H:%M", &timerec)`: the
characters stored in `timestr`. With both members in their normal range
(`0..23`, `0..59`) these are the two numbers, zero-padded to two digits. Outside
it ISO C leaves the characters stored unspecified and the Windows runtime invokes
the invalid-parameter handler; the model returns `none`. -/
def strftimeHM (timerec : Tm) : Option String :=
  if 0 ≤ timerec.tm_hour ∧ timerec.tm_hour ≤ 23 ∧ 0 ≤ timerec.tm_min ∧ timerec.tm_min ≤ 59 then
    some (twoDigits timerec.tm_hour ++ ":" ++ twoDigits timerec.tm_min)
  else none

/-! ## Battery report formatter -/

/-- The threshold line: `reportBatteryThresholds(stream, startThreshold, stopThreshold)`. -/
def reportBatteryThresholds (stream : OStream) (startThreshold stopThreshold : Int) : OStream :=
  let indent := "    "
  let stream := stream ++ [.lit indent, .lit "Charge thresholds: "]
  let stream :=
    if startThreshold = 0 ∧ stopThreshold = 0 then
      stream ++ [.lit "disabled"]
    else
      stream ++ [.lit "charge from ", .int (wrapInt32 (startThreshold + 1)), .lit "% to ",
        .int stopThreshold, .lit "%"]
  stream ++ [.lit "\n"]

/-- Block 1 of `reportBatteryStatus`: the `Status:` line. -/
def reportChargeStatus (stream : OStream) (status : SmartBatteryStatus) : Outcome :=
  let indent := "    "
  if status.canReportChargeStatus ≠ 0 then
    (insertBatteryChargeStatus (stream ++ [.lit indent, .lit "Status: "]) status.chargeStatus).bind
      fun stream =>
        let stream :=
          if status.chargeStatus = BatteryChargeStatus.discharging ∧ status.acDischarge ≠ 0 then
            stream ++ [.lit " (AC)"]
          else stream
        .ok (stream ++ [.lit "\n"])
  else .ok stream

/-- Block 2 of `reportBatteryStatus`: the `Current charge:` line. -/
def reportRemainingCharge (stream : OStream) (status : SmartBatteryStatus) : Outcome :=
  let indent := "    "
  if status.canReportRemainingCharge ≠ 0 then
    let stream := stream ++ [.lit indent, .lit "Current charge: ", .uint status.remainingCharge,
      .lit "%"]
    if status.canReportRemainingTime ≠ 0 ∧ status.chargeStatus ≠ BatteryChargeStatus.charging then
      let timerec : Tm := { tm_hour := status.remainingTime / 60, tm_min := status.remainingTime % 60 }
      match strftimeHM timerec with
      | some timestr => .ok (stream ++ [.lit " (", .text timestr, .lit " left)"] ++ [.lit "\n"])
      | none => .abort .strftime stream
    else if status.canReportChargeCompletionTime ≠ 0
        ∧ status.chargeStatus = BatteryChargeStatus.charging then
      let timerec : Tm :=
        { tm_hour := status.chargeCompletionTime / 60, tm_min := status.chargeCompletionTime % 60 }
      match strftimeHM timerec with
      | some timestr =>
        .ok (stream ++ [.lit " (", .text timestr, .lit " until charging complete)"] ++ [.lit "\n"])
      | none => .abort .strftime stream
    else .ok (stream ++ [.lit "\n"])
  else .ok stream

/-- Block 3 of `reportBatteryStatus`: the `Current capacity:` line. -/
def reportRemainingCapacity (stream : OStream) (status : SmartBatteryStatus) : OStream :=
  let indent := "    "
  if status.canReportRemainingCapacity ≠ 0 then
    let stream := stream ++ [.lit indent, .lit "Current capacity: ",
      .uint status.remainingCapacity, .lit " mWh"]
    let stream :=
      if status.canReportFullChargeCapacity ≠ 0 then
        stream ++ [.lit " of ", .uint status.fullChargeCapacity, .lit " mWh"]
      else stream
    let stream :=
      if status.canReportDesignCapacity ≠ 0 then
        stream ++ [.lit " (design capacity ", .uint status.designCapacity, .lit " mWh)"]
      else stream
    stream ++ [.lit "\n"]
  else stream

/-- Block 4 of `reportBatteryStatus`: the cycle count line. -/
def reportCycleCount (stream : OStream) (status : SmartBatteryStatus) : OStream :=
  let indent := "    "
  if status.canReportCycleCount ≠ 0 then
    stream ++ [.lit indent, .lit "Number of charge/discharge cycles: ", .uint status.cycleCount,
      .lit "\n"]
  else stream

/-- The value of the expression `(status.voltage * status.current) / 1000`: the
signed `current` is converted to `std::uint32_t`, the product is taken modulo 2^32
and the division is unsigned. -/
def powerConsumption (status : SmartBatteryStatus) : Nat :=
  (status.voltage * toUInt32 status.current) % 4294967296 / 1000

/-- Block 5 of `reportBatteryStatus`: the `Power consumption:` line. -/
def reportPower (stream : OStream) (status : SmartBatteryStatus) : OStream :=
  let indent := "    "
  if status.canReportVoltage ≠ 0 ∧ status.canReportCurrent ≠ 0 then
    stream ++ [.lit indent, .lit "Power consumption: ", .uint (powerConsumption status),
      .lit " mW\n"]
  else stream

/-- Block 6 of `reportBatteryStatus`: the `Voltage:` line. -/
def reportVoltage (stream : OStream) (status : SmartBatteryStatus) : OStream :=
  let indent := "    "
  if status.canReportVoltage ≠ 0 then
    let stream := stream ++ [.lit indent, .lit "Voltage: ", .uint status.voltage, .lit " mV"]
    let stream :=
      if status.canReportDesignVoltage ≠ 0 then
        stream ++ [.lit " (design voltage ", .uint status.designVoltage, .lit " mV)"]
      else stream
    stream ++ [.lit "\n"]
  else stream

/-- Block 7 of `reportBatteryStatus`: the `Current:` line. -/
def reportCurrent (stream : OStream) (status : SmartBatteryStatus) : OStream :=
  let indent := "    "
  if status.canReportCurrent ≠ 0 then
    stream ++ [.lit indent, .lit "Current: ", .int status.current, .lit " mA\n"]
  else stream

/-- Block 8 of `reportBatteryStatus`: the `Temperature:` line. -/
def reportTemperature (stream : OStream) (status : SmartBatteryStatus) : OStream :=
  let indent := "    "
  if status.canReportTemperature ≠ 0 then
    stream ++ [.lit indent, .lit "Temperature: ", .uint status.temperature, .lit " °C\n"]
  else stream

/-- Detailed line 1: `Manufacturer:`. -/
def reportManufacturer (stream : OStream) (status : SmartBatteryStatus) : OStream :=
  let indent := "    "
  if status.canReportManufacturer ≠ 0 then
    stream ++ [.lit indent, .lit "Manufacturer: ", .text status.manufacturer, .lit "\n"]
  else stream

/-- Detailed line 2: `Chemistry:`. -/
def reportDeviceChemistry (stream : OStream) (status : SmartBatteryStatus) : OStream :=
  let indent := "    "
  if status.canReportDeviceChemistry ≠ 0 then
    insertBatteryChemistry (stream ++ [.lit indent, .lit "Chemistry: "]) status.deviceChemistry
      ++ [.lit "\n"]
  else stream

/-- Detailed line 3: `FRU:`. -/
def reportDeviceName (stream : OStream) (status : SmartBatteryStatus) : OStream :=
  let indent := "    "
  if status.canReportDeviceName ≠ 0 then
    stream ++ [.lit indent, .lit "FRU: ", .text status.deviceName, .lit "\n"]
  else stream

/-- Detailed line 4: `Serial number:`. -/
def reportSerialNumber (stream : OStream) (status : SmartBatteryStatus) : OStream :=
  let indent := "    "
  if status.canReportSerialNumber ≠ 0 then
    stream ++ [.lit indent, .lit "Serial number: ", .uint status.serialNumber, .lit "\n"]
  else stream

/-- Detailed line 5: `Bar code number:`. -/
def reportBarCodeNumber (stream : OStream) (status : SmartBatteryStatus) : OStream :=
  let indent := "    "
  if status.canReportBarCodeNumber ≠ 0 then
    stream ++ [.lit indent, .lit "Bar code number: ", .text status.barCodeNumber, .lit "\n"]
  else stream

/-- Detailed line 6: `Date of manufacture:`. -/
def reportManufactureDate (stream : OStream) (status : SmartBatteryStatus) : OStream :=
  let indent := "    "
  if status.canReportManufactureDate ≠ 0 then
    stream ++ [.lit indent, .lit "Date of manufacture: ", .text status.manufactureDate, .lit "\n"]
  else stream

/-- Detailed line 7: `Date of first use:`. -/
def reportFirstUseDate (stream : OStream) (status : SmartBatteryStatus) : OStream :=
  let indent := "    "
  if status.canReportFirstUseDate ≠ 0 then
    stream ++ [.lit indent, .lit "Date of first use: ", .text status.firstUseDate, .lit "\n"]
  else stream

/-- The `if (detailed)` block of `reportBatteryStatus`. -/
def reportDetailed (stream : OStream) (status : SmartBatteryStatus) : OStream :=
  let stream := reportManufacturer stream status
  let stream := reportDeviceChemistry stream status
  let stream := reportDeviceName stream status
  let stream := reportSerialNumber stream status
  let stream := reportBarCodeNumber stream status
  let stream := reportManufactureDate stream status
  reportFirstUseDate stream status

/-- The status block: `reportBatteryStatus(stream, status, detailed)`, its `if`
blocks in source order. The first two can end the program early. -/
def reportBatteryStatus (stream : OStream) (status : SmartBatteryStatus) (detailed : Bool) :
    Outcome :=
  (reportChargeStatus stream status).bind fun stream =>
    (reportRemainingCharge stream status).bind fun stream =>
      let stream := reportRemainingCapacity stream status
      let stream := reportCycleCount stream status
      let stream := reportPower stream status
      let stream := reportVoltage stream status
      let stream := reportCurrent stream status
      let stream := reportTemperature stream status
      if detailed then .ok (reportDetailed stream status) else .ok stream

/-! ## Vendor library adapter -/

/-- What a vendor entry point hands back: its return code, the caller's record as
the library left it, and the state of the library and the hardware behind it. -/
structure VendorResult (ρ σ : Type) where
  result : Int
  data : ρ
  vendor : σ

/-- An invocation of a vendor entry point: the battery id and, for the two
setters, the value in the `threshold` slot of the record passed. -/
inductive VendorCall where
  | getStart (batteryId : Int)
  | setStart (batteryId : Int) (threshold : Int)
  | getStop (batteryId : Int)
  | setStop (batteryId : Int) (threshold : Int)
  | getStatus (batteryId : Int)
deriving DecidableEq, Repr

/-- Whether a call is one of the two write entry points. -/
def VendorCall.isWrite : VendorCall → Bool
  | .setStart _ _ => true
  | .setStop _ _ => true
  | _ => false

/-- The battery id a call was made with. -/
def VendorCall.batteryId : VendorCall → Int
  | .getStart b => b
  | .setStart b _ => b
  | .getStop b => b
  | .setStop b _ => b
  | .getStatus b => b

/-- The entry points bound by `class SMInterface` after a successful construction,
as functions of the battery id, the caller's record and the vendor state `σ`.
(`getSmartBatteryStatusEx_` is bound too but `run` never calls it.) -/
structure SMInterface (σ : Type) where
  getChargeCapacityStartThreshold_ : Int → BatteryThresholdData → σ → VendorResult BatteryThresholdData σ
  setChargeCapacityStartThreshold_ : Int → BatteryThresholdData → σ → VendorResult BatteryThresholdData σ
  getChargeCapacityStopThreshold_ : Int → BatteryThresholdData → σ → VendorResult BatteryThresholdData σ
  setChargeCapacityStopThreshold_ : Int → BatteryThresholdData → σ → VendorResult BatteryThresholdData σ
  getSmartBatteryStatus_ : Int → SmartBatteryStatus → σ → VendorResult SmartBatteryStatus σ

/-- Everything `run` acts on: the vendor state, the entry points invoked so far
(oldest first), and the text written to `std::cout` and `std::cerr`. -/
structure World (σ : Type) where
  vendor : σ
  calls : List VendorCall := []
  cout : OStream := []
  cerr : OStream := []

/-- The world after an entry point was invoked and left the vendor in state `vendor`. -/
def World.called {σ : Type} (w : World σ) (call : VendorCall) (vendor : σ) : World σ :=
  { w with vendor := vendor, calls := w.calls ++ [call] }

/-- Insertions into `std::cout`. -/
def World.out {σ : Type} (w : World σ) (items : List Item) : World σ :=
  { w with cout := w.cout ++ items }

/-- Insertions into `std::cerr`. -/
def World.err {σ : Type} (w : World σ) (items : List Item) : World σ :=
  { w with cerr := w.cerr ++ items }

/-- The method `SMInterface::tryGetThresholds`. -/
def tryGetThresholds {σ : Type} (sm : SMInterface σ) (batteryId : Int) (w : World σ) :
    Option (Int × Int) × World σ :=
  let batteryData : BatteryThresholdData := {}
  let r := sm.getChargeCapacityStartThreshold_ batteryId batteryData w.vendor
  let w := w.called (.getStart batteryId) r.vendor
  if r.result ≠ 0 then (none, w)
  else
    let startThreshold := r.data.threshold
    let batteryData : BatteryThresholdData := {}
    let r := sm.getChargeCapacityStopThreshold_ batteryId batteryData w.vendor
    let w := w.called (.getStop batteryId) r.vendor
    if r.result ≠ 0 then (none, w)
    else
      let stopThreshold := r.data.threshold
      (some (startThreshold, stopThreshold), w)

/-- The method `SMInterface::trySetThresholds`. -/
def trySetThresholds {σ : Type} (sm : SMInterface σ) (batteryId startThreshold stopThreshold : Int)
    (w : World σ) : Bool × World σ :=
  let batteryData : BatteryThresholdData := {}
  let batteryData := { batteryData with threshold := startThreshold }
  let r := sm.setChargeCapacityStartThreshold_ batteryId batteryData w.vendor
  let w := w.called (.setStart batteryId startThreshold) r.vendor
  if r.result ≠ 0 then (false, w)
  else
    let batteryData : BatteryThresholdData := {}
    let batteryData := { batteryData with threshold := stopThreshold }
    let r := sm.setChargeCapacityStopThreshold_ batteryId batteryData w.vendor
    let w := w.called (.setStop batteryId stopThreshold) r.vendor
    if r.result ≠ 0 then (false, w)
    else (true, w)

/-- The method `SMInterface::tryGetSmartBatteryStatus`: whether the call succeeded,
and the caller's `status` afterwards. -/
def tryGetSmartBatteryStatus {σ : Type} (sm : SMInterface σ) (batteryId : Int) (w : World σ) :
    (Bool × SmartBatteryStatus) × World σ :=
  let status : SmartBatteryStatus := {}
  let status := { status with size := sizeofSmartBatteryStatus }
  let r := sm.getSmartBatteryStatus_ batteryId status w.vendor
  let w := w.called (.getStatus batteryId) r.vendor
  ((decide (r.result = 0), r.data), w)

/-! ## Command dispatcher -/

/-- How `run` ends: it returns an exit status, or the program ends early, or the
model ran out of fuel before the enumeration loop finished. -/
inductive RunResult (σ : Type) where
  | exit (code : Int) (w : World σ)
  | abort (why : Abort) (w : World σ)
  | outOfFuel (w : World σ)

/-- The world `run` leaves behind. -/
def RunResult.world {σ : Type} : RunResult σ → World σ
  | .exit _ w => w
  | .abort _ w => w
  | .outOfFuel w => w

/-- The exit status, when `run` returned. -/
def RunResult.code {σ : Type} : RunResult σ → Option Int
  | .exit code _ => some code
  | .abort _ _ => none
  | .outOfFuel _ => none

/-- How the program ended early, when it did. -/
def RunResult.aborted {σ : Type} : RunResult σ → Option Abort
  | .exit _ _ => none
  | .abort why _ => some why
  | .outOfFuel _ => none

/-- Set-mode from the write on (`run`, from the call of `trySetThresholds` to
`return 0`); `args` holds the values after the `--disable` override. -/
def writeAndVerify {σ : Type} (sm : SMInterface σ) (args : ProgramArgs) (w : World σ) :
    RunResult σ :=
  let r := trySetThresholds sm args.batteryId (wrapInt32 (args.startThreshold - 1))
    args.stopThreshold w
  let succeeded := r.1
  let w := r.2
  if !succeeded then
    .exit 1 (w.err [.lit "Failed to set battery thresholds ", .int args.startThreshold,
      .lit "%..", .int args.stopThreshold, .lit "% for battery #", .int args.batteryId, .lit "\n"])
  else
    let w :=
      if args.disableThresholds then
        w.out [.lit "Disable charging thresholds for battery #", .int args.batteryId, .lit "\n"]
      else
        w.out [.lit "Set thresholds for battery #", .int args.batteryId, .lit ": charge from ",
          .int args.startThreshold, .lit "% to ", .int args.stopThreshold, .lit "%\n"]
    let r := tryGetThresholds sm args.batteryId w
    let maybeThresholds := r.1
    let w := r.2
    match maybeThresholds with
    | none => .abort .terminate w
    | some (startThreshold, stopThreshold) =>
      if (args.disableThresholds ∧ (startThreshold ≠ 0 ∨ stopThreshold ≠ 0))
          ∨ (¬ args.disableThresholds ∧ (startThreshold ≠ wrapInt32 (args.startThreshold - 1)
            ∨ stopThreshold ≠ args.stopThreshold)) then
        let w := w.err [.lit "Unknown error setting battery thresholds\n"]
        .exit 1 { w with cerr := reportBatteryThresholds w.cerr startThreshold stopThreshold }
      else .exit 0 w

/-- Set-mode: the branch `if (args.setThreshold)` of `run`. -/
def runSet {σ : Type} (sm : SMInterface σ) (args : ProgramArgs) (w : World σ) : RunResult σ :=
  if args.batteryId < 1 then .exit 1 (w.err [.lit "invalid battery id\n"])
  else
    let r := tryGetThresholds sm args.batteryId w
    let maybeOldThresholds := r.1
    let w := r.2
    match maybeOldThresholds with
    | none => .exit 1 (w.err [.lit "invalid battery id\n"])
    | some _ =>
      if args.disableThresholds then
        writeAndVerify sm { args with startThreshold := 1, stopThreshold := 0 } w
      else if args.startThreshold < 0 ∨ args.startThreshold > 100 then
        .exit 1 (w.err
          [.lit "invalid charging start threshold (value must be between 1 and 100)\n"])
      else if args.stopThreshold < 0 ∨ args.stopThreshold > 100 then
        .exit 1 (w.err
          [.lit "invalid charging stop threshold (value must be between 1 and 100)\n"])
      else if args.stopThreshold ≤ args.startThreshold then
        .exit 1 (w.err
          [.lit "charging stop threshold must be greater than charging start threshold\n"])
      else writeAndVerify sm args w

/-- What both report modes do for a battery whose thresholds were read: the header
items, the threshold line and, when the status fetch succeeds, the status block.
The result is the world, and the early end if the status block did not return. -/
def reportBattery {σ : Type} (sm : SMInterface σ) (header : List Item) (batteryId : Int)
    (startThreshold stopThreshold : Int) (detailed : Bool) (w : World σ) :
    Option Abort × World σ :=
  let w := w.out header
  let w := { w with cout := reportBatteryThresholds w.cout startThreshold stopThreshold }
  let r := tryGetSmartBatteryStatus sm batteryId w
  let w := r.2
  if r.1.1 then
    match reportBatteryStatus w.cout r.1.2 detailed with
    | .ok cout => (none, { w with cout := cout })
    | .abort why cout => (some why, { w with cout := cout })
  else (none, w)

/-- Single-battery mode: the branch `else if (args.batteryId != 0)` of `run`. -/
def runSingle {σ : Type} (sm : SMInterface σ) (args : ProgramArgs) (w : World σ) : RunResult σ :=
  let r := tryGetThresholds sm args.batteryId w
  let maybeThresholds := r.1
  let w := r.2
  match maybeThresholds with
  | some (startThreshold, stopThreshold) =>
    let r := reportBattery sm [.lit "Battery #", .int args.batteryId, .lit ":\n"] args.batteryId
      startThreshold stopThreshold args.detailed w
    match r.1 with
    | none => .exit 0 r.2
    | some why => .abort why r.2
  | none => .exit 1 (w.err [.lit "invalid battery id"])

/-- Enumerate mode: the loop `for (std::int32_t batteryId = 1; ; ++batteryId)` of
`run`, entered with the current `batteryId`; one unit of fuel per iteration. -/
def runEnumerate {σ : Type} (sm : SMInterface σ) (detailed : Bool) :
    Nat → Int → World σ → RunResult σ
  | 0, _, w => .outOfFuel w
  | fuel + 1, batteryId, w =>
    let r := tryGetThresholds sm batteryId w
    let maybeThresholds := r.1
    let w := r.2
    match maybeThresholds with
    | none => .exit 0 w
    | some (startThreshold, stopThreshold) =>
      let r := reportBattery sm [.lit "\nBattery #", .int batteryId, .lit ":\n"] batteryId
        startThreshold stopThreshold detailed w
      match r.1 with
      | none => runEnumerate sm detailed fuel (wrapInt32 (batteryId + 1)) r.2
      | some why => .abort why r.2

/-- The dispatcher `run(args)`, after the `SMInterface` was constructed; `fuel`
bounds the number of iterations of the enumeration loop. -/
def run {σ : Type} (sm : SMInterface σ) (fuel : Nat) (args : ProgramArgs) (w : World σ) :
    RunResult σ :=
  if args.setThreshold then runSet sm args w
  else if args.batteryId ≠ 0 then runSingle sm args w
  else runEnumerate sm args.detailed fuel 1 w

/-! ## Adapter fakes -/

/-- State of the storing fake: which battery ids it accepts, the start and stop
thresholds stored per battery, and the status record it reports per battery. -/
structure FakeState where
  accepts : Int → Bool
  start : Int → Int
  stop : Int → Int
  status : Int → Option SmartBatteryStatus

/-- The storing fake: a setter stores the `threshold` slot for an accepted battery,
a getter returns what is stored; every entry point answers 0 for an accepted
battery and 1 otherwise (the status fetch also answers 1 when no record is scripted). -/
def storingFake : SMInterface FakeState where
  getChargeCapacityStartThreshold_ := fun batteryId data s =>
    if s.accepts batteryId then ⟨0, { data with threshold := s.start batteryId }, s⟩
    else ⟨1, data, s⟩
  setChargeCapacityStartThreshold_ := fun batteryId data s =>
    if s.accepts batteryId then
      ⟨0, data, { s with start := fun b => if b = batteryId then data.threshold else s.start b }⟩
    else ⟨1, data, s⟩
  getChargeCapacityStopThreshold_ := fun batteryId data s =>
    if s.accepts batteryId then ⟨0, { data with threshold := s.stop batteryId }, s⟩
    else ⟨1, data, s⟩
  setChargeCapacityStopThreshold_ := fun batteryId data s =>
    if s.accepts batteryId then
      ⟨0, data, { s with stop := fun b => if b = batteryId then data.threshold else s.stop b }⟩
    else ⟨1, data, s⟩
  getSmartBatteryStatus_ := fun batteryId data s =>
    if s.accepts batteryId then
      match s.status batteryId with
      | some status => ⟨0, status, s⟩
      | none => ⟨1, data, s⟩
    else ⟨1, data, s⟩

/-- A storing fake state with batteries `1..k` installed, thresholds disabled and
the same scripted status answer for every battery. -/
def fakeWith (k : Int) (status : Option SmartBatteryStatus) : FakeState where
  accepts := fun b => decide (1 ≤ b ∧ b ≤ k)
  start := fun _ => 0
  stop := fun _ => 0
  status := fun _ => status

/-- A scripted fake whose state counts the getter calls made so far: the setters
always answer 0, the getters answer 0 for the first `good` calls (reporting a
threshold of 0) and 1 afterwards. -/
def scriptedFake (good : Nat) : SMInterface Nat where
  getChargeCapacityStartThreshold_ := fun _ data n => ⟨if n < good then 0 else 1, data, n + 1⟩
  setChargeCapacityStartThreshold_ := fun _ data n => ⟨0, data, n⟩
  getChargeCapacityStopThreshold_ := fun _ data n => ⟨if n < good then 0 else 1, data, n + 1⟩
  setChargeCapacityStopThreshold_ := fun _ data n => ⟨0, data, n⟩
  getSmartBatteryStatus_ := fun _ data n => ⟨1, data, n⟩

/-- A status record whose charge status is none of the three enumerators. -/
def statusInvalidCharge : SmartBatteryStatus :=
  { canReportChargeStatus := 1, chargeStatus := 3 }

/-- A status record showing 37 % and `remainingTime` minutes left. -/
def statusWithTime (remainingTime : Nat) : SmartBatteryStatus :=
  { canReportRemainingCharge := 1, remainingCharge := 37, canReportRemainingTime := 1,
    remainingTime := remainingTime }

/-- A status record asking for the `Status:` line with a charge status that is none
of the enumerators, and for a charge line with 125 minutes left. -/
def statusInvalidChargeWithTime : SmartBatteryStatus :=
  { canReportChargeStatus := 1, chargeStatus := 3, canReportRemainingCharge := 1,
    remainingCharge := 37, canReportRemainingTime := 1, remainingTime := 125 }

/-- A discharging record on AC power with the `Status:` line due, whose charge line
asks for a time of 1440 minutes. -/
def statusDischargingOnAC : SmartBatteryStatus :=
  { canReportChargeStatus := 1, chargeStatus := 2, acDischarge := 1,
    canReportRemainingCharge := 1, remainingCharge := 37, canReportRemainingTime := 1,
    remainingTime := 1440 }

/-- A status record with the `Status:` line due for a charge status that is none of
the enumerators, and with a manufacturer to show in detailed mode. -/
def statusInvalidChargeDetailed : SmartBatteryStatus :=
  { canReportChargeStatus := 1, chargeStatus := 3, canReportManufacturer := 1,
    manufacturer := "SANYO" }

/-- A status record with a voltage, a manufacturer and a chemistry code that is none
of the six enumerators. -/
def statusUnknownChemistry : SmartBatteryStatus :=
  { canReportVoltage := 1, voltage := 12000, canReportManufacturer := 1,
    manufacturer := "SANYO", canReportDeviceChemistry := 1, deviceChemistry := 7 }

/-- The record `statusWithTime remainingTime` with the charge status charging; its
`canReportChargeStatus` is zero, as in `statusWithTime`. -/
def statusWithTimeCharging (remainingTime : Nat) : SmartBatteryStatus :=
  { statusWithTime remainingTime with chargeStatus := BatteryChargeStatus.charging }

/-- A fake without state whose getters and start setter answer 0 and whose stop setter
answers 1. -/
def stopFailingFake : SMInterface Unit where
  getChargeCapacityStartThreshold_ := fun _ data s => ⟨0, data, s⟩
  setChargeCapacityStartThreshold_ := fun _ data s => ⟨0, data, s⟩
  getChargeCapacityStopThreshold_ := fun _ data s => ⟨0, data, s⟩
  setChargeCapacityStopThreshold_ := fun _ data s => ⟨1, data, s⟩
  getSmartBatteryStatus_ := fun _ data s => ⟨1, data, s⟩

/-! ## Vocabulary of the statements -/

/-- The items the first two lines of the status block can insert, each with the
capability flag that gates its line. -/
def ChargeItem (status : SmartBatteryStatus) (x : Item) : Prop :=
  (status.canReportChargeStatus ≠ 0 ∧
    x ∈ [Item.lit "    ", .lit "Status: ", .lit "inactive", .lit "charging", .lit "discharging",
      .lit " (AC)", .lit "\n"]) ∨
  (status.canReportRemainingCharge ≠ 0 ∧
    (x ∈ [Item.lit "    ", .lit "Current charge: ", .uint status.remainingCharge, .lit "%",
      .lit " (", .lit " left)", .lit " until charging complete)", .lit "\n"]
      ∨ ∃ t, x = .text t))

/-- The items lines 3 to 8 of the status block can insert, each with the capability
flag that gates its line. -/
def BasicItem (status : SmartBatteryStatus) (x : Item) : Prop :=
  (status.canReportRemainingCapacity ≠ 0 ∧
    x ∈ [Item.lit "    ", .lit "Current capacity: ", .uint status.remainingCapacity, .lit " mWh",
      .lit " of ", .uint status.fullChargeCapacity, .lit " (design capacity ",
      .uint status.designCapacity, .lit " mWh)", .lit "\n"]) ∨
  (status.canReportCycleCount ≠ 0 ∧
    x ∈ [Item.lit "    ", .lit "Number of charge/discharge cycles: ", .uint status.cycleCount,
      .lit "\n"]) ∨
  ((status.canReportVoltage ≠ 0 ∧ status.canReportCurrent ≠ 0) ∧
    x ∈ [Item.lit "    ", .lit "Power consumption: ", .uint (powerConsumption status),
      .lit " mW\n"]) ∨
  (status.canReportVoltage ≠ 0 ∧
    x ∈ [Item.lit "    ", .lit "Voltage: ", .uint status.voltage, .lit " mV",
      .lit " (design voltage ", .uint status.designVoltage, .lit " mV)", .lit "\n"]) ∨
  (status.canReportCurrent ≠ 0 ∧
    x ∈ [Item.lit "    ", .lit "Current: ", .int status.current, .lit " mA\n"]) ∨
  (status.canReportTemperature ≠ 0 ∧
    x ∈ [Item.lit "    ", .lit "Temperature: ", .uint status.temperature, .lit " °C\n"])

/-- The items the detailed lines can insert, each with the capability flag that
gates its line. -/
def DetailedItem (status : SmartBatteryStatus) (x : Item) : Prop :=
  (status.canReportManufacturer ≠ 0 ∧
    x ∈ [Item.lit "    ", .lit "Manufacturer: ", .text status.manufacturer, .lit "\n"]) ∨
  (status.canReportDeviceChemistry ≠ 0 ∧
    x ∈ [Item.lit "    ", .lit "Chemistry: ", .lit "Lithium-Ion", .lit "NiMH", .lit "NiCd",
      .lit "Lithium-Polymer", .lit "unknown", .lit "Silver-Zinc", .lit "-", .lit "\n"]) ∨
  (status.canReportDeviceName ≠ 0 ∧
    x ∈ [Item.lit "    ", .lit "FRU: ", .text status.deviceName, .lit "\n"]) ∨
  (status.canReportSerialNumber ≠ 0 ∧
    x ∈ [Item.lit "    ", .lit "Serial number: ", .uint status.serialNumber, .lit "\n"]) ∨
  (status.canReportBarCodeNumber ≠ 0 ∧
    x ∈ [Item.lit "    ", .lit "Bar code number: ", .text status.barCodeNumber, .lit "\n"]) ∨
  (status.canReportManufactureDate ≠ 0 ∧
    x ∈ [Item.lit "    ", .lit "Date of manufacture: ", .text status.manufactureDate, .lit "\n"]) ∨
  (status.canReportFirstUseDate ≠ 0 ∧
    x ∈ [Item.lit "    ", .lit "Date of first use: ", .text status.firstUseDate, .lit "\n"])

/-- Every capability flag of the record is zero. -/
def SmartBatteryStatus.noCapability (status : SmartBatteryStatus) : Prop :=
  status.canReportChargeStatus = 0 ∧ status.canReportRemainingCharge = 0 ∧
  status.canReportRemainingCapacity = 0 ∧ status.canReportRemainingTime = 0 ∧
  status.canReportChargeCompletionTime = 0 ∧ status.canReportVoltage = 0 ∧
  status.canReportCurrent = 0 ∧ status.canReportTemperature = 0 ∧
  status.canReportCycleCount = 0 ∧ status.canReportFullChargeCapacity = 0 ∧
  status.canReportDesignCapacity = 0 ∧ status.canReportDesignVoltage = 0 ∧
  status.canReportDeviceChemistry = 0 ∧ status.canReportSerialNumber = 0 ∧
  status.canReportManufactureDate = 0 ∧ status.canReportManufacturer = 0 ∧
  status.canReportDeviceName = 0 ∧ status.canReportBarCodeNumber = 0 ∧
  status.canReportFirstUseDate = 0

/-- The confirmation line of set-mode, printed after a successful write. -/
def confirmation (args : ProgramArgs) : List Item :=
  if args.disableThresholds then
    [.lit "Disable charging thresholds for battery #", .int args.batteryId, .lit "\n"]
  else
    [.lit "Set thresholds for battery #", .int args.batteryId, .lit ": charge from ",
      .int args.startThreshold, .lit "% to ", .int args.stopThreshold, .lit "%\n"]

/-- The diagnostic of set-mode for a failed write. -/
def writeFailure (args : ProgramArgs) : List Item :=
  [.lit "Failed to set battery thresholds ", .int args.startThreshold, .lit "%..",
    .int args.stopThreshold, .lit "% for battery #", .int args.batteryId, .lit "\n"]

/-- The pair set-mode compares the readback with: `(0, 0)` under `--disable`,
otherwise `(startThreshold - 1, stopThreshold)`. -/
def expectedReadback (args : ProgramArgs) : Int × Int :=
  if args.disableThresholds then (0, 0)
  else (wrapInt32 (args.startThreshold - 1), args.stopThreshold)

/-- A formatter outcome seen from a stream that already held `stream`. -/
def Outcome.after (stream : OStream) : Outcome → Outcome
  | .ok s => .ok (stream ++ s)
  | .abort why s => .abort why (stream ++ s)

/-- The status block of the record can be rendered: if the `Status:` line is due the
charge status is one of the three enumerators, and if a time is due on the charge
line it is below 24 hours, the range in which `strftime` fixes the text. -/
def SmartBatteryStatus.renders (status : SmartBatteryStatus) : Prop :=
  (status.canReportChargeStatus ≠ 0 →
    status.chargeStatus = BatteryChargeStatus.inactive ∨
    status.chargeStatus = BatteryChargeStatus.charging ∨
    status.chargeStatus = BatteryChargeStatus.discharging) ∧
  (status.canReportRemainingCharge ≠ 0 →
    (status.canReportRemainingTime ≠ 0 ∧ status.chargeStatus ≠ BatteryChargeStatus.charging →
      status.remainingTime < 1440) ∧
    (status.canReportChargeCompletionTime ≠ 0 ∧
      status.chargeStatus = BatteryChargeStatus.charging → status.chargeCompletionTime < 1440))

/-- The battery blocks enumerate mode is to print for the ids `n, n + 1, …`
(`count` of them, as long as the threshold read answers), starting with the vendor
in state `vendor`: per battery `\nBattery #n:\n`, the threshold line for the pair
read and, when the status fetch succeeds, the status block of the record fetched. -/
def enumerationBlocks {σ : Type} (sm : SMInterface σ) (detailed : Bool) :
    Nat → Int → σ → List OStream
  | 0, _, _ => []
  | count + 1, n, vendor =>
    let r := tryGetThresholds sm n { vendor := vendor }
    match r.1 with
    | none => []
    | some (startThreshold, stopThreshold) =>
      let st := tryGetSmartBatteryStatus sm n { vendor := r.2.vendor }
      ([.lit "\nBattery #", .int n, .lit ":\n"]
        ++ reportBatteryThresholds [] startThreshold stopThreshold
        ++ (if st.1.1 then (reportBatteryStatus [] st.1.2 detailed).stream else []))
        :: enumerationBlocks sm detailed count (n + 1) st.2.vendor

/-- A number in decimal, zero-padded to two digits. -/
def zeroPad2 (n : Nat) : String :=
  if n < 10 then "0" ++ toString n else toString n

/-- The text `HH:MM` for a time of `m` minutes: `m / 60` and `m % 60`, each
zero-padded to two digits. -/
def hhmm (m : Nat) : String := zeroPad2 (m / 60) ++ ":" ++ zeroPad2 (m % 60)

/-- The blocks of `reportBatteryStatus` after the charge line, written to `stream`:
capacity, cycles, power, voltage, current, temperature and, in detailed mode, the
detailed lines. -/
def reportTail (stream : OStream) (status : SmartBatteryStatus) (detailed : Bool) : OStream :=
  let stream := reportRemainingCapacity stream status
  let stream := reportCycleCount stream status
  let stream := reportPower stream status
  let stream := reportVoltage stream status
  let stream := reportCurrent stream status
  let stream := reportTemperature stream status
  if detailed then reportDetailed stream status else stream

/-- The charge line as the specification words it, with the charging test first:
when the state is charging and `chargeCompletionTime` is present append
` (HH:MM until charging complete)`, otherwise when the state is not charging and
`remainingTime` is present append ` (HH:MM left)`. -/
def reportRemainingChargeSpec (stream : OStream) (status : SmartBatteryStatus) : Outcome :=
  let indent := "    "
  if status.canReportRemainingCharge ≠ 0 then
    let stream := stream ++ [.lit indent, .lit "Current charge: ", .uint status.remainingCharge,
      .lit "%"]
    if status.chargeStatus = BatteryChargeStatus.charging
        ∧ status.canReportChargeCompletionTime ≠ 0 then
      let timerec : Tm :=
        { tm_hour := status.chargeCompletionTime / 60, tm_min := status.chargeCompletionTime % 60 }
      match strftimeHM timerec with
      | some timestr =>
        .ok (stream ++ [.lit " (", .text timestr, .lit " until charging complete)"] ++ [.lit "\n"])
      | none => .abort .strftime stream
    else if status.chargeStatus ≠ BatteryChargeStatus.charging
        ∧ status.canReportRemainingTime ≠ 0 then
      let timerec : Tm := { tm_hour := status.remainingTime / 60, tm_min := status.remainingTime % 60 }
      match strftimeHM timerec with
      | some timestr => .ok (stream ++ [.lit " (", .text timestr, .lit " left)"] ++ [.lit "\n"])
      | none => .abort .strftime stream
    else .ok (stream ++ [.lit "\n"])
  else .ok stream

/-- The time suffix of the charge line for a record that can be rendered, with the
tests in the order of the specification. -/
def timeSuffix (status : SmartBatteryStatus) : List Item :=
  if status.chargeStatus = BatteryChargeStatus.charging
      ∧ status.canReportChargeCompletionTime ≠ 0 then
    [.lit " (", .text (hhmm status.chargeCompletionTime), .lit " until charging complete)"]
  else if status.chargeStatus ≠ BatteryChargeStatus.charging
      ∧ status.canReportRemainingTime ≠ 0 then
    [.lit " (", .text (hhmm status.remainingTime), .lit " left)"]
  else []

/-- The name the charge-status printer writes for each of the three enumerators. -/
def chargeStatusName (chargeStatus : BatteryChargeStatus) : String :=
  if chargeStatus = BatteryChargeStatus.inactive then "inactive"
  else if chargeStatus = BatteryChargeStatus.charging then "charging"
  else "discharging"

/-- The charge status is one of the three enumerators. -/
def SmartBatteryStatus.chargeStatusValid (status : SmartBatteryStatus) : Prop :=
  status.chargeStatus = BatteryChargeStatus.inactive ∨
  status.chargeStatus = BatteryChargeStatus.charging ∨
  status.chargeStatus = BatteryChargeStatus.discharging

/-- The `Status:` line for a record whose charge status is one of the enumerators. -/
def statusLine (status : SmartBatteryStatus) : List Item :=
  [.lit "    ", .lit "Status: ", .lit (chargeStatusName status.chargeStatus)]
    ++ (if status.chargeStatus = BatteryChargeStatus.discharging ∧ status.acDischarge ≠ 0 then
          [.lit " (AC)"] else [])
    ++ [.lit "\n"]

/-- The charge line for a record whose time, if shown, is below 24 hours. -/
def chargeLine (status : SmartBatteryStatus) : List Item :=
  [.lit "    ", .lit "Current charge: ", .uint status.remainingCharge, .lit "%"]
    ++ timeSuffix status ++ [.lit "\n"]

/-- The name the chemistry printer writes for a chemistry code. -/
def chemistryName (batteryChemistry : BatteryChemistry) : String :=
  if batteryChemistry = BatteryChemistry.LiIon then "Lithium-Ion"
  else if batteryChemistry = BatteryChemistry.NiMH then "NiMH"
  else if batteryChemistry = BatteryChemistry.NiCd then "NiCd"
  else if batteryChemistry = BatteryChemistry.LiPolymer then "Lithium-Polymer"
  else if batteryChemistry = BatteryChemistry.Unknown then "unknown"
  else if batteryChemistry = BatteryChemistry.SilverZinc then "Silver-Zinc"
  else "-"

/-- The seven detailed lines in the order they are emitted, each present if and only
if its capability flag is non-zero. -/
def detailedLines (status : SmartBatteryStatus) : List Item :=
  (if status.canReportManufacturer ≠ 0 then
      [.lit "    ", .lit "Manufacturer: ", .text status.manufacturer, .lit "\n"] else [])
  ++ (if status.canReportDeviceChemistry ≠ 0 then
      [.lit "    ", .lit "Chemistry: ", .lit (chemistryName status.deviceChemistry), .lit "\n"]
      else [])
  ++ (if status.canReportDeviceName ≠ 0 then
      [.lit "    ", .lit "FRU: ", .text status.deviceName, .lit "\n"] else [])
  ++ (if status.canReportSerialNumber ≠ 0 then
      [.lit "    ", .lit "Serial number: ", .uint status.serialNumber, .lit "\n"] else [])
  ++ (if status.canReportBarCodeNumber ≠ 0 then
      [.lit "    ", .lit "Bar code number: ", .text status.barCodeNumber, .lit "\n"] else [])
  ++ (if status.canReportManufactureDate ≠ 0 then
      [.lit "    ", .lit "Date of manufacture: ", .text status.manufactureDate, .lit "\n"]
      else [])
  ++ (if status.canReportFirstUseDate ≠ 0 then
      [.lit "    ", .lit "Date of first use: ", .text status.firstUseDate, .lit "\n"] else [])

/-- The option values set-mode works with from the write on: `start = 1, stop = 0`
under `--disable`, the values given otherwise. -/
def effectiveArgs (args : ProgramArgs) : ProgramArgs :=
  if args.disableThresholds then { args with startThreshold := 1, stopThreshold := 0 }
  else args

/-- The six entry-point calls of a complete set-mode run, in order: read, write,
read back. -/
def setModeCalls (args : ProgramArgs) : List VendorCall :=
  [.getStart args.batteryId, .getStop args.batteryId,
   .setStart args.batteryId (expectedReadback args).1,
   .setStop args.batteryId (expectedReadback args).2,
   .getStart args.batteryId, .getStop args.batteryId]

/-! ## Basic facts about streams and machine integers -/

theorem OStream.str_append (a b : OStream) :
    OStream.str (a ++ b) = OStream.str a ++ OStream.str b := by
  apply String.ext
  simp [OStream.str, String.join_eq]

theorem OStream.str_nil : OStream.str [] = "" := rfl

theorem OStream.str_cons (x : Item) (xs : OStream) :
    OStream.str (x :: xs) = x.str ++ OStream.str xs :=
  OStream.str_append [x] xs ▸ (by simp [OStream.str, String.join])

theorem wrapInt32_of_isInt32 {x : Int} (h : IsInt32 x) : wrapInt32 x = x := by
  unfold IsInt32 at h
  unfold wrapInt32
  omega

theorem Outcome.mem_stream_bind {x : Item} {o : Outcome} {f : OStream → Outcome}
    (h : x ∈ (o.bind f).stream) : x ∈ o.stream ∨ ∃ s, o = .ok s ∧ x ∈ (f s).stream := by
  cases o with
  | ok s => exact Or.inr ⟨s, rfl, h⟩
  | abort why s => exact Or.inl h

/-! ## Which items each block of the status report can insert -/

theorem mem_insertBatteryChargeStatus {x : Item} {stream : OStream} {chargeStatus : Int}
    (h : x ∈ (insertBatteryChargeStatus stream chargeStatus).stream) :
    x ∈ stream ∨ x ∈ [Item.lit "inactive", .lit "charging", .lit "discharging"] := by
  unfold insertBatteryChargeStatus at h
  split_ifs at h <;> simp [Outcome.stream] at h ⊢ <;> tauto

theorem mem_insertBatteryChemistry {x : Item} {stream : OStream} {chemistry : Int}
    (h : x ∈ insertBatteryChemistry stream chemistry) :
    x ∈ stream ∨ x ∈ [Item.lit "Lithium-Ion", .lit "NiMH", .lit "NiCd", .lit "Lithium-Polymer",
      .lit "unknown", .lit "Silver-Zinc", .lit "-"] := by
  unfold insertBatteryChemistry at h
  split_ifs at h <;> simp at h ⊢ <;> tauto

theorem mem_reportChargeStatus {x : Item} {stream : OStream} {status : SmartBatteryStatus}
    (h : x ∈ (reportChargeStatus stream status).stream) :
    x ∈ stream ∨ (status.canReportChargeStatus ≠ 0 ∧
      x ∈ [Item.lit "    ", .lit "Status: ", .lit "inactive", .lit "charging", .lit "discharging",
        .lit " (AC)", .lit "\n"]) := by
  unfold reportChargeStatus insertBatteryChargeStatus at h
  split_ifs at h <;> simp [Outcome.stream, Outcome.bind] at h ⊢ <;> tauto

theorem mem_reportRemainingCharge {x : Item} {stream : OStream} {status : SmartBatteryStatus}
    (h : x ∈ (reportRemainingCharge stream status).stream) :
    x ∈ stream ∨ (status.canReportRemainingCharge ≠ 0 ∧
      (x ∈ [Item.lit "    ", .lit "Current charge: ", .uint status.remainingCharge, .lit "%",
        .lit " (", .lit " left)", .lit " until charging complete)", .lit "\n"]
        ∨ ∃ t, x = .text t)) := by
  unfold reportRemainingCharge at h
  split_ifs at h
  · dsimp only at h
    split at h <;> simp [Outcome.stream] at h ⊢ <;> tauto
  · dsimp only at h
    split at h <;> simp [Outcome.stream] at h ⊢ <;> tauto
  · simp [Outcome.stream] at h ⊢; tauto
  · exact Or.inl h

theorem mem_reportRemainingCapacity {x : Item} {stream : OStream} {status : SmartBatteryStatus}
    (h : x ∈ reportRemainingCapacity stream status) :
    x ∈ stream ∨ (status.canReportRemainingCapacity ≠ 0 ∧
      x ∈ [Item.lit "    ", .lit "Current capacity: ", .uint status.remainingCapacity, .lit " mWh",
        .lit " of ", .uint status.fullChargeCapacity, .lit " (design capacity ",
        .uint status.designCapacity, .lit " mWh)", .lit "\n"]) := by
  unfold reportRemainingCapacity at h
  split_ifs at h <;> simp at h ⊢ <;> tauto

theorem mem_reportCycleCount {x : Item} {stream : OStream} {status : SmartBatteryStatus}
    (h : x ∈ reportCycleCount stream status) :
    x ∈ stream ∨ (status.canReportCycleCount ≠ 0 ∧
      x ∈ [Item.lit "    ", .lit "Number of charge/discharge cycles: ", .uint status.cycleCount,
        .lit "\n"]) := by
  unfold reportCycleCount at h
  split_ifs at h <;> simp at h ⊢ <;> tauto

theorem mem_reportPower {x : Item} {stream : OStream} {status : SmartBatteryStatus}
    (h : x ∈ reportPower stream status) :
    x ∈ stream ∨ ((status.canReportVoltage ≠ 0 ∧ status.canReportCurrent ≠ 0) ∧
      x ∈ [Item.lit "    ", .lit "Power consumption: ", .uint (powerConsumption status),
        .lit " mW\n"]) := by
  unfold reportPower at h
  split_ifs at h <;> simp at h ⊢ <;> tauto

theorem mem_reportVoltage {x : Item} {stream : OStream} {status : SmartBatteryStatus}
    (h : x ∈ reportVoltage stream status) :
    x ∈ stream ∨ (status.canReportVoltage ≠ 0 ∧
      x ∈ [Item.lit "    ", .lit "Voltage: ", .uint status.voltage, .lit " mV",
        .lit " (design voltage ", .uint status.designVoltage, .lit " mV)", .lit "\n"]) := by
  unfold reportVoltage at h
  split_ifs at h <;> simp at h ⊢ <;> tauto

theorem mem_reportCurrent {x : Item} {stream : OStream} {status : SmartBatteryStatus}
    (h : x ∈ reportCurrent stream status) :
    x ∈ stream ∨ (status.canReportCurrent ≠ 0 ∧
      x ∈ [Item.lit "    ", .lit "Current: ", .int status.current, .lit " mA\n"]) := by
  unfold reportCurrent at h
  split_ifs at h <;> simp at h ⊢ <;> tauto

theorem mem_reportTemperature {x : Item} {stream : OStream} {status : SmartBatteryStatus}
    (h : x ∈ reportTemperature stream status) :
    x ∈ stream ∨ (status.canReportTemperature ≠ 0 ∧
      x ∈ [Item.lit "    ", .lit "Temperature: ", .uint status.temperature, .lit " °C\n"]) := by
  unfold reportTemperature at h
  split_ifs at h <;> simp at h ⊢ <;> tauto

theorem mem_reportManufacturer {x : Item} {stream : OStream} {status : SmartBatteryStatus}
    (h : x ∈ reportManufacturer stream status) :
    x ∈ stream ∨ (status.canReportManufacturer ≠ 0 ∧
      x ∈ [Item.lit "    ", .lit "Manufacturer: ", .text status.manufacturer, .lit "\n"]) := by
  unfold reportManufacturer at h
  split_ifs at h <;> simp at h ⊢ <;> tauto

theorem mem_reportDeviceChemistry {x : Item} {stream : OStream} {status : SmartBatteryStatus}
    (h : x ∈ reportDeviceChemistry stream status) :
    x ∈ stream ∨ (status.canReportDeviceChemistry ≠ 0 ∧
      x ∈ [Item.lit "    ", .lit "Chemistry: ", .lit "Lithium-Ion", .lit "NiMH", .lit "NiCd",
        .lit "Lithium-Polymer", .lit "unknown", .lit "Silver-Zinc", .lit "-", .lit "\n"]) := by
  unfold reportDeviceChemistry insertBatteryChemistry at h
  split_ifs at h <;> simp at h ⊢ <;> tauto

theorem mem_reportDeviceName {x : Item} {stream : OStream} {status : SmartBatteryStatus}
    (h : x ∈ reportDeviceName stream status) :
    x ∈ stream ∨ (status.canReportDeviceName ≠ 0 ∧
      x ∈ [Item.lit "    ", .lit "FRU: ", .text status.deviceName, .lit "\n"]) := by
  unfold reportDeviceName at h
  split_ifs at h <;> simp at h ⊢ <;> tauto

theorem mem_reportSerialNumber {x : Item} {stream : OStream} {status : SmartBatteryStatus}
    (h : x ∈ reportSerialNumber stream status) :
    x ∈ stream ∨ (status.canReportSerialNumber ≠ 0 ∧
      x ∈ [Item.lit "    ", .lit "Serial number: ", .uint status.serialNumber, .lit "\n"]) := by
  unfold reportSerialNumber at h
  split_ifs at h <;> simp at h ⊢ <;> tauto

theorem mem_reportBarCodeNumber {x : Item} {stream : OStream} {status : SmartBatteryStatus}
    (h : x ∈ reportBarCodeNumber stream status) :
    x ∈ stream ∨ (status.canReportBarCodeNumber ≠ 0 ∧
      x ∈ [Item.lit "    ", .lit "Bar code number: ", .text status.barCodeNumber, .lit "\n"]) := by
  unfold reportBarCodeNumber at h
  split_ifs at h <;> simp at h ⊢ <;> tauto

theorem mem_reportManufactureDate {x : Item} {stream : OStream} {status : SmartBatteryStatus}
    (h : x ∈ reportManufactureDate stream status) :
    x ∈ stream ∨ (status.canReportManufactureDate ≠ 0 ∧
      x ∈ [Item.lit "    ", .lit "Date of manufacture: ", .text status.manufactureDate, .lit "\n"]) := by
  unfold reportManufactureDate at h
  split_ifs at h <;> simp at h ⊢ <;> tauto

theorem mem_reportFirstUseDate {x : Item} {stream : OStream} {status : SmartBatteryStatus}
    (h : x ∈ reportFirstUseDate stream status) :
    x ∈ stream ∨ (status.canReportFirstUseDate ≠ 0 ∧
      x ∈ [Item.lit "    ", .lit "Date of first use: ", .text status.firstUseDate, .lit "\n"]) := by
  unfold reportFirstUseDate at h
  split_ifs at h <;> simp at h ⊢ <;> tauto

theorem mem_reportBasic {x : Item} {stream : OStream} {status : SmartBatteryStatus}
    (h : x ∈ reportTemperature (reportCurrent (reportVoltage (reportPower (reportCycleCount
      (reportRemainingCapacity stream status) status) status) status) status) status) :
    x ∈ stream ∨ BasicItem status x := by
  unfold BasicItem
  rcases mem_reportTemperature h with h | h6
  rcases mem_reportCurrent h with h | h5
  rcases mem_reportVoltage h with h | h4
  rcases mem_reportPower h with h | h3
  rcases mem_reportCycleCount h with h | h2
  rcases mem_reportRemainingCapacity h with h | h1
  all_goals simp only [*, ne_eq, not_false_eq_true, and_self, or_true, true_or]

theorem mem_reportDetailed {x : Item} {stream : OStream} {status : SmartBatteryStatus}
    (h : x ∈ reportDetailed stream status) : x ∈ stream ∨ DetailedItem status x := by
  unfold DetailedItem
  unfold reportDetailed at h
  rcases mem_reportFirstUseDate h with h | h7
  rcases mem_reportManufactureDate h with h | h6
  rcases mem_reportBarCodeNumber h with h | h5
  rcases mem_reportSerialNumber h with h | h4
  rcases mem_reportDeviceName h with h | h3
  rcases mem_reportDeviceChemistry h with h | h2
  rcases mem_reportManufacturer h with h | h1
  all_goals simp only [*, ne_eq, not_false_eq_true, and_self, or_true, true_or]

theorem mem_reportBatteryStatus {x : Item} {stream : OStream} {status : SmartBatteryStatus}
    {detailed : Bool} (h : x ∈ (reportBatteryStatus stream status detailed).stream) :
    x ∈ stream ∨ ChargeItem status x ∨ BasicItem status x
      ∨ (detailed = true ∧ DetailedItem status x) := by
  unfold reportBatteryStatus at h
  have key1 : ∀ y, y ∈ (reportChargeStatus stream status).stream →
      y ∈ stream ∨ ChargeItem status y := fun y hy =>
    (mem_reportChargeStatus hy).imp_right Or.inl
  rcases Outcome.mem_stream_bind h with h | ⟨s1, hs1, h⟩
  · rcases key1 x h with h | h
    · exact Or.inl h
    · exact Or.inr (Or.inl h)
  · have key2 : ∀ y, y ∈ (reportRemainingCharge s1 status).stream →
        y ∈ stream ∨ ChargeItem status y := by
      intro y hy
      rcases mem_reportRemainingCharge hy with hy | hy
      · exact key1 y (by rw [hs1]; exact hy)
      · exact Or.inr (Or.inr hy)
    rcases Outcome.mem_stream_bind h with h | ⟨s2, hs2, h⟩
    · rcases key2 x h with h | h
      · exact Or.inl h
      · exact Or.inr (Or.inl h)
    · have key3 : ∀ y, y ∈ s2 → y ∈ stream ∨ ChargeItem status y :=
        fun y hy => key2 y (by rw [hs2]; exact hy)
      cases detailed with
      | false =>
        simp only [Outcome.stream, Bool.false_eq_true, if_false] at h
        rcases mem_reportBasic h with h | h
        · rcases key3 x h with h | h
          · exact Or.inl h
          · exact Or.inr (Or.inl h)
        · exact Or.inr (Or.inr (Or.inl h))
      | true =>
        simp only [Outcome.stream, if_true] at h
        rcases mem_reportDetailed h with h | h
        · rcases mem_reportBasic h with h | h
          · rcases key3 x h with h | h
            · exact Or.inl h
            · exact Or.inr (Or.inl h)
          · exact Or.inr (Or.inr (Or.inl h))
        · exact Or.inr (Or.inr (Or.inr ⟨rfl, h⟩))

theorem reportBatteryStatus_noCapability (stream : OStream) (status : SmartBatteryStatus)
    (detailed : Bool) (h : status.noCapability) :
    reportBatteryStatus stream status detailed = .ok stream := by
  unfold SmartBatteryStatus.noCapability at h
  cases detailed <;>
  simp [reportBatteryStatus, reportChargeStatus, reportRemainingCharge, reportRemainingCapacity,
    reportCycleCount, reportPower, reportVoltage, reportCurrent, reportTemperature,
    reportDetailed, reportManufacturer, reportDeviceChemistry, reportDeviceName,
    reportSerialNumber, reportBarCodeNumber, reportManufactureDate, reportFirstUseDate,
    Outcome.bind, h]

/-! ## The claims -/

/-- C1 (the code at the failing input): with both `canReportVoltage` and
`canReportCurrent` set, `voltage = 12000` and the discharge current `current = -1500`,
`reportBatteryStatus` returns and its power line reads `4276967 mW`, while the
signed quotient of the mathematical product is `-18000`; with `current = 1500`
the line reads `18000 mW`. -/
theorem reportBatteryStatus_power_of_negative_current :
    reportBatteryStatus []
        { canReportVoltage := 1, voltage := 12000, canReportCurrent := 1, current := -1500 } false
      = .ok [.lit "    ", .lit "Power consumption: ", .uint 4276967, .lit " mW\n",
          .lit "    ", .lit "Voltage: ", .uint 12000, .lit " mV", .lit "\n",
          .lit "    ", .lit "Current: ", .int (-1500), .lit " mA\n"] ∧
    (reportBatteryStatus []
        { canReportVoltage := 1, voltage := 12000, canReportCurrent := 1, current := -1500 }
        false).stream.str
      = "    Power consumption: 4276967 mW\n    Voltage: 12000 mV\n    Current: -1500 mA\n" ∧
    ((12000 : Int) * (-1500)) / 1000 = -18000 ∧
    (reportBatteryStatus []
        { canReportVoltage := 1, voltage := 12000, canReportCurrent := 1, current := 1500 }
        false).stream.str
      = "    Power consumption: 18000 mW\n    Voltage: 12000 mV\n    Current: 1500 mA\n" := by
  refine ⟨?_, ?_, ?_, ?_⟩ <;> decide

/-- C2 (the code at the failing input): in set-mode with `--start 0 --stop 50` for
battery 1 of a storing fake, `run` passes validation, calls the write entry points
with `-1` and `50`, stores that pair and returns 0; the pair `(-1, 50)` is neither
`(0, 0)` nor within `0 ≤ start < stop ≤ 100`. -/
theorem run_set_start_zero_writes_minus_one :
    (run storingFake 0
        { setThreshold := true, batteryId := 1, startThreshold := 0, stopThreshold := 50 }
        { vendor := fakeWith 1 none }).world.calls
      = [.getStart 1, .getStop 1, .setStart 1 (-1), .setStop 1 50, .getStart 1, .getStop 1] ∧
    (run storingFake 0
        { setThreshold := true, batteryId := 1, startThreshold := 0, stopThreshold := 50 }
        { vendor := fakeWith 1 none }).code = some 0 ∧
    (run storingFake 0
        { setThreshold := true, batteryId := 1, startThreshold := 0, stopThreshold := 50 }
        { vendor := fakeWith 1 none }).world.vendor.start 1 = -1 ∧
    ¬ (((-1 : Int) = 0 ∧ (50 : Int) = 0) ∨ ((0 : Int) ≤ -1 ∧ (-1 : Int) < 50 ∧ (50 : Int) ≤ 100)) := by
  refine ⟨?_, ?_, ?_, ?_⟩ <;> decide

/-- C3: with the storing fake, for a battery id `≥ 1` it accepts and `1 ≤ s < S ≤ 100`,
`run` in set-mode (`disableThresholds = false`, `startThreshold = s`,
`stopThreshold = S`) returns 0, leaves `(s - 1, S)` stored, prints
`Set thresholds for battery #id: charge from s% to S%`, and `reportBatteryThresholds`
of the stored pair renders `    Charge thresholds: charge from s% to S%`. -/
theorem run_set_roundtrip (fuel : Nat) (args : ProgramArgs) (w : World FakeState)
    (hset : args.setThreshold = true) (hdis : args.disableThresholds = false)
    (hid : 1 ≤ args.batteryId) (hacc : w.vendor.accepts args.batteryId = true)
    (hs : 1 ≤ args.startThreshold) (hsS : args.startThreshold < args.stopThreshold)
    (hS : args.stopThreshold ≤ 100) :
    (run storingFake fuel args w).code = some 0 ∧
    (run storingFake fuel args w).world.vendor.start args.batteryId = args.startThreshold - 1 ∧
    (run storingFake fuel args w).world.vendor.stop args.batteryId = args.stopThreshold ∧
    (run storingFake fuel args w).world.cout.str = w.cout.str ++
      ("Set thresholds for battery #" ++ toString args.batteryId ++ ": charge from "
        ++ toString args.startThreshold ++ "% to " ++ toString args.stopThreshold ++ "%\n") ∧
    (reportBatteryThresholds [] ((run storingFake fuel args w).world.vendor.start args.batteryId)
      ((run storingFake fuel args w).world.vendor.stop args.batteryId)).str =
      "    Charge thresholds: charge from " ++ toString args.startThreshold ++ "% to "
        ++ toString args.stopThreshold ++ "%\n" := by
  have hw : wrapInt32 (args.startThreshold - 1) = args.startThreshold - 1 :=
    wrapInt32_of_isInt32 (by unfold IsInt32; omega)
  have hrun : run storingFake fuel args w = .exit 0
      { vendor := { w.vendor with
            start := fun b =>
              if b = args.batteryId then args.startThreshold - 1 else w.vendor.start b
            stop := fun b => if b = args.batteryId then args.stopThreshold else w.vendor.stop b }
        calls := w.calls ++ [.getStart args.batteryId, .getStop args.batteryId,
          .setStart args.batteryId (args.startThreshold - 1),
          .setStop args.batteryId args.stopThreshold,
          .getStart args.batteryId, .getStop args.batteryId]
        cout := w.cout ++ [.lit "Set thresholds for battery #", .int args.batteryId,
          .lit ": charge from ", .int args.startThreshold, .lit "% to ", .int args.stopThreshold,
          .lit "%\n"]
        cerr := w.cerr } := by
    have h1 : ¬ args.batteryId < 1 := by omega
    have h2 : ¬ (args.startThreshold < 0 ∨ args.startThreshold > 100) := by omega
    have h3 : ¬ (args.stopThreshold < 0 ∨ args.stopThreshold > 100) := by omega
    have h4 : ¬ args.stopThreshold ≤ args.startThreshold := by omega
    simp [run, runSet, writeAndVerify, tryGetThresholds, trySetThresholds, storingFake,
      World.called, World.out, World.err, hset, hdis, hacc, h1, h2, h3, h4, hw]
  rw [hrun]
  refine ⟨rfl, by simp [RunResult.world], by simp [RunResult.world], ?_, ?_⟩
  · simp only [RunResult.world, OStream.str_append, OStream.str_cons, OStream.str_nil, Item.str]
    apply String.ext
    simp [String.data_append]
  · have h5 : ¬ (args.startThreshold - 1 = 0 ∧ args.stopThreshold = 0) := by omega
    have h6 : wrapInt32 (args.startThreshold - 1 + 1) = args.startThreshold := by
      rw [wrapInt32_of_isInt32 (by unfold IsInt32; omega)]; omega
    simp only [RunResult.world, reportBatteryThresholds, if_true, if_neg h5, h6,
      OStream.str_append, OStream.str_cons, OStream.str_nil, Item.str]
    apply String.ext
    simp [String.data_append]

/-- C3 at `--set -b 1 --start 40 --stop 80` (scenario E2): exit 0, `(39, 80)` stored,
the confirmation line printed, and the stored pair rendered with the offset undone. -/
theorem run_set_roundtrip_witness :
    (run storingFake 0
        { setThreshold := true, batteryId := 1, startThreshold := 40, stopThreshold := 80 }
        { vendor := fakeWith 1 none }).code = some 0 ∧
    (run storingFake 0
        { setThreshold := true, batteryId := 1, startThreshold := 40, stopThreshold := 80 }
        { vendor := fakeWith 1 none }).world.vendor.start 1 = 39 ∧
    (run storingFake 0
        { setThreshold := true, batteryId := 1, startThreshold := 40, stopThreshold := 80 }
        { vendor := fakeWith 1 none }).world.vendor.stop 1 = 80 ∧
    (run storingFake 0
        { setThreshold := true, batteryId := 1, startThreshold := 40, stopThreshold := 80 }
        { vendor := fakeWith 1 none }).world.cout.str
      = "Set thresholds for battery #1: charge from 40% to 80%\n" ∧
    (reportBatteryThresholds [] 39 80).str = "    Charge thresholds: charge from 40% to 80%\n" :=
  have h := run_set_roundtrip 0
    { setThreshold := true, batteryId := 1, startThreshold := 40, stopThreshold := 80 }
    { vendor := fakeWith 1 none } rfl rfl (by decide) (by decide) (by decide) (by decide)
    (by decide)
  ⟨h.1, h.2.1, h.2.2.1, h.2.2.2.1.trans (by decide), by decide⟩

/-! ## What the adapter methods do to the world -/

theorem tryGetThresholds_cout {σ : Type} (sm : SMInterface σ) (batteryId : Int) (w : World σ) :
    (tryGetThresholds sm batteryId w).2.cout = w.cout := by
  unfold tryGetThresholds
  dsimp only
  split_ifs <;> rfl

theorem tryGetThresholds_cerr {σ : Type} (sm : SMInterface σ) (batteryId : Int) (w : World σ) :
    (tryGetThresholds sm batteryId w).2.cerr = w.cerr := by
  unfold tryGetThresholds
  dsimp only
  split_ifs <;> rfl

/-- A threshold read calls the start getter and, when that answered 0, the stop getter. -/
theorem tryGetThresholds_calls {σ : Type} (sm : SMInterface σ) (batteryId : Int) (w : World σ) :
    (tryGetThresholds sm batteryId w).2.calls = w.calls ++ [.getStart batteryId] ∨
    (tryGetThresholds sm batteryId w).2.calls
      = w.calls ++ [.getStart batteryId, .getStop batteryId] := by
  unfold tryGetThresholds
  dsimp only
  split_ifs <;> simp [World.called]

/-- A threshold read that returns a pair called both getters. -/
theorem tryGetThresholds_calls_of_some {σ : Type} (sm : SMInterface σ) (batteryId : Int)
    (w : World σ) (h : (tryGetThresholds sm batteryId w).1 ≠ none) :
    (tryGetThresholds sm batteryId w).2.calls
      = w.calls ++ [.getStart batteryId, .getStop batteryId] := by
  unfold tryGetThresholds at h ⊢
  dsimp only at h ⊢
  split_ifs at h ⊢ <;> simp_all [World.called]

/-- What a threshold read returns depends on the vendor state only. -/
theorem tryGetThresholds_vendor {σ : Type} (sm : SMInterface σ) (batteryId : Int)
    (w w2 : World σ) (h : w.vendor = w2.vendor) :
    (tryGetThresholds sm batteryId w).1 = (tryGetThresholds sm batteryId w2).1 ∧
    (tryGetThresholds sm batteryId w).2.vendor = (tryGetThresholds sm batteryId w2).2.vendor := by
  unfold tryGetThresholds
  dsimp only [World.called]
  rw [h]
  split_ifs <;> simp

theorem trySetThresholds_cout {σ : Type} (sm : SMInterface σ) (batteryId a b : Int)
    (w : World σ) : (trySetThresholds sm batteryId a b w).2.cout = w.cout := by
  unfold trySetThresholds
  dsimp only
  split_ifs <;> rfl

theorem trySetThresholds_cerr {σ : Type} (sm : SMInterface σ) (batteryId a b : Int)
    (w : World σ) : (trySetThresholds sm batteryId a b w).2.cerr = w.cerr := by
  unfold trySetThresholds
  dsimp only
  split_ifs <;> rfl

/-- A write calls the start setter and, when that answered 0, the stop setter. -/
theorem trySetThresholds_calls {σ : Type} (sm : SMInterface σ) (batteryId a b : Int)
    (w : World σ) :
    (trySetThresholds sm batteryId a b w).2.calls = w.calls ++ [.setStart batteryId a] ∨
    (trySetThresholds sm batteryId a b w).2.calls
      = w.calls ++ [.setStart batteryId a, .setStop batteryId b] := by
  unfold trySetThresholds
  dsimp only
  split_ifs <;> simp [World.called]

/-- Set-mode from the write on, case by case: a failed write, an absent readback,
a readback equal to what was expected, and a readback that differs. -/
theorem writeAndVerify_spec {σ : Type} (sm : SMInterface σ) (args : ProgramArgs) (w : World σ)
    (ok : Bool) (w1 : World σ)
    (hwrite : trySetThresholds sm args.batteryId (wrapInt32 (args.startThreshold - 1))
      args.stopThreshold w = (ok, w1)) :
    (ok = false → writeAndVerify sm args w = .exit 1 (w1.err (writeFailure args))) ∧
    (ok = true → ∀ r w3, tryGetThresholds sm args.batteryId (w1.out (confirmation args)) = (r, w3) →
      (r = none → writeAndVerify sm args w = .abort .terminate w3) ∧
      (∀ p, r = some p → p = expectedReadback args → writeAndVerify sm args w = .exit 0 w3) ∧
      (∀ p, r = some p → p ≠ expectedReadback args → writeAndVerify sm args w = .exit 1
        { w3 with
          cerr := reportBatteryThresholds
            (w3.cerr ++ [.lit "Unknown error setting battery thresholds\n"]) p.1 p.2 })) := by
  have hconf : (if args.disableThresholds = true then
        w1.out [.lit "Disable charging thresholds for battery #", .int args.batteryId, .lit "\n"]
      else
        w1.out [.lit "Set thresholds for battery #", .int args.batteryId, .lit ": charge from ",
          .int args.startThreshold, .lit "% to ", .int args.stopThreshold, .lit "%\n"])
      = w1.out (confirmation args) := by
    unfold confirmation; split_ifs <;> rfl
  unfold writeAndVerify
  simp only [hwrite, hconf]
  refine ⟨?_, ?_⟩
  · intro hok
    simp [hok, writeFailure]
  · intro hok r w3 hread
    simp only [hread, hok]
    refine ⟨?_, ?_, ?_⟩
    · intro hr
      subst hr
      simp
    · intro p hr hp
      subst hr
      subst hp
      unfold expectedReadback
      cases hd : args.disableThresholds <;> simp
    · intro p hr hp
      subst hr
      obtain ⟨x, y⟩ := p
      unfold expectedReadback at hp
      cases hd : args.disableThresholds <;> simp [hd] at hp ⊢
      · rw [if_pos (by tauto)]; rfl
      · rw [if_pos (by tauto)]; rfl

/-- Set-mode up to the write, case by case: the checks in source order, then the
write phase with the values after the `--disable` override. -/
theorem runSet_spec {σ : Type} (sm : SMInterface σ) (args : ProgramArgs) (w : World σ) :
    (args.batteryId < 1 → runSet sm args w = .exit 1 (w.err [.lit "invalid battery id\n"])) ∧
    (1 ≤ args.batteryId → ∀ r w1, tryGetThresholds sm args.batteryId w = (r, w1) →
      (r = none → runSet sm args w = .exit 1 (w1.err [.lit "invalid battery id\n"])) ∧
      (r ≠ none →
        (args.disableThresholds = true → runSet sm args w
          = writeAndVerify sm { args with startThreshold := 1, stopThreshold := 0 } w1) ∧
        (args.disableThresholds = false →
          (args.startThreshold < 0 ∨ args.startThreshold > 100 → runSet sm args w = .exit 1
            (w1.err [.lit
              "invalid charging start threshold (value must be between 1 and 100)\n"])) ∧
          (0 ≤ args.startThreshold → args.startThreshold ≤ 100 →
            (args.stopThreshold < 0 ∨ args.stopThreshold > 100 → runSet sm args w = .exit 1
              (w1.err [.lit
                "invalid charging stop threshold (value must be between 1 and 100)\n"])) ∧
            (0 ≤ args.stopThreshold → args.stopThreshold ≤ 100 →
              (args.stopThreshold ≤ args.startThreshold → runSet sm args w = .exit 1
                (w1.err [.lit
                  "charging stop threshold must be greater than charging start threshold\n"])) ∧
              (args.startThreshold < args.stopThreshold →
                runSet sm args w = writeAndVerify sm args w1)))))) := by
  refine ⟨?_, ?_⟩
  · intro h
    simp [runSet, h]
  · intro hid r w1 hread
    have h1 : ¬ args.batteryId < 1 := by omega
    unfold runSet
    simp only [h1, if_false, hread]
    refine ⟨?_, ?_⟩
    · intro hr; subst hr; rfl
    · intro hr
      cases r with
      | none => exact absurd rfl hr
      | some p =>
        refine ⟨?_, ?_⟩
        · intro hd; simp [hd]
        · intro hd
          simp only [hd, Bool.false_eq_true, if_false]
          refine ⟨?_, ?_⟩
          · intro h; simp [h]
          · intro h2 h3
            have h4 : ¬ (args.startThreshold < 0 ∨ args.startThreshold > 100) := by omega
            simp only [h4, if_false]
            refine ⟨?_, ?_⟩
            · intro h; simp [h]
            · intro h5 h6
              have h7 : ¬ (args.stopThreshold < 0 ∨ args.stopThreshold > 100) := by omega
              simp only [h7, if_false]
              refine ⟨?_, ?_⟩
              · intro h; simp [h]
              · intro h
                have h8 : ¬ args.stopThreshold ≤ args.startThreshold := by omega
                simp [h8]

theorem run_of_setThreshold {σ : Type} (sm : SMInterface σ) (fuel : Nat) (args : ProgramArgs)
    (w : World σ) (h : args.setThreshold = true) : run sm fuel args w = runSet sm args w := by
  simp [run, h]

/-- The calls made by set-mode from the write on: the start setter with the value
passed, and no write other than the two setters with the values passed. -/
theorem writeAndVerify_calls {σ : Type} (sm : SMInterface σ) (args : ProgramArgs)
    (w : World σ) :
    ∃ made, (writeAndVerify sm args w).world.calls = w.calls ++ made ∧
      .setStart args.batteryId (wrapInt32 (args.startThreshold - 1)) ∈ made ∧
      ∀ c ∈ made, c.isWrite = true →
        c = .setStart args.batteryId (wrapInt32 (args.startThreshold - 1)) ∨
        c = .setStop args.batteryId args.stopThreshold := by
  rcases hwrite : trySetThresholds sm args.batteryId (wrapInt32 (args.startThreshold - 1))
    args.stopThreshold w with ⟨ok, w1⟩
  have hspec := writeAndVerify_spec sm args w ok w1 hwrite
  have hcalls := trySetThresholds_calls sm args.batteryId (wrapInt32 (args.startThreshold - 1))
    args.stopThreshold w
  rw [hwrite] at hcalls
  dsimp only at hcalls
  cases ok with
  | false =>
    rw [hspec.1 rfl]
    rcases hcalls with hc | hc <;>
      exact ⟨_, by simp only [RunResult.world, World.err]; exact hc, by simp, by simp⟩
  | true =>
    rcases hread : tryGetThresholds sm args.batteryId (w1.out (confirmation args)) with ⟨r, w3⟩
    have hspec2 := hspec.2 rfl r w3 hread
    have hcalls2 := tryGetThresholds_calls sm args.batteryId (w1.out (confirmation args))
    rw [hread] at hcalls2
    simp only [World.out] at hcalls2
    have hworld : (writeAndVerify sm args w).world.calls = w3.calls := by
      cases r with
      | none => rw [hspec2.1 rfl]; rfl
      | some p =>
        by_cases hp : p = expectedReadback args
        · rw [hspec2.2.1 p rfl hp]; rfl
        · rw [hspec2.2.2 p rfl hp]; rfl
    rw [hworld]
    rcases hcalls with hc | hc <;> rcases hcalls2 with hc2 | hc2 <;> rw [hc2, hc] <;>
      exact ⟨_, by rw [List.append_assoc], by simp, by simp [VendorCall.isWrite]⟩

theorem reportBatteryThresholds_append (stream : OStream) (a b : Int) :
    reportBatteryThresholds stream a b = stream ++ reportBatteryThresholds [] a b := by
  unfold reportBatteryThresholds
  split_ifs <;> simp

theorem confirmation_disable (args : ProgramArgs) (h : args.disableThresholds = true) :
    confirmation { args with startThreshold := 1, stopThreshold := 0 } = confirmation args := by
  simp [confirmation, h]

/-- C4: in set-mode, for every adapter, an invalid battery id, an absent initial
threshold read, or (without `--disable`) an out-of-range start, an out-of-range stop
or `stop ≤ start` make `run` return 1 having called no write entry point; for
`stop ≤ start` with both values in range the text written to stderr is
`charging stop threshold must be greater than charging start threshold`. -/
theorem run_set_rejects_invalid {σ : Type} (sm : SMInterface σ) (fuel : Nat)
    (args : ProgramArgs) (w : World σ) (hset : args.setThreshold = true)
    (hbad : args.batteryId < 1 ∨ (tryGetThresholds sm args.batteryId w).1 = none ∨
      (args.disableThresholds = false ∧
        (args.startThreshold < 0 ∨ args.startThreshold > 100 ∨ args.stopThreshold < 0 ∨
          args.stopThreshold > 100 ∨ args.stopThreshold ≤ args.startThreshold))) :
    (run sm fuel args w).code = some 1 ∧
    (∃ made, (run sm fuel args w).world.calls = w.calls ++ made ∧
      ∀ c ∈ made, c.isWrite = false) ∧
    (1 ≤ args.batteryId → (tryGetThresholds sm args.batteryId w).1 ≠ none →
      0 ≤ args.startThreshold → args.startThreshold ≤ 100 →
      0 ≤ args.stopThreshold → args.stopThreshold ≤ 100 →
      (run sm fuel args w).world.cerr.str = w.cerr.str ++
        "charging stop threshold must be greater than charging start threshold\n") := by
  rw [run_of_setThreshold sm fuel args w hset]
  have hspec := runSet_spec sm args w
  rcases hread : tryGetThresholds sm args.batteryId w with ⟨r, w1⟩
  rw [hread] at hbad
  dsimp only at hbad ⊢
  have hcalls := tryGetThresholds_calls sm args.batteryId w
  have hcerr := tryGetThresholds_cerr sm args.batteryId w
  rw [hread] at hcalls hcerr
  dsimp only at hcalls hcerr
  have hnowrite : ∃ made, w1.calls = w.calls ++ made ∧ ∀ c ∈ made, c.isWrite = false := by
    rcases hcalls with hc | hc <;> exact ⟨_, hc, by simp [VendorCall.isWrite]⟩
  by_cases hid : args.batteryId < 1
  · rw [hspec.1 hid]
    exact ⟨rfl, ⟨[], by simp [RunResult.world, World.err], by simp⟩, fun h => by omega⟩
  · have hspec2 := hspec.2 (by omega) r w1 hread
    by_cases hr : r = none
    · rw [hspec2.1 hr]
      exact ⟨rfl, hnowrite, fun _ h => absurd hr h⟩
    · have hd : args.disableThresholds = false := by
        rcases hbad with h | h | h
        · exact absurd h hid
        · exact absurd h hr
        · exact h.1
      have hrange : args.startThreshold < 0 ∨ args.startThreshold > 100 ∨ args.stopThreshold < 0 ∨
          args.stopThreshold > 100 ∨ args.stopThreshold ≤ args.startThreshold := by
        rcases hbad with h | h | h
        · exact absurd h hid
        · exact absurd h hr
        · exact h.2
      have hspec3 := (hspec2.2 hr).2 hd
      by_cases h1 : args.startThreshold < 0 ∨ args.startThreshold > 100
      · rw [hspec3.1 h1]
        exact ⟨rfl, hnowrite, fun _ _ _ _ _ _ => by omega⟩
      · have hspec4 := hspec3.2 (by omega) (by omega)
        by_cases h2 : args.stopThreshold < 0 ∨ args.stopThreshold > 100
        · rw [hspec4.1 h2]
          exact ⟨rfl, hnowrite, fun _ _ _ _ _ _ => by omega⟩
        · have hspec5 := hspec4.2 (by omega) (by omega)
          rw [hspec5.1 (by omega)]
          refine ⟨rfl, hnowrite, fun _ _ _ _ _ _ => ?_⟩
          simp only [RunResult.world, World.err, hcerr, OStream.str_append, OStream.str_cons,
            OStream.str_nil, Item.str]
          apply String.ext
          simp [String.data_append]

/-- C4 at `--set -b 1 --start 80 --stop 40` (scenario E3) with the storing fake: exit 1,
only the two getters called, and the diagnostic on stderr. -/
theorem run_set_rejects_invalid_witness :
    (run storingFake 0
        { setThreshold := true, batteryId := 1, startThreshold := 80, stopThreshold := 40 }
        { vendor := fakeWith 1 none }).code = some 1 ∧
    (∃ made, (run storingFake 0
        { setThreshold := true, batteryId := 1, startThreshold := 80, stopThreshold := 40 }
        { vendor := fakeWith 1 none }).world.calls = [] ++ made ∧
      ∀ c ∈ made, c.isWrite = false) ∧
    (run storingFake 0
        { setThreshold := true, batteryId := 1, startThreshold := 80, stopThreshold := 40 }
        { vendor := fakeWith 1 none }).world.cerr.str
      = "charging stop threshold must be greater than charging start threshold\n" :=
  have h := run_set_rejects_invalid storingFake 0
    { setThreshold := true, batteryId := 1, startThreshold := 80, stopThreshold := 40 }
    { vendor := fakeWith 1 none } rfl (Or.inr (Or.inr ⟨rfl, by decide⟩))
  ⟨h.1, h.2.1, (h.2.2 (by decide) (by decide) (by decide) (by decide) (by decide)
    (by decide)).trans (by decide)⟩

/-- C5: in set-mode with `--disable` and a battery id `≥ 1`, whatever `startThreshold`
and `stopThreshold` are: for every adapter that answers the initial read, `run` calls
the start setter with 0 and makes no write other than the two setters with 0; with
the storing fake accepting the id, `run` prints
`Disable charging thresholds for battery #id`, returns 0, leaves `(0, 0)` stored, and
`reportBatteryThresholds` of the stored pair renders `    Charge thresholds: disabled`. -/
theorem run_set_disable (fuel : Nat) (args : ProgramArgs) (hset : args.setThreshold = true)
    (hdis : args.disableThresholds = true) (hid : 1 ≤ args.batteryId) :
    (∀ {σ : Type} (sm : SMInterface σ) (w : World σ),
      (tryGetThresholds sm args.batteryId w).1 ≠ none →
      ∃ made, (run sm fuel args w).world.calls
          = w.calls ++ [.getStart args.batteryId, .getStop args.batteryId] ++ made ∧
        .setStart args.batteryId 0 ∈ made ∧
        ∀ c ∈ made, c.isWrite = true →
          c = .setStart args.batteryId 0 ∨ c = .setStop args.batteryId 0) ∧
    (∀ w : World FakeState, w.vendor.accepts args.batteryId = true →
      (run storingFake fuel args w).code = some 0 ∧
      (run storingFake fuel args w).world.cout.str = w.cout.str ++
        ("Disable charging thresholds for battery #" ++ toString args.batteryId ++ "\n") ∧
      (run storingFake fuel args w).world.vendor.start args.batteryId = 0 ∧
      (run storingFake fuel args w).world.vendor.stop args.batteryId = 0 ∧
      (reportBatteryThresholds []
          ((run storingFake fuel args w).world.vendor.start args.batteryId)
          ((run storingFake fuel args w).world.vendor.stop args.batteryId)).str
        = "    Charge thresholds: disabled\n") := by
  refine ⟨?_, ?_⟩
  · intro σ sm w hsome
    rw [run_of_setThreshold sm fuel args w hset]
    rcases hread : tryGetThresholds sm args.batteryId w with ⟨r, w1⟩
    have hcalls := tryGetThresholds_calls_of_some sm args.batteryId w hsome
    rw [hread] at hsome hcalls
    dsimp only at hsome hcalls
    rw [((runSet_spec sm args w).2 hid r w1 hread).2 hsome |>.1 hdis]
    obtain ⟨made, h1, h2, h3⟩ := writeAndVerify_calls sm
      { args with startThreshold := 1, stopThreshold := 0 } w1
    have h0 : wrapInt32 ((1 : Int) - 1) = 0 := by decide
    simp only [h0] at h2 h3
    exact ⟨made, by rw [h1, hcalls], h2, h3⟩
  · intro w hacc
    have h1 : ¬ args.batteryId < 1 := by omega
    have h0 : wrapInt32 0 = 0 := by decide
    have hrun : run storingFake fuel args w = .exit 0
        { vendor := { w.vendor with
              start := fun b => if b = args.batteryId then 0 else w.vendor.start b
              stop := fun b => if b = args.batteryId then 0 else w.vendor.stop b }
          calls := w.calls ++ [.getStart args.batteryId, .getStop args.batteryId,
            .setStart args.batteryId 0, .setStop args.batteryId 0,
            .getStart args.batteryId, .getStop args.batteryId]
          cout := w.cout ++ [.lit "Disable charging thresholds for battery #",
            .int args.batteryId, .lit "\n"]
          cerr := w.cerr } := by
      simp [run, runSet, writeAndVerify, tryGetThresholds, trySetThresholds, storingFake,
        World.called, World.out, World.err, hset, hdis, hacc, h1, h0]
    rw [hrun]
    refine ⟨rfl, ?_, by simp [RunResult.world], by simp [RunResult.world], ?_⟩
    · simp only [RunResult.world, OStream.str_append, OStream.str_cons, OStream.str_nil,
        Item.str]
      apply String.ext
      simp [String.data_append]
    · simp [RunResult.world, reportBatteryThresholds]
      decide

/-- C5 at `--set -b 1 --disable --start 80 --stop 40` (scenario E4 with stray values)
with the storing fake: the write is `(0, 0)`, exit 0, the confirmation line printed. -/
theorem run_set_disable_witness :
    (∃ made, (run storingFake 0
        { setThreshold := true, batteryId := 1, startThreshold := 80, stopThreshold := 40,
          disableThresholds := true }
        { vendor := fakeWith 1 none }).world.calls = [] ++ [.getStart 1, .getStop 1] ++ made ∧
      VendorCall.setStart 1 0 ∈ made ∧
      ∀ c ∈ made, c.isWrite = true → c = .setStart 1 0 ∨ c = .setStop 1 0) ∧
    (run storingFake 0
        { setThreshold := true, batteryId := 1, startThreshold := 80, stopThreshold := 40,
          disableThresholds := true }
        { vendor := fakeWith 1 none }).code = some 0 ∧
    (run storingFake 0
        { setThreshold := true, batteryId := 1, startThreshold := 80, stopThreshold := 40,
          disableThresholds := true }
        { vendor := fakeWith 1 none }).world.cout.str
      = "Disable charging thresholds for battery #1\n" :=
  have h := run_set_disable 0
    { setThreshold := true, batteryId := 1, startThreshold := 80, stopThreshold := 40,
      disableThresholds := true } rfl rfl (by decide)
  have h2 := h.2 { vendor := fakeWith 1 none } (by decide)
  ⟨h.1 storingFake { vendor := fakeWith 1 none } (by decide), h2.1, h2.2.1.trans (by decide)⟩

/-- What the `--disable` override leaves as it was, and what is written after it. -/
theorem effectiveArgs_facts (args : ProgramArgs) :
    (effectiveArgs args).batteryId = args.batteryId ∧
    wrapInt32 ((effectiveArgs args).startThreshold - 1) = (expectedReadback args).1 ∧
    (effectiveArgs args).stopThreshold = (expectedReadback args).2 := by
  unfold effectiveArgs expectedReadback
  cases args.disableThresholds <;> simp
  decide

/-- With a valid battery id, a present initial read and valid options, set-mode goes on
to the write phase with the values after the `--disable` override. -/
theorem runSet_reach {σ : Type} (sm : SMInterface σ) (args : ProgramArgs) (w : World σ)
    (hid : 1 ≤ args.batteryId) (hread : (tryGetThresholds sm args.batteryId w).1 ≠ none)
    (hvalid : args.disableThresholds = true ∨
      (0 ≤ args.startThreshold ∧ args.startThreshold ≤ 100 ∧ 0 ≤ args.stopThreshold ∧
        args.stopThreshold ≤ 100 ∧ args.startThreshold < args.stopThreshold)) :
    runSet sm args w
      = writeAndVerify sm (effectiveArgs args) (tryGetThresholds sm args.batteryId w).2 := by
  rcases hr : tryGetThresholds sm args.batteryId w with ⟨r, w1⟩
  rw [hr] at hread
  dsimp only at hread ⊢
  have h3 := ((runSet_spec sm args w).2 hid r w1 hr).2 hread
  cases hd : args.disableThresholds with
  | true =>
    rw [h3.1 hd]
    simp [effectiveArgs, hd]
  | false =>
    rcases hvalid with h | ⟨v1, v2, v3, v4, v5⟩
    · rw [hd] at h; exact absurd h (by decide)
    · rw [(((h3.2 hd).2 v1 v2).2 v3 v4).2 v5]
      simp [effectiveArgs, hd]

/-- The confirmation line is written from the options as given, override or not. -/
theorem confirmation_effectiveArgs (args : ProgramArgs) :
    confirmation (effectiveArgs args) = confirmation args := by
  unfold effectiveArgs
  split_ifs with hd
  · exact confirmation_disable args hd
  · rfl

/-- C6 (counterexample): an adapter whose getters answer the initial read and then
fail. In set-mode with `--start 40 --stop 80` both writes succeed, the confirmation is
printed, the readback is absent, and `run` does not return: `Expects` ends the
program through `std::terminate`, with nothing written to stderr. -/
theorem run_set_readback_absent_terminates :
    (run (scriptedFake 2) 0
        { setThreshold := true, batteryId := 1, startThreshold := 40, stopThreshold := 80 }
        { vendor := 0 }).code = none ∧
    (run (scriptedFake 2) 0
        { setThreshold := true, batteryId := 1, startThreshold := 40, stopThreshold := 80 }
        { vendor := 0 }).aborted = some .terminate ∧
    (run (scriptedFake 2) 0
        { setThreshold := true, batteryId := 1, startThreshold := 40, stopThreshold := 80 }
        { vendor := 0 }).world.calls
      = [.getStart 1, .getStop 1, .setStart 1 39, .setStop 1 80, .getStart 1] ∧
    (trySetThresholds (scriptedFake 2) 1 39 80 { vendor := 2 }).1 = true ∧
    (tryGetThresholds (scriptedFake 2) 1 { vendor := 2 }).1 = none ∧
    (run (scriptedFake 2) 0
        { setThreshold := true, batteryId := 1, startThreshold := 40, stopThreshold := 80 }
        { vendor := 0 }).world.cerr = [] ∧
    (run (scriptedFake 2) 0
        { setThreshold := true, batteryId := 1, startThreshold := 40, stopThreshold := 80 }
        { vendor := 0 }).world.cout.str
      = "Set thresholds for battery #1: charge from 40% to 80%\n" := by
  refine ⟨?_, ?_, ?_, ?_, ?_, ?_, ?_⟩ <;> decide

/-- C6 (amended): for every adapter and every `ProgramArgs`, `run` in set-mode returns
with exit status 0 or 1, except when the write (of the pair set-mode expects to read
back, made after the initial read) succeeded and the readback after it is absent; and
whenever set-mode reaches the write (a valid battery id, a present initial read, valid
options), the write succeeds and the readback after it is absent, `Expects` fails: the
program ends through `std::terminate`, `run` returns no exit status and has written no
diagnostic to stderr. -/
theorem run_set_exit_or_terminate {σ : Type} (sm : SMInterface σ) (fuel : Nat)
    (args : ProgramArgs) (w : World σ) (hset : args.setThreshold = true) :
    ((run sm fuel args w).code = some 0 ∨ (run sm fuel args w).code = some 1 ∨
    (∃ w2 w3, trySetThresholds sm args.batteryId (expectedReadback args).1
        (expectedReadback args).2 (tryGetThresholds sm args.batteryId w).2 = (true, w2) ∧
      tryGetThresholds sm args.batteryId (w2.out (confirmation args)) = (none, w3) ∧
      run sm fuel args w = .abort .terminate w3 ∧ w3.cerr = w.cerr)) ∧
    (1 ≤ args.batteryId → (tryGetThresholds sm args.batteryId w).1 ≠ none →
      (args.disableThresholds = true ∨
        (0 ≤ args.startThreshold ∧ args.startThreshold ≤ 100 ∧ 0 ≤ args.stopThreshold ∧
          args.stopThreshold ≤ 100 ∧ args.startThreshold < args.stopThreshold)) →
      ∀ w2 w3, trySetThresholds sm args.batteryId (expectedReadback args).1
          (expectedReadback args).2 (tryGetThresholds sm args.batteryId w).2 = (true, w2) →
        tryGetThresholds sm args.batteryId (w2.out (confirmation args)) = (none, w3) →
        run sm fuel args w = .abort .terminate w3 ∧
        (run sm fuel args w).code = none ∧
        (run sm fuel args w).aborted = some .terminate ∧
        (run sm fuel args w).world.cerr = w.cerr) := by
  rw [run_of_setThreshold sm fuel args w hset]
  refine ⟨?_, ?_⟩
  swap
  · intro hid hread hvalid w2 w3 hwrite hback
    obtain ⟨hb, ha, hs⟩ := effectiveArgs_facts args
    rw [runSet_reach sm args w hid hread hvalid]
    have hrun := ((writeAndVerify_spec sm (effectiveArgs args)
      (tryGetThresholds sm args.batteryId w).2 true w2 (by rw [hb, ha, hs]; exact hwrite)).2 rfl
      none w3 (by rw [hb, confirmation_effectiveArgs]; exact hback)).1 rfl
    have he1 := tryGetThresholds_cerr sm args.batteryId w
    have he2 := trySetThresholds_cerr sm args.batteryId (expectedReadback args).1
      (expectedReadback args).2 (tryGetThresholds sm args.batteryId w).2
    have he3 := tryGetThresholds_cerr sm args.batteryId (w2.out (confirmation args))
    rw [hwrite] at he2
    rw [hback] at he3
    dsimp only [World.out] at he2 he3
    rw [hrun]
    exact ⟨rfl, rfl, rfl, by simp only [RunResult.world]; rw [he3, he2, he1]⟩
  have hspec := runSet_spec sm args w
  have hwv : ∀ (args2 : ProgramArgs) (w1 : World σ), args2.batteryId = args.batteryId →
      confirmation args2 = confirmation args → w1.cerr = w.cerr →
      wrapInt32 (args2.startThreshold - 1) = (expectedReadback args).1 →
      args2.stopThreshold = (expectedReadback args).2 →
      (writeAndVerify sm args2 w1).code = some 0 ∨ (writeAndVerify sm args2 w1).code = some 1 ∨
      (∃ w2 w3, trySetThresholds sm args.batteryId (expectedReadback args).1
          (expectedReadback args).2 w1 = (true, w2) ∧
        tryGetThresholds sm args.batteryId (w2.out (confirmation args)) = (none, w3) ∧
        writeAndVerify sm args2 w1 = .abort .terminate w3 ∧ w3.cerr = w.cerr) := by
    intro args2 w1 hb hc he ha hb2
    rcases hwrite : trySetThresholds sm args2.batteryId (wrapInt32 (args2.startThreshold - 1))
      args2.stopThreshold w1 with ⟨ok, w2⟩
    have hs := writeAndVerify_spec sm args2 w1 ok w2 hwrite
    have he2 := trySetThresholds_cerr sm args2.batteryId (wrapInt32 (args2.startThreshold - 1))
      args2.stopThreshold w1
    rw [hwrite] at he2
    dsimp only at he2
    cases ok with
    | false => rw [hs.1 rfl]; exact Or.inr (Or.inl rfl)
    | true =>
      rcases hback : tryGetThresholds sm args2.batteryId (w2.out (confirmation args2))
        with ⟨r, w3⟩
      have hs2 := hs.2 rfl r w3 hback
      have he3 := tryGetThresholds_cerr sm args2.batteryId (w2.out (confirmation args2))
      rw [hback] at he3
      dsimp only [World.out] at he3
      cases r with
      | none =>
        right; right
        rw [hs2.1 rfl]
        rw [hb, ha, hb2] at hwrite
        rw [hb, hc] at hback
        exact ⟨w2, w3, hwrite, hback, rfl, by rw [he3, he2, he]⟩
      | some p =>
        by_cases hp : p = expectedReadback args2
        · rw [hs2.2.1 p rfl hp]; exact Or.inl rfl
        · rw [hs2.2.2 p rfl hp]; exact Or.inr (Or.inl rfl)
  by_cases hid : args.batteryId < 1
  · rw [hspec.1 hid]; exact Or.inr (Or.inl rfl)
  · rcases hread : tryGetThresholds sm args.batteryId w with ⟨r, w1⟩
    have hspec2 := hspec.2 (by omega) r w1 hread
    have he := tryGetThresholds_cerr sm args.batteryId w
    rw [hread] at he
    dsimp only at he ⊢
    by_cases hr : r = none
    · rw [hspec2.1 hr]; exact Or.inr (Or.inl rfl)
    · cases hd : args.disableThresholds with
      | true =>
        rw [(hspec2.2 hr).1 hd]
        exact hwv _ w1 rfl (confirmation_disable args hd) he
          (by simp [expectedReadback, hd]; decide) (by simp [expectedReadback, hd])
      | false =>
        have hspec3 := (hspec2.2 hr).2 hd
        by_cases h1 : args.startThreshold < 0 ∨ args.startThreshold > 100
        · rw [hspec3.1 h1]; exact Or.inr (Or.inl rfl)
        · have hspec4 := hspec3.2 (by omega) (by omega)
          by_cases h2 : args.stopThreshold < 0 ∨ args.stopThreshold > 100
          · rw [hspec4.1 h2]; exact Or.inr (Or.inl rfl)
          · have hspec5 := hspec4.2 (by omega) (by omega)
            by_cases h3 : args.stopThreshold ≤ args.startThreshold
            · rw [hspec5.1 h3]; exact Or.inr (Or.inl rfl)
            · rw [hspec5.2 (by omega)]
              exact hwv args w1 rfl rfl he (by simp [expectedReadback, hd])
                (by simp [expectedReadback, hd])

/-- C6 (amended) at the input of the counterexample, `--start 40 --stop 80` over an
adapter whose getters answer the initial read and then fail: of the three cases only
the third is possible there, and the write phase ends in `std::terminate` with no exit
status and nothing on stderr. -/
theorem run_set_exit_or_terminate_witness :
    (∃ w2 w3, trySetThresholds (scriptedFake 2) 1 39 80
        (tryGetThresholds (scriptedFake 2) 1 { vendor := 0 }).2 = (true, w2) ∧
      tryGetThresholds (scriptedFake 2) 1 (w2.out (confirmation
        { setThreshold := true, batteryId := 1, startThreshold := 40, stopThreshold := 80 }))
        = (none, w3) ∧
      run (scriptedFake 2) 0
        { setThreshold := true, batteryId := 1, startThreshold := 40, stopThreshold := 80 }
        { vendor := 0 } = .abort .terminate w3 ∧ w3.cerr = []) ∧
    (run (scriptedFake 2) 0
        { setThreshold := true, batteryId := 1, startThreshold := 40, stopThreshold := 80 }
        { vendor := 0 }).code = none ∧
    (run (scriptedFake 2) 0
        { setThreshold := true, batteryId := 1, startThreshold := 40, stopThreshold := 80 }
        { vendor := 0 }).aborted = some .terminate ∧
    (run (scriptedFake 2) 0
        { setThreshold := true, batteryId := 1, startThreshold := 40, stopThreshold := 80 }
        { vendor := 0 }).world.cerr = [] :=
  have h := run_set_exit_or_terminate (scriptedFake 2) 0
    { setThreshold := true, batteryId := 1, startThreshold := 40, stopThreshold := 80 }
    { vendor := 0 } rfl
  ⟨h.1.elim (fun h1 => absurd h1 (by decide))
      (fun h1 => h1.elim (fun h2 => absurd h2 (by decide)) id),
    (h.2 (by decide) (by decide) (Or.inr (by decide)) _ _ rfl rfl).2⟩

/-- C9: in set-mode, when validation passed, the write succeeded and the readback
`p` is present, `run` returns 0 if and only if `p` is the pair that was written
(`(startThreshold - 1, stopThreshold)`, or `(0, 0)` under `--disable`); otherwise it
returns 1 and what it wrote to stderr is `Unknown error setting battery thresholds`
followed by the `reportBatteryThresholds` rendering of `p`. -/
theorem run_set_verification {σ : Type} (sm : SMInterface σ) (fuel : Nat) (args : ProgramArgs)
    (w w1 w2 w3 : World σ) (old p : Int × Int) (hset : args.setThreshold = true)
    (hid : 1 ≤ args.batteryId)
    (hread : tryGetThresholds sm args.batteryId w = (some old, w1))
    (hvalid : args.disableThresholds = true ∨
      (0 ≤ args.startThreshold ∧ args.startThreshold ≤ 100 ∧ 0 ≤ args.stopThreshold ∧
        args.stopThreshold ≤ 100 ∧ args.startThreshold < args.stopThreshold))
    (hwrite : trySetThresholds sm args.batteryId
      (if args.disableThresholds then 0 else args.startThreshold - 1)
      (if args.disableThresholds then 0 else args.stopThreshold) w1 = (true, w2))
    (hback : tryGetThresholds sm args.batteryId (w2.out (confirmation args)) = (some p, w3)) :
    ((run sm fuel args w).code = some 0 ↔
      p = (if args.disableThresholds then (0, 0)
        else (args.startThreshold - 1, args.stopThreshold))) ∧
    (p ≠ (if args.disableThresholds then (0, 0)
        else (args.startThreshold - 1, args.stopThreshold)) →
      (run sm fuel args w).code = some 1 ∧
      (run sm fuel args w).world.cerr.str = w.cerr.str ++
        ("Unknown error setting battery thresholds\n" ++
          (reportBatteryThresholds [] p.1 p.2).str)) := by
  rw [run_of_setThreshold sm fuel args w hset]
  have hspec := ((runSet_spec sm args w).2 hid (some old) w1 hread).2 (by simp)
  have he1 := tryGetThresholds_cerr sm args.batteryId w
  have he2 := trySetThresholds_cerr sm args.batteryId
    (if args.disableThresholds then 0 else args.startThreshold - 1)
    (if args.disableThresholds then 0 else args.stopThreshold) w1
  have he3 := tryGetThresholds_cerr sm args.batteryId (w2.out (confirmation args))
  rw [hread] at he1
  rw [hwrite] at he2
  rw [hback] at he3
  dsimp only [World.out] at he1 he2 he3
  have hcerr : w3.cerr = w.cerr := by rw [he3, he2, he1]
  -- the write phase, for the values after the override
  have key : ∀ args2 : ProgramArgs, args2.batteryId = args.batteryId →
      confirmation args2 = confirmation args →
      wrapInt32 (args2.startThreshold - 1)
        = (if args.disableThresholds then 0 else args.startThreshold - 1) →
      args2.stopThreshold = (if args.disableThresholds then 0 else args.stopThreshold) →
      expectedReadback args2 = (if args.disableThresholds then (0, 0)
        else (args.startThreshold - 1, args.stopThreshold)) →
      ((writeAndVerify sm args2 w1).code = some 0 ↔
        p = (if args.disableThresholds then (0, 0)
          else (args.startThreshold - 1, args.stopThreshold))) ∧
      (p ≠ (if args.disableThresholds then (0, 0)
          else (args.startThreshold - 1, args.stopThreshold)) →
        (writeAndVerify sm args2 w1).code = some 1 ∧
        (writeAndVerify sm args2 w1).world.cerr.str = w.cerr.str ++
          ("Unknown error setting battery thresholds\n" ++
            (reportBatteryThresholds [] p.1 p.2).str)) := by
    intro args2 hb hc ha hs he
    have hw2 : trySetThresholds sm args2.batteryId (wrapInt32 (args2.startThreshold - 1))
        args2.stopThreshold w1 = (true, w2) := by rw [hb, ha, hs]; exact hwrite
    have hb2 : tryGetThresholds sm args2.batteryId (w2.out (confirmation args2))
        = (some p, w3) := by rw [hb, hc]; exact hback
    have hs2 := (writeAndVerify_spec sm args2 w1 true w2 hw2).2 rfl (some p) w3 hb2
    rw [← he]
    by_cases hp : p = expectedReadback args2
    · rw [hs2.2.1 p rfl hp]
      exact ⟨⟨fun _ => hp, fun _ => rfl⟩, fun h => absurd hp h⟩
    · rw [hs2.2.2 p rfl hp]
      refine ⟨⟨fun h => by simp [RunResult.code] at h, fun h => absurd h hp⟩, fun _ => ⟨rfl, ?_⟩⟩
      simp only [RunResult.world, hcerr]
      rw [reportBatteryThresholds_append, OStream.str_append, OStream.str_append,
        OStream.str_cons, OStream.str_nil, String.append_assoc]
      simp [Item.str]
  cases hd : args.disableThresholds with
  | true =>
    rw [hspec.1 hd]
    have := key { args with startThreshold := 1, stopThreshold := 0 } rfl
      (confirmation_disable args hd) (by simp [hd]; decide) (by simp [hd])
      (by simp [expectedReadback, hd])
    simpa [hd] using this
  | false =>
    rcases hvalid with h | ⟨h1, h2, h3, h4, h5⟩
    · rw [hd] at h; exact absurd h (by decide)
    · rw [(((hspec.2 hd).2 h1 h2).2 h3 h4).2 h5]
      have hw : wrapInt32 (args.startThreshold - 1) = args.startThreshold - 1 :=
        wrapInt32_of_isInt32 (by unfold IsInt32; omega)
      have := key args rfl rfl (by simp [hd, hw]) (by simp [hd])
        (by simp [expectedReadback, hd, hw])
      simpa [hd] using this

/-- C9 at `--set -b 1 --start 40 --stop 80` with the storing fake, whose readback is
the pair written: exit 0. -/
theorem run_set_verification_witness :
    (run storingFake 0
        { setThreshold := true, batteryId := 1, startThreshold := 40, stopThreshold := 80 }
        { vendor := fakeWith 1 none }).code = some 0 :=
  (run_set_verification storingFake 0
    { setThreshold := true, batteryId := 1, startThreshold := 40, stopThreshold := 80 }
    { vendor := fakeWith 1 none } _ _ _ (0, 0) (39, 80) rfl (by decide) rfl
    (Or.inr (by decide)) rfl rfl).1.2 rfl

/-- C7: for every status record and both verbosity values, each line of the status
block is emitted only if its capability flag is non-zero (the power line only if both
`canReportVoltage` and `canReportCurrent` are, a detailed line only in detailed mode
with its own flag), whether the formatter returns or ends early; and when every
capability flag is zero `reportBatteryStatus` returns having emitted nothing. -/
theorem reportBatteryStatus_capability_gating (status : SmartBatteryStatus) (detailed : Bool) :
    (Item.lit "Status: " ∈ (reportBatteryStatus [] status detailed).stream →
      status.canReportChargeStatus ≠ 0) ∧
    (Item.lit "Current charge: " ∈ (reportBatteryStatus [] status detailed).stream →
      status.canReportRemainingCharge ≠ 0) ∧
    (Item.lit "Current capacity: " ∈ (reportBatteryStatus [] status detailed).stream →
      status.canReportRemainingCapacity ≠ 0) ∧
    (Item.lit "Number of charge/discharge cycles: "
        ∈ (reportBatteryStatus [] status detailed).stream →
      status.canReportCycleCount ≠ 0) ∧
    (Item.lit "Power consumption: " ∈ (reportBatteryStatus [] status detailed).stream →
      status.canReportVoltage ≠ 0 ∧ status.canReportCurrent ≠ 0) ∧
    (Item.lit "Voltage: " ∈ (reportBatteryStatus [] status detailed).stream →
      status.canReportVoltage ≠ 0) ∧
    (Item.lit "Current: " ∈ (reportBatteryStatus [] status detailed).stream →
      status.canReportCurrent ≠ 0) ∧
    (Item.lit "Temperature: " ∈ (reportBatteryStatus [] status detailed).stream →
      status.canReportTemperature ≠ 0) ∧
    (Item.lit "Manufacturer: " ∈ (reportBatteryStatus [] status detailed).stream →
      detailed = true ∧ status.canReportManufacturer ≠ 0) ∧
    (Item.lit "Chemistry: " ∈ (reportBatteryStatus [] status detailed).stream →
      detailed = true ∧ status.canReportDeviceChemistry ≠ 0) ∧
    (Item.lit "FRU: " ∈ (reportBatteryStatus [] status detailed).stream →
      detailed = true ∧ status.canReportDeviceName ≠ 0) ∧
    (Item.lit "Serial number: " ∈ (reportBatteryStatus [] status detailed).stream →
      detailed = true ∧ status.canReportSerialNumber ≠ 0) ∧
    (Item.lit "Bar code number: " ∈ (reportBatteryStatus [] status detailed).stream →
      detailed = true ∧ status.canReportBarCodeNumber ≠ 0) ∧
    (Item.lit "Date of manufacture: " ∈ (reportBatteryStatus [] status detailed).stream →
      detailed = true ∧ status.canReportManufactureDate ≠ 0) ∧
    (Item.lit "Date of first use: " ∈ (reportBatteryStatus [] status detailed).stream →
      detailed = true ∧ status.canReportFirstUseDate ≠ 0) ∧
    (status.noCapability → reportBatteryStatus [] status detailed = .ok [] ∧
      (reportBatteryStatus [] status detailed).stream.str = "") := by
  refine ⟨?_, ?_, ?_, ?_, ?_, ?_, ?_, ?_, ?_, ?_, ?_, ?_, ?_, ?_, ?_, ?_⟩
  case refine_16 =>
    intro h
    rw [reportBatteryStatus_noCapability [] status detailed h]
    exact ⟨rfl, rfl⟩
  all_goals
    intro h
    have h := mem_reportBatteryStatus h
    simp [ChargeItem, BasicItem, DetailedItem] at h
    tauto

/-- C7 at the record with every capability flag zero, in detailed mode (scenario E1):
nothing is emitted. -/
theorem reportBatteryStatus_capability_gating_witness :
    reportBatteryStatus [] {} true = .ok [] ∧ (reportBatteryStatus [] {} true).stream.str = "" :=
  (reportBatteryStatus_capability_gating {} true).2.2.2.2.2.2.2.2.2.2.2.2.2.2.2
    (by simp [SmartBatteryStatus.noCapability])

/-- C10 (counterexample): for the 32-bit pair `(2147483647, 0)` the sum `start + 1`
is not a 32-bit value; the line reads `charge from -2147483648% to 0%`, not
`charge from 2147483648% to 0%`. -/
theorem reportBatteryThresholds_max_start :
    IsInt32 2147483647 ∧ IsInt32 0 ∧
    (reportBatteryThresholds [] 2147483647 0).str
      = "    Charge thresholds: charge from -2147483648% to 0%\n" ∧
    (reportBatteryThresholds [] 2147483647 0).str
      ≠ "    Charge thresholds: charge from " ++ toString ((2147483647 : Int) + 1) ++ "% to "
        ++ toString (0 : Int) ++ "%\n" := by
  refine ⟨?_, ?_, ?_, ?_⟩ <;> decide

/-- C10 (amended): for every pair of 32-bit integers `(start, stop)` with
`start ≠ 2147483647`, `reportBatteryThresholds` emits exactly
`    Charge thresholds: disabled\n` when `start = 0` and `stop = 0`, and otherwise
exactly `    Charge thresholds: charge from X% to stop%\n` with `X = start + 1` in
decimal. -/
theorem reportBatteryThresholds_text (stream : OStream) (startThreshold stopThreshold : Int)
    (hstart : IsInt32 startThreshold) (hmax : startThreshold ≠ 2147483647) :
    (reportBatteryThresholds stream startThreshold stopThreshold).str = stream.str ++
      (if startThreshold = 0 ∧ stopThreshold = 0 then "    Charge thresholds: disabled\n"
       else "    Charge thresholds: charge from " ++ toString (startThreshold + 1) ++ "% to "
        ++ toString stopThreshold ++ "%\n") := by
  have hw : wrapInt32 (startThreshold + 1) = startThreshold + 1 :=
    wrapInt32_of_isInt32 (by unfold IsInt32 at *; omega)
  unfold reportBatteryThresholds
  split_ifs with h
  · simp only [OStream.str_append, OStream.str_cons, OStream.str_nil, Item.str]
    apply String.ext
    simp [String.data_append]
  · simp only [hw, OStream.str_append, OStream.str_cons, OStream.str_nil, Item.str]
    apply String.ext
    simp [String.data_append]

/-- C10 (amended) at the stored pair `(39, 80)`: the line reads
`charge from 40% to 80%`. -/
theorem reportBatteryThresholds_text_witness :
    (reportBatteryThresholds [] 39 80).str = "    Charge thresholds: charge from 40% to 80%\n" :=
  (reportBatteryThresholds_text [] 39 80 (by decide) (by decide)).trans (by decide)

/-! ## The status block is appended to the stream -/

theorem Outcome.after_nil (o : Outcome) : Outcome.after [] o = o := by
  cases o <;> simp [Outcome.after]

theorem Outcome.after_bind (stream : OStream) (o : Outcome) (f g : OStream → Outcome)
    (h : ∀ s, g (stream ++ s) = Outcome.after stream (f s)) :
    (Outcome.after stream o).bind g = Outcome.after stream (o.bind f) := by
  cases o <;> simp [Outcome.after, Outcome.bind, h]

theorem reportChargeStatus_append (stream : OStream) (status : SmartBatteryStatus) :
    reportChargeStatus stream status = Outcome.after stream (reportChargeStatus [] status) := by
  unfold reportChargeStatus insertBatteryChargeStatus
  split_ifs <;> simp [Outcome.after, Outcome.bind]

theorem reportRemainingCharge_append (stream : OStream) (status : SmartBatteryStatus) :
    reportRemainingCharge stream status
      = Outcome.after stream (reportRemainingCharge [] status) := by
  unfold reportRemainingCharge
  split_ifs
  · dsimp only; split <;> simp [Outcome.after]
  · dsimp only; split <;> simp [Outcome.after]
  · simp [Outcome.after]
  · simp [Outcome.after]

theorem reportRemainingCapacity_append (stream : OStream) (status : SmartBatteryStatus) :
    reportRemainingCapacity stream status = stream ++ reportRemainingCapacity [] status := by
  unfold reportRemainingCapacity; split_ifs <;> simp

theorem reportCycleCount_append (stream : OStream) (status : SmartBatteryStatus) :
    reportCycleCount stream status = stream ++ reportCycleCount [] status := by
  unfold reportCycleCount; split_ifs <;> simp

theorem reportPower_append (stream : OStream) (status : SmartBatteryStatus) :
    reportPower stream status = stream ++ reportPower [] status := by
  unfold reportPower; split_ifs <;> simp

theorem reportVoltage_append (stream : OStream) (status : SmartBatteryStatus) :
    reportVoltage stream status = stream ++ reportVoltage [] status := by
  unfold reportVoltage; split_ifs <;> simp

theorem reportCurrent_append (stream : OStream) (status : SmartBatteryStatus) :
    reportCurrent stream status = stream ++ reportCurrent [] status := by
  unfold reportCurrent; split_ifs <;> simp

theorem reportTemperature_append (stream : OStream) (status : SmartBatteryStatus) :
    reportTemperature stream status = stream ++ reportTemperature [] status := by
  unfold reportTemperature; split_ifs <;> simp

theorem reportManufacturer_append (stream : OStream) (status : SmartBatteryStatus) :
    reportManufacturer stream status = stream ++ reportManufacturer [] status := by
  unfold reportManufacturer; split_ifs <;> simp

theorem reportDeviceChemistry_append (stream : OStream) (status : SmartBatteryStatus) :
    reportDeviceChemistry stream status = stream ++ reportDeviceChemistry [] status := by
  unfold reportDeviceChemistry insertBatteryChemistry; split_ifs <;> simp

theorem reportDeviceName_append (stream : OStream) (status : SmartBatteryStatus) :
    reportDeviceName stream status = stream ++ reportDeviceName [] status := by
  unfold reportDeviceName; split_ifs <;> simp

theorem reportSerialNumber_append (stream : OStream) (status : SmartBatteryStatus) :
    reportSerialNumber stream status = stream ++ reportSerialNumber [] status := by
  unfold reportSerialNumber; split_ifs <;> simp

theorem reportBarCodeNumber_append (stream : OStream) (status : SmartBatteryStatus) :
    reportBarCodeNumber stream status = stream ++ reportBarCodeNumber [] status := by
  unfold reportBarCodeNumber; split_ifs <;> simp

theorem reportManufactureDate_append (stream : OStream) (status : SmartBatteryStatus) :
    reportManufactureDate stream status = stream ++ reportManufactureDate [] status := by
  unfold reportManufactureDate; split_ifs <;> simp

theorem reportFirstUseDate_append (stream : OStream) (status : SmartBatteryStatus) :
    reportFirstUseDate stream status = stream ++ reportFirstUseDate [] status := by
  unfold reportFirstUseDate; split_ifs <;> simp

theorem reportDetailed_append (stream : OStream) (status : SmartBatteryStatus) :
    reportDetailed stream status = stream ++ reportDetailed [] status := by
  unfold reportDetailed
  dsimp only
  rw [reportFirstUseDate_append, reportManufactureDate_append, reportBarCodeNumber_append,
    reportSerialNumber_append, reportDeviceName_append, reportDeviceChemistry_append,
    reportManufacturer_append stream]
  conv_rhs =>
    rw [reportFirstUseDate_append, reportManufactureDate_append, reportBarCodeNumber_append,
      reportSerialNumber_append, reportDeviceName_append, reportDeviceChemistry_append]
  simp only [List.append_assoc]

theorem reportBasic_append (stream t : OStream) (status : SmartBatteryStatus) :
    reportTemperature (reportCurrent (reportVoltage (reportPower (reportCycleCount
      (reportRemainingCapacity (stream ++ t) status) status) status) status) status) status
      = stream ++ reportTemperature (reportCurrent (reportVoltage (reportPower
        (reportCycleCount (reportRemainingCapacity t status) status) status) status) status)
        status := by
  rw [reportTemperature_append, reportCurrent_append, reportVoltage_append,
    reportPower_append, reportCycleCount_append, reportRemainingCapacity_append]
  conv_rhs =>
    rw [reportTemperature_append, reportCurrent_append, reportVoltage_append,
      reportPower_append, reportCycleCount_append, reportRemainingCapacity_append]
  simp only [List.append_assoc]

/-- The status block written to a stream is the block written to an empty stream,
appended. -/
theorem reportBatteryStatus_append (stream : OStream) (status : SmartBatteryStatus)
    (detailed : Bool) :
    reportBatteryStatus stream status detailed
      = Outcome.after stream (reportBatteryStatus [] status detailed) := by
  unfold reportBatteryStatus
  rw [reportChargeStatus_append stream]
  apply Outcome.after_bind
  intro s1
  rw [reportRemainingCharge_append (stream ++ s1), reportRemainingCharge_append s1]
  cases reportRemainingCharge [] status with
  | abort why s => simp [Outcome.after, Outcome.bind]
  | ok s2 =>
    simp only [Outcome.after, Outcome.bind, List.append_assoc]
    cases detailed with
    | false => simp [reportBasic_append]
    | true =>
      simp only [if_true, Outcome.ok.injEq]
      rw [reportBasic_append, reportDetailed_append, reportDetailed_append (reportTemperature _ _)]
      simp only [List.append_assoc]

theorem strftimeHM_isSome (m : Nat) (h : m < 1440) :
    ∃ t, strftimeHM { tm_hour := (m : Int) / 60, tm_min := (m : Int) % 60 } = some t := by
  unfold strftimeHM
  rw [if_pos (by dsimp only; omega)]
  exact ⟨_, rfl⟩

/-- A record that can be rendered makes the formatter return. -/
theorem reportBatteryStatus_ok_of_renders (status : SmartBatteryStatus) (detailed : Bool)
    (h : status.renders) :
    reportBatteryStatus [] status detailed
      = .ok (reportBatteryStatus [] status detailed).stream := by
  have h1 : ∃ s, reportChargeStatus [] status = .ok s := by
    unfold reportChargeStatus insertBatteryChargeStatus
    by_cases hc : status.canReportChargeStatus ≠ 0
    · rcases h.1 hc with h0 | h0 | h0 <;>
        simp [hc, h0, Outcome.bind, BatteryChargeStatus.inactive, BatteryChargeStatus.charging,
          BatteryChargeStatus.discharging]
    · simp [hc]
  have h2 : ∀ s, ∃ s2, reportRemainingCharge s status = .ok s2 := by
    intro s
    unfold reportRemainingCharge
    by_cases hc : status.canReportRemainingCharge ≠ 0
    · rw [if_pos hc]
      dsimp only
      split_ifs with ha hb
      · obtain ⟨t, ht⟩ := strftimeHM_isSome _ ((h.2 hc).1 ha)
        rw [ht]; exact ⟨_, rfl⟩
      · obtain ⟨t, ht⟩ := strftimeHM_isSome _ ((h.2 hc).2 hb)
        rw [ht]; exact ⟨_, rfl⟩
      · exact ⟨_, rfl⟩
    · rw [if_neg hc]; exact ⟨_, rfl⟩
  obtain ⟨s1, hs1⟩ := h1
  obtain ⟨s2, hs2⟩ := h2 s1
  unfold reportBatteryStatus
  simp only [hs1, hs2, Outcome.bind]
  cases detailed <;> simp [Outcome.stream]

/-! ## Enumerate mode -/

/-- What one battery block does to the world when the status record, if fetched, can
be rendered. -/
theorem reportBattery_spec {σ : Type} (sm : SMInterface σ) (header : List Item) (n a b : Int)
    (detailed : Bool) (w : World σ)
    (hr : (tryGetSmartBatteryStatus sm n { vendor := w.vendor }).1.1 = true →
      (tryGetSmartBatteryStatus sm n { vendor := w.vendor }).1.2.renders) :
    (reportBattery sm header n a b detailed w).1 = none ∧
    (reportBattery sm header n a b detailed w).2.cout = w.cout ++ (header
      ++ reportBatteryThresholds [] a b
      ++ (if (tryGetSmartBatteryStatus sm n { vendor := w.vendor }).1.1
          then (reportBatteryStatus []
            (tryGetSmartBatteryStatus sm n { vendor := w.vendor }).1.2 detailed).stream
          else [])) ∧
    (reportBattery sm header n a b detailed w).2.vendor
      = (tryGetSmartBatteryStatus sm n { vendor := w.vendor }).2.vendor ∧
    (reportBattery sm header n a b detailed w).2.calls = w.calls ++ [.getStatus n] ∧
    (reportBattery sm header n a b detailed w).2.cerr = w.cerr := by
  unfold reportBattery
  unfold tryGetSmartBatteryStatus at hr ⊢
  dsimp only [World.out, World.called] at hr ⊢
  by_cases hres : (sm.getSmartBatteryStatus_ n
      { size := sizeofSmartBatteryStatus } w.vendor).result = 0
  · simp only [hres, decide_True, if_true] at hr ⊢
    have hok := reportBatteryStatus_ok_of_renders _ detailed (hr trivial)
    rw [reportBatteryStatus_append, hok]
    simp only [Outcome.after, Outcome.stream]
    rw [reportBatteryThresholds_append]
    simp
  · simp only [hres, decide_False, Bool.false_eq_true, if_false]
    rw [reportBatteryThresholds_append]
    simp

theorem enumerationBlocks_succ {σ : Type} (sm : SMInterface σ) (detailed : Bool) (count : Nat)
    (n : Int) (vendor : σ) (a b : Int)
    (h : (tryGetThresholds sm n { vendor := vendor }).1 = some (a, b)) :
    enumerationBlocks sm detailed (count + 1) n vendor
      = ([.lit "\nBattery #", .int n, .lit ":\n"] ++ reportBatteryThresholds [] a b
        ++ (if (tryGetSmartBatteryStatus sm n
              { vendor := (tryGetThresholds sm n { vendor := vendor }).2.vendor }).1.1
            then (reportBatteryStatus [] (tryGetSmartBatteryStatus sm n
              { vendor := (tryGetThresholds sm n { vendor := vendor }).2.vendor }).1.2
              detailed).stream
            else []))
        :: enumerationBlocks sm detailed count (n + 1) (tryGetSmartBatteryStatus sm n
            { vendor := (tryGetThresholds sm n { vendor := vendor }).2.vendor }).2.vendor := by
  rw [enumerationBlocks]
  dsimp only
  rw [h]

/-- The enumeration loop entered at battery `n` with `count` batteries left before
the first id the adapter rejects; `Inv` holds of the vendor states the loop can see. -/
theorem runEnumerate_spec {σ : Type} (sm : SMInterface σ) (detailed : Bool) (k : Nat)
    (Inv : σ → Prop)
    (hget : ∀ (n : Int) (v : σ), Inv v → Inv (tryGetThresholds sm n { vendor := v }).2.vendor)
    (hstatus : ∀ (n : Int) (v : σ), Inv v →
      Inv (tryGetSmartBatteryStatus sm n { vendor := v }).2.vendor)
    (hk : (k : Int) + 1 ≤ 2147483647)
    (hacc : ∀ n : Int, 1 ≤ n → n ≤ k → ∀ v : σ, Inv v →
      (tryGetThresholds sm n { vendor := v }).1 ≠ none)
    (hrej : ∀ v : σ, Inv v → (tryGetThresholds sm ((k : Int) + 1) { vendor := v }).1 = none)
    (hren : ∀ n : Int, 1 ≤ n → n ≤ k → ∀ v : σ, Inv v →
      (tryGetSmartBatteryStatus sm n { vendor := v }).1.1 = true →
      (tryGetSmartBatteryStatus sm n { vendor := v }).1.2.renders) :
    ∀ (count : Nat) (n : Int) (fuel : Nat) (w : World σ), Inv w.vendor → 1 ≤ n →
      n + count = k + 1 → count < fuel →
      (runEnumerate sm detailed fuel n w).code = some 0 ∧
      (runEnumerate sm detailed fuel n w).world.cout
        = w.cout ++ (enumerationBlocks sm detailed count n w.vendor).flatten ∧
      (enumerationBlocks sm detailed count n w.vendor).length = count ∧
      (enumerationBlocks sm detailed count n w.vendor).map (List.take 3)
        = (List.range count).map
          (fun i : Nat => [Item.lit "\nBattery #", .int (n + (i : Int)), .lit ":\n"]) ∧
      (runEnumerate sm detailed fuel n w).world.cerr = w.cerr ∧
      ∃ made, (runEnumerate sm detailed fuel n w).world.calls = w.calls ++ made ∧
        ∀ x ∈ made, n ≤ x.batteryId ∧ x.batteryId ≤ k + 1 ∧ x.isWrite = false := by
  intro count
  induction count with
  | zero =>
    intro n fuel w hinv hn hnk hfuel
    obtain ⟨f, rfl⟩ : ∃ f, fuel = f + 1 := ⟨fuel - 1, by omega⟩
    have hn' : n = (k : Int) + 1 := by omega
    subst hn'
    have hv := tryGetThresholds_vendor sm ((k : Int) + 1) w { vendor := w.vendor } rfl
    have hnone : (tryGetThresholds sm ((k : Int) + 1) w).1 = none := by
      rw [hv.1]; exact hrej w.vendor hinv
    have hrun : runEnumerate sm detailed (f + 1) ((k : Int) + 1) w
        = .exit 0 (tryGetThresholds sm ((k : Int) + 1) w).2 := by
      rw [runEnumerate]
      dsimp only
      rw [hnone]
    rw [hrun]
    refine ⟨rfl, ?_, rfl, rfl, ?_, ?_⟩
    · simp [RunResult.world, enumerationBlocks, tryGetThresholds_cout]
    · simp [RunResult.world, tryGetThresholds_cerr]
    · rcases tryGetThresholds_calls sm ((k : Int) + 1) w with hc | hc <;>
        exact ⟨_, hc, by simp [VendorCall.batteryId, VendorCall.isWrite]⟩
  | succ c ih =>
    intro n fuel w hinv hn hnk hfuel
    obtain ⟨f, rfl⟩ : ∃ f, fuel = f + 1 := ⟨fuel - 1, by omega⟩
    have hnk' : n ≤ k := by omega
    have hv := tryGetThresholds_vendor sm n w { vendor := w.vendor } rfl
    have hsome0 := hacc n hn hnk' w.vendor hinv
    obtain ⟨⟨a, b⟩, hab0⟩ := Option.ne_none_iff_exists'.mp hsome0
    have hab : (tryGetThresholds sm n w).1 = some (a, b) := by rw [hv.1]; exact hab0
    have hcalls := tryGetThresholds_calls_of_some sm n w (by rw [hab]; simp)
    have hcout := tryGetThresholds_cout sm n w
    have hcerr := tryGetThresholds_cerr sm n w
    have hinv1 : Inv (tryGetThresholds sm n w).2.vendor := by
      rw [hv.2]; exact hget n w.vendor hinv
    have hrb := reportBattery_spec sm [.lit "\nBattery #", .int n, .lit ":\n"] n a b detailed
      (tryGetThresholds sm n w).2 (hren n hn hnk' _ hinv1)
    have hw32 : wrapInt32 (n + 1) = n + 1 := wrapInt32_of_isInt32 (by unfold IsInt32; omega)
    have hrun : runEnumerate sm detailed (f + 1) n w = runEnumerate sm detailed f (n + 1)
        (reportBattery sm [.lit "\nBattery #", .int n, .lit ":\n"] n a b detailed
          (tryGetThresholds sm n w).2).2 := by
      rw [runEnumerate]
      dsimp only
      rw [hab]
      dsimp only
      rw [hrb.1, hw32]
    have hih := ih (n + 1) f (reportBattery sm [.lit "\nBattery #", .int n, .lit ":\n"] n a b
      detailed (tryGetThresholds sm n w).2).2
      (by rw [hrb.2.2.1]; exact hstatus n _ hinv1)
      (by omega) (by push_cast at hnk ⊢; omega) (by omega)
    rw [hrb.2.2.1] at hih
    rw [hrun]
    rw [enumerationBlocks_succ sm detailed c n w.vendor a b hab0, ← hv.2]
    obtain ⟨h1, h2, h3, h4, h5, made, h6, h7⟩ := hih
    refine ⟨h1, ?_, by simp [h3], ?_, ?_, ?_⟩
    · rw [h2, hrb.2.1, hcout]
      simp [List.append_assoc]
    · rw [List.map_cons, h4, List.range_succ_eq_map, List.map_cons, List.map_map]
      congr 1
      · rw [reportBatteryThresholds_append]; simp
      · apply List.map_congr_left
        intro i _
        simp only [Function.comp, Nat.succ_eq_add_one]
        push_cast
        rw [add_assoc, add_comm 1 (i : Int)]
    · rw [h5, hrb.2.2.2.2, hcerr]
    · refine ⟨[.getStart n, .getStop n] ++ [.getStatus n] ++ made, ?_, ?_⟩
      · rw [h6, hrb.2.2.2.1, hcalls]; simp [List.append_assoc]
      · intro x hx
        simp only [List.mem_append, List.mem_cons, List.mem_singleton, List.not_mem_nil,
          or_false] at hx
        rcases hx with ((hx | hx) | hx) | hx
        · subst hx; exact ⟨le_refl _, by simp [VendorCall.batteryId]; omega, rfl⟩
        · subst hx; exact ⟨le_refl _, by simp [VendorCall.batteryId]; omega, rfl⟩
        · subst hx; exact ⟨le_refl _, by simp [VendorCall.batteryId]; omega, rfl⟩
        · have := h7 x hx
          exact ⟨by omega, this.2.1, this.2.2⟩

theorem run_of_enumerate {σ : Type} (sm : SMInterface σ) (fuel : Nat) (args : ProgramArgs)
    (w : World σ) (hmode : args.setThreshold = false) (hid : args.batteryId = 0) :
    run sm fuel args w = runEnumerate sm args.detailed fuel 1 w := by
  simp [run, hmode, hid]

theorem storingFake_tryGetThresholds (n : Int) (w : World FakeState) :
    tryGetThresholds storingFake n w =
      if w.vendor.accepts n then
        (some (w.vendor.start n, w.vendor.stop n),
          { w with calls := w.calls ++ [.getStart n, .getStop n] })
      else (none, { w with calls := w.calls ++ [.getStart n] }) := by
  unfold tryGetThresholds storingFake
  by_cases h : w.vendor.accepts n = true <;> simp [h, World.called]

theorem storingFake_tryGetSmartBatteryStatus_vendor (n : Int) (w : World FakeState) :
    (tryGetSmartBatteryStatus storingFake n w).2.vendor = w.vendor ∧
    ((tryGetSmartBatteryStatus storingFake n w).1.1 = true →
      w.vendor.status n = some (tryGetSmartBatteryStatus storingFake n w).1.2) := by
  unfold tryGetSmartBatteryStatus storingFake
  dsimp only [World.called]
  by_cases h : w.vendor.accepts n = true
  · cases hs : w.vendor.status n <;> simp [h, hs]
  · simp [h]

/-- C8 (counterexample): the storing fake with battery 1 installed, whose threshold
read succeeds for id 1 and fails for id 2, in enumerate mode. When the status record
fetched has `canReportChargeStatus` set and `chargeStatus = 3`, `run` returns for no
amount of fuel: with fuel left the program ends through `std::terminate` inside the
status block of battery 1. The same happens through `strftime` when the record asks
for a remaining time of 1500 minutes, which is outside the range of `%H`. -/
theorem run_enumerate_status_terminates :
    (tryGetThresholds storingFake 1 { vendor := fakeWith 1 (some statusInvalidCharge) }).1
      = some (0, 0) ∧
    (tryGetThresholds storingFake 2 { vendor := fakeWith 1 (some statusInvalidCharge) }).1
      = none ∧
    (¬ ∃ fuel, (run storingFake fuel {}
      { vendor := fakeWith 1 (some statusInvalidCharge) }).code = some 0) ∧
    (run storingFake 2 {} { vendor := fakeWith 1 (some statusInvalidCharge) }).aborted
      = some .terminate ∧
    (run storingFake 2 {} { vendor := fakeWith 1 (some statusInvalidCharge) }).world.cout.str
      = "\nBattery #1:\n    Charge thresholds: disabled\n    Status: " ∧
    (run storingFake 2 {} { vendor := fakeWith 1 (some (statusWithTime 1500)) }).aborted
      = some .strftime := by
  refine ⟨by decide, by decide, ?_, by decide, by decide, by decide⟩
  rintro ⟨fuel, h⟩
  cases fuel with
  | zero => exact absurd h (by decide)
  | succ f =>
    have hget : (tryGetThresholds storingFake 1
        { vendor := fakeWith 1 (some statusInvalidCharge) }).1 = some (0, 0) := by decide
    have hblock : (reportBattery storingFake [.lit "\nBattery #", .int 1, .lit ":\n"] 1 0 0
        false (tryGetThresholds storingFake 1
          { vendor := fakeWith 1 (some statusInvalidCharge) }).2).1 = some .terminate := by
      decide
    have : (run storingFake (f + 1) {}
        { vendor := fakeWith 1 (some statusInvalidCharge) }).code = none := by
      rw [run_of_enumerate _ _ _ _ rfl rfl, runEnumerate]
      dsimp only
      rw [hget]
      dsimp only
      rw [hblock]
      rfl
    rw [this] at h
    exact absurd h (by decide)

/-- C8 (amended): in enumerate mode (`setThreshold = false`, `batteryId = 0`), for every
`k` with `k + 1` a 32-bit id and every adapter whose threshold read succeeds for the
ids `1..k` and fails for `k + 1`, and whose status records for `1..k` can be rendered
(a valid charge status where the `Status:` line is due, a time below 24 hours where the
charge line shows one): with more than `k` units of fuel `run` returns 0, has appended
to stdout exactly the `k` battery blocks of `enumerationBlocks`, headed
`\nBattery #1:\n`, …, `\nBattery #k:\n` in this order, has written nothing to stderr,
and has called no entry point with an id outside `1..k+1` and no write entry point.
`Inv` describes the vendor states the adapter can be in. -/
theorem run_enumerate {σ : Type} (sm : SMInterface σ) (fuel k : Nat) (args : ProgramArgs)
    (w : World σ) (Inv : σ → Prop) (hmode : args.setThreshold = false)
    (hid : args.batteryId = 0) (hk : (k : Int) + 1 ≤ 2147483647) (hfuel : k < fuel)
    (hinv : Inv w.vendor)
    (hget : ∀ (n : Int) (v : σ), Inv v → Inv (tryGetThresholds sm n { vendor := v }).2.vendor)
    (hstatus : ∀ (n : Int) (v : σ), Inv v →
      Inv (tryGetSmartBatteryStatus sm n { vendor := v }).2.vendor)
    (hacc : ∀ n : Int, 1 ≤ n → n ≤ k → ∀ v : σ, Inv v →
      (tryGetThresholds sm n { vendor := v }).1 ≠ none)
    (hrej : ∀ v : σ, Inv v → (tryGetThresholds sm ((k : Int) + 1) { vendor := v }).1 = none)
    (hren : ∀ n : Int, 1 ≤ n → n ≤ k → ∀ v : σ, Inv v →
      (tryGetSmartBatteryStatus sm n { vendor := v }).1.1 = true →
      (tryGetSmartBatteryStatus sm n { vendor := v }).1.2.renders) :
    (run sm fuel args w).code = some 0 ∧
    (run sm fuel args w).world.cout
      = w.cout ++ (enumerationBlocks sm args.detailed k 1 w.vendor).flatten ∧
    (enumerationBlocks sm args.detailed k 1 w.vendor).length = k ∧
    (enumerationBlocks sm args.detailed k 1 w.vendor).map (List.take 3)
      = (List.range k).map
        (fun i : Nat => [Item.lit "\nBattery #", .int ((i : Int) + 1), .lit ":\n"]) ∧
    (run sm fuel args w).world.cerr = w.cerr ∧
    ∃ made, (run sm fuel args w).world.calls = w.calls ++ made ∧
      ∀ x ∈ made, 1 ≤ x.batteryId ∧ x.batteryId ≤ k + 1 ∧ x.isWrite = false := by
  rw [run_of_enumerate sm fuel args w hmode hid]
  have h := runEnumerate_spec sm args.detailed k Inv hget hstatus hk hacc hrej hren k 1 fuel w
    hinv (le_refl _) (by omega) hfuel
  simp only [add_comm (1 : Int)] at h
  exact h

/-- C8 (amended) for the storing fake with batteries 1 and 2 installed and a status
record showing the charge and two hours five minutes left: exit 0 and two blocks. -/
theorem run_enumerate_witness :
    (run storingFake 3 {} { vendor := fakeWith 2 (some (statusWithTime 125)) }).code = some 0 ∧
    (run storingFake 3 {} { vendor := fakeWith 2 (some (statusWithTime 125)) }).world.cout.str
      = "\nBattery #1:\n    Charge thresholds: disabled\n    Current charge: 37% (02:05 left)\n"
        ++ "\nBattery #2:\n    Charge thresholds: disabled\n    Current charge: 37% (02:05 left)\n"
    :=
  have h := run_enumerate storingFake 3 2 {} { vendor := fakeWith 2 (some (statusWithTime 125)) }
    (fun v => v.accepts = (fun b => decide (1 ≤ b ∧ b ≤ 2)) ∧
      v.status = fun _ => some (statusWithTime 125))
    rfl rfl (by decide) (by decide) ⟨rfl, rfl⟩
    (fun n v hv => by
      rw [storingFake_tryGetThresholds]; split_ifs <;> exact hv)
    (fun n v hv => by
      rw [(storingFake_tryGetSmartBatteryStatus_vendor n _).1]; exact hv)
    (fun n h1 h2 v hv => by
      rw [storingFake_tryGetThresholds]
      have : v.accepts n = true := by rw [hv.1]; simp; omega
      simp [this])
    (fun v hv => by
      rw [storingFake_tryGetThresholds]
      have : v.accepts 3 = false := by rw [hv.1]; simp
      simp [this])
    (fun n h1 h2 v hv hok => by
      have h := (storingFake_tryGetSmartBatteryStatus_vendor n { vendor := v }).2 hok
      rw [hv.2] at h
      have h' := Option.some.inj h
      rw [← h']
      simp [SmartBatteryStatus.renders, BatteryChargeStatus.charging, statusWithTime])
  ⟨h.1, (congrArg OStream.str h.2.1).trans (by decide)⟩

/-! ## The shape of the status block -/

theorem toString_natCast (k : Nat) : toString ((k : Nat) : Int) = toString k := rfl

theorem twoDigits_natCast (k : Nat) : twoDigits ((k : Nat) : Int) = zeroPad2 k := by
  unfold twoDigits zeroPad2
  rw [toString_natCast]
  by_cases h : k < 10
  · rw [if_pos h, if_pos (by exact_mod_cast h)]
  · rw [if_neg h, if_neg (by exact_mod_cast h)]

/-- The text `strftime` stores for a time below 24 hours. -/
theorem strftimeHM_of_lt (m : Nat) (h : m < 1440) :
    strftimeHM { tm_hour := (m : Int) / 60, tm_min := (m : Int) % 60 } = some (hhmm m) := by
  unfold strftimeHM
  rw [if_pos (by dsimp only; omega)]
  have h1 : ((m : Int) / 60) = ((m / 60 : Nat) : Int) := by push_cast; rfl
  have h2 : ((m : Int) % 60) = ((m % 60 : Nat) : Int) := by push_cast; rfl
  dsimp only
  rw [h1, h2, twoDigits_natCast, twoDigits_natCast]
  rfl

/-- For a time of 24 hours or more `strftime` has no defined result. -/
theorem strftimeHM_of_ge (m : Nat) (h : 1440 ≤ m) :
    strftimeHM { tm_hour := (m : Int) / 60, tm_min := (m : Int) % 60 } = none := by
  unfold strftimeHM
  rw [if_neg (by dsimp only; omega)]

theorem reportTail_append (stream : OStream) (status : SmartBatteryStatus) (detailed : Bool) :
    reportTail stream status detailed = stream ++ reportTail [] status detailed := by
  unfold reportTail
  dsimp only
  have h := reportBasic_append stream [] status
  rw [List.append_nil] at h
  cases detailed with
  | false => simpa using h
  | true =>
    simp only [if_true]
    rw [h, reportDetailed_append, reportDetailed_append (reportTemperature _ _)]
    simp only [List.append_assoc]

/-- The status block is its three parts in sequence: the `Status:` line, the charge
line, and the remaining lines. -/
theorem reportBatteryStatus_eq (stream : OStream) (status : SmartBatteryStatus)
    (detailed : Bool) :
    reportBatteryStatus stream status detailed
      = (reportChargeStatus stream status).bind fun stream =>
          (reportRemainingCharge stream status).bind fun stream =>
            .ok (reportTail stream status detailed) := by
  unfold reportBatteryStatus reportTail
  cases detailed <;> rfl

/-- When the first two lines are written without an early end, the status block
returns them followed by the remaining lines. -/
theorem reportBatteryStatus_of_ok (status : SmartBatteryStatus) (detailed : Bool)
    (s1 s2 : OStream) (h1 : reportChargeStatus [] status = .ok s1)
    (h2 : reportRemainingCharge [] status = .ok s2) :
    reportBatteryStatus [] status detailed
      = .ok (s1 ++ s2 ++ reportTail [] status detailed) := by
  rw [reportBatteryStatus_eq, h1]
  simp only [Outcome.bind]
  rw [reportRemainingCharge_append, h2]
  simp only [Outcome.after, Outcome.bind]
  rw [reportTail_append]

theorem reportChargeStatus_of_flag_zero (stream : OStream) (status : SmartBatteryStatus)
    (h : status.canReportChargeStatus = 0) : reportChargeStatus stream status = .ok stream := by
  simp [reportChargeStatus, h]

theorem reportChargeStatus_of_valid (status : SmartBatteryStatus)
    (h : status.canReportChargeStatus ≠ 0) (hv : status.chargeStatusValid) :
    reportChargeStatus [] status = .ok (statusLine status) := by
  unfold reportChargeStatus insertBatteryChargeStatus statusLine chargeStatusName
  rw [if_pos h]
  rcases hv with h0 | h0 | h0 <;> rw [h0] <;>
    simp [Outcome.bind, BatteryChargeStatus.inactive, BatteryChargeStatus.charging,
      BatteryChargeStatus.discharging]
  split_ifs <;> simp

/-- With the flag set and a charge status that is none of the enumerators, the
`Status:` line ends in `std::terminate`. -/
theorem reportChargeStatus_of_invalid (stream : OStream) (status : SmartBatteryStatus)
    (h : status.canReportChargeStatus ≠ 0) (hv : ¬ status.chargeStatusValid) :
    reportChargeStatus stream status
      = .abort .terminate (stream ++ [.lit "    ", .lit "Status: "]) := by
  unfold SmartBatteryStatus.chargeStatusValid at hv
  have h0 : ¬ status.chargeStatus = BatteryChargeStatus.inactive := fun e => hv (Or.inl e)
  have h1 : ¬ status.chargeStatus = BatteryChargeStatus.charging :=
    fun e => hv (Or.inr (Or.inl e))
  have h2 : ¬ status.chargeStatus = BatteryChargeStatus.discharging :=
    fun e => hv (Or.inr (Or.inr e))
  unfold reportChargeStatus insertBatteryChargeStatus
  simp [h, h0, h1, h2, Outcome.bind]

theorem reportRemainingCharge_of_flag_zero (stream : OStream) (status : SmartBatteryStatus)
    (h : status.canReportRemainingCharge = 0) :
    reportRemainingCharge stream status = .ok stream := by
  simp [reportRemainingCharge, h]

/-- The charge line when the time shown, if any, is below 24 hours. -/
theorem reportRemainingCharge_of_inRange (status : SmartBatteryStatus)
    (h : status.canReportRemainingCharge ≠ 0)
    (hrem : status.canReportRemainingTime ≠ 0 ∧
      status.chargeStatus ≠ BatteryChargeStatus.charging → status.remainingTime < 1440)
    (hcompl : status.canReportChargeCompletionTime ≠ 0 ∧
      status.chargeStatus = BatteryChargeStatus.charging → status.chargeCompletionTime < 1440) :
    reportRemainingCharge [] status = .ok (chargeLine status) := by
  unfold reportRemainingCharge chargeLine timeSuffix
  rw [if_pos h]
  dsimp only
  by_cases hc : status.chargeStatus = BatteryChargeStatus.charging
  · by_cases hf : status.canReportChargeCompletionTime ≠ 0
    · rw [if_neg (by tauto), if_pos ⟨hf, hc⟩, if_pos ⟨hc, hf⟩,
        strftimeHM_of_lt _ (hcompl ⟨hf, hc⟩)]
      simp
    · rw [if_neg (by tauto), if_neg (by tauto), if_neg (by tauto), if_neg (by tauto)]
      simp
  · by_cases hf : status.canReportRemainingTime ≠ 0
    · rw [if_pos ⟨hf, hc⟩, if_neg (by tauto), if_pos ⟨hc, hf⟩, strftimeHM_of_lt _ (hrem ⟨hf, hc⟩)]
      simp
    · rw [if_neg (by tauto), if_neg (by tauto), if_neg (by tauto), if_neg (by tauto)]
      simp

/-- The code's order of the two tests on the charge line gives what the order of the
specification gives. -/
theorem reportRemainingCharge_eq_spec (stream : OStream) (status : SmartBatteryStatus) :
    reportRemainingCharge stream status = reportRemainingChargeSpec stream status := by
  unfold reportRemainingCharge reportRemainingChargeSpec
  by_cases h : status.canReportRemainingCharge ≠ 0
  · rw [if_pos h, if_pos h]
    dsimp only
    by_cases hc : status.chargeStatus = BatteryChargeStatus.charging
    · by_cases hf : status.canReportChargeCompletionTime ≠ 0
      · rw [if_neg (by tauto), if_pos ⟨hf, hc⟩, if_pos ⟨hc, hf⟩]
      · rw [if_neg (by tauto), if_neg (by tauto), if_neg (by tauto), if_neg (by tauto)]
    · by_cases hf : status.canReportRemainingTime ≠ 0
      · rw [if_pos ⟨hf, hc⟩, if_neg (by tauto), if_pos ⟨hc, hf⟩]
      · rw [if_neg (by tauto), if_neg (by tauto), if_neg (by tauto), if_neg (by tauto)]
  · rw [if_neg h, if_neg h]

/-- A record can be rendered exactly when the status block returns. -/
theorem reportBatteryStatus_ok_iff_renders (stream : OStream) (status : SmartBatteryStatus)
    (detailed : Bool) :
    (∃ out, reportBatteryStatus stream status detailed = .ok out) ↔ status.renders := by
  constructor
  · rintro ⟨out, hout⟩
    rw [reportBatteryStatus_eq] at hout
    refine ⟨?_, ?_⟩
    · intro hf
      by_contra hv
      rw [reportChargeStatus_of_invalid stream status hf hv] at hout
      simp [Outcome.bind] at hout
    · intro hcap
      cases h1 : reportChargeStatus stream status with
      | abort why s => rw [h1] at hout; simp [Outcome.bind] at hout
      | ok s1 =>
        rw [h1] at hout
        simp only [Outcome.bind] at hout
        cases h2 : reportRemainingCharge s1 status with
        | abort why s => rw [h2] at hout; simp [Outcome.bind] at hout
        | ok s2 =>
          unfold reportRemainingCharge at h2
          rw [if_pos hcap] at h2
          dsimp only at h2
          refine ⟨?_, ?_⟩
          · intro hr
            by_contra hlt
            rw [if_pos hr, strftimeHM_of_ge _ (by omega)] at h2
            simp at h2
          · intro hr
            by_contra hlt
            rw [if_neg (by tauto), if_pos hr, strftimeHM_of_ge _ (by omega)] at h2
            simp at h2
  · intro h
    have := reportBatteryStatus_ok_of_renders status detailed h
    rw [reportBatteryStatus_append, this]
    exact ⟨_, rfl⟩

theorem reportChargeStatus_ok (status : SmartBatteryStatus)
    (hcs : status.canReportChargeStatus ≠ 0 → status.chargeStatusValid) :
    reportChargeStatus [] status = .ok (reportChargeStatus [] status).stream := by
  by_cases h : status.canReportChargeStatus = 0
  · rw [reportChargeStatus_of_flag_zero [] status h]; rfl
  · rw [reportChargeStatus_of_valid status h (hcs h)]; rfl

/-- C11 (counterexample): a record with `canReportRemainingCharge` and
`canReportRemainingTime` set, charge status inactive and `remainingTime = 4294967295`.
The text `71582788:15` has 11 characters and `timestr` holds 9; `strftime` has no
defined result and no ` (HH:MM left)` follows `Current charge: 37%`. The same holds
from 1440 minutes on, where `tm_hour` leaves the range `0..23` of `%H`. And with the
`Status:` line due for a charge status of 3, which is not charging, no charge line is
written at all. -/
theorem reportBatteryStatus_time_out_of_range :
    IsUInt32 4294967295 ∧
    ("71582788:15".length = 11) ∧
    reportBatteryStatus [] (statusWithTime 4294967295) false
      = .abort .strftime
          [.lit "    ", .lit "Current charge: ", .uint 37, .lit "%"] ∧
    (reportBatteryStatus [] (statusWithTime 4294967295) false).stream.str
      = "    Current charge: 37%" ∧
    reportBatteryStatus [] (statusWithTime 1440) false
      = .abort .strftime
          [.lit "    ", .lit "Current charge: ", .uint 37, .lit "%"] ∧
    reportBatteryStatus [] statusInvalidChargeWithTime false
      = .abort .terminate [.lit "    ", .lit "Status: "] := by
  refine ⟨?_, ?_, ?_, ?_, ?_, ?_⟩ <;> decide

/-- C11 (amended): for every status record with `canReportRemainingCharge` non-zero
whose `Status:` line, if due, has a valid charge status: when the charge status is not
charging, `canReportRemainingTime` is non-zero and `remainingTime = m` is below 1440
minutes, the status block returns and its charge line is
`    Current charge: N% (HH:MM left)` with `HH` the decimal of `m / 60` and `MM` the
decimal of `m % 60`, each zero-padded to two digits; the same holds for
`chargeCompletionTime` and ` until charging complete)` in the charging case. -/
theorem reportBatteryStatus_charge_line_time (status : SmartBatteryStatus) (detailed : Bool)
    (hcap : status.canReportRemainingCharge ≠ 0)
    (hcs : status.canReportChargeStatus ≠ 0 → status.chargeStatusValid) :
    (status.chargeStatus ≠ BatteryChargeStatus.charging → status.canReportRemainingTime ≠ 0 →
      status.remainingTime < 1440 →
      reportBatteryStatus [] status detailed
        = .ok ((reportChargeStatus [] status).stream
            ++ [.lit "    ", .lit "Current charge: ", .uint status.remainingCharge, .lit "%",
                .lit " (", .text (hhmm status.remainingTime), .lit " left)", .lit "\n"]
            ++ reportTail [] status detailed) ∧
      OStream.str [.lit "    ", .lit "Current charge: ", .uint status.remainingCharge, .lit "%",
          .lit " (", .text (hhmm status.remainingTime), .lit " left)", .lit "\n"]
        = "    Current charge: " ++ toString status.remainingCharge ++ "% ("
          ++ zeroPad2 (status.remainingTime / 60) ++ ":" ++ zeroPad2 (status.remainingTime % 60)
          ++ " left)\n") ∧
    (status.chargeStatus = BatteryChargeStatus.charging →
      status.canReportChargeCompletionTime ≠ 0 → status.chargeCompletionTime < 1440 →
      reportBatteryStatus [] status detailed
        = .ok ((reportChargeStatus [] status).stream
            ++ [.lit "    ", .lit "Current charge: ", .uint status.remainingCharge, .lit "%",
                .lit " (", .text (hhmm status.chargeCompletionTime),
                .lit " until charging complete)", .lit "\n"]
            ++ reportTail [] status detailed) ∧
      OStream.str [.lit "    ", .lit "Current charge: ", .uint status.remainingCharge, .lit "%",
          .lit " (", .text (hhmm status.chargeCompletionTime),
          .lit " until charging complete)", .lit "\n"]
        = "    Current charge: " ++ toString status.remainingCharge ++ "% ("
          ++ zeroPad2 (status.chargeCompletionTime / 60) ++ ":"
          ++ zeroPad2 (status.chargeCompletionTime % 60) ++ " until charging complete)\n") := by
  have h1 := reportChargeStatus_ok status hcs
  refine ⟨?_, ?_⟩
  · intro hc hf hlt
    have h2 := reportRemainingCharge_of_inRange status hcap (fun _ => hlt)
      (fun h => absurd h.2 hc)
    refine ⟨?_, ?_⟩
    · rw [reportBatteryStatus_of_ok status detailed _ _ h1 h2]
      unfold chargeLine timeSuffix
      rw [if_neg (by tauto), if_pos ⟨hc, hf⟩]
      simp
    · simp only [OStream.str_cons, OStream.str_nil, Item.str, hhmm]
      apply String.ext
      simp [String.data_append]
  · intro hc hf hlt
    have h2 := reportRemainingCharge_of_inRange status hcap (fun h => absurd hc h.2)
      (fun _ => hlt)
    refine ⟨?_, ?_⟩
    · rw [reportBatteryStatus_of_ok status detailed _ _ h1 h2]
      unfold chargeLine timeSuffix
      rw [if_pos ⟨hc, hf⟩]
      simp
    · simp only [OStream.str_cons, OStream.str_nil, Item.str, hhmm]
      apply String.ext
      simp [String.data_append]

/-- C11 (amended) at scenario E5 (`remainingCharge = 37`, not charging,
`remainingTime = 125`): the charge line is `    Current charge: 37% (02:05 left)`. -/
theorem reportBatteryStatus_charge_line_time_witness :
    reportBatteryStatus [] (statusWithTime 125) true
      = .ok ([] ++ [.lit "    ", .lit "Current charge: ", .uint 37, .lit "%", .lit " (",
          .text "02:05", .lit " left)", .lit "\n"] ++ []) ∧
    OStream.str [.lit "    ", .lit "Current charge: ", .uint 37, .lit "%", .lit " (",
        .text (hhmm 125), .lit " left)", .lit "\n"]
      = "    Current charge: 37% (02:05 left)\n" :=
  have h := (reportBatteryStatus_charge_line_time (statusWithTime 125) true (by decide)
    (fun h => absurd rfl h)).1 (by decide) (by decide) (by decide)
  ⟨h.1.trans (by decide), h.2.trans (by decide)⟩

theorem mem_reportTail {x : Item} {stream : OStream} {status : SmartBatteryStatus}
    {detailed : Bool} (h : x ∈ reportTail stream status detailed) :
    x ∈ stream ∨ BasicItem status x ∨ (detailed = true ∧ DetailedItem status x) := by
  unfold reportTail at h
  dsimp only at h
  cases detailed with
  | false =>
    simp only [Bool.false_eq_true, if_false] at h
    rcases mem_reportBasic h with h | h
    · exact Or.inl h
    · exact Or.inr (Or.inl h)
  | true =>
    simp only [if_true] at h
    rcases mem_reportDetailed h with h | h
    · rcases mem_reportBasic h with h | h
      · exact Or.inl h
      · exact Or.inr (Or.inl h)
    · exact Or.inr (Or.inr ⟨rfl, h⟩)

/-- When the `Status:` line is written without an early end, the stream the status
block leaves behind starts with it, whatever happens on the charge line; what follows
comes from the charge line and the remaining lines. -/
theorem reportBatteryStatus_stream_of_ok (status : SmartBatteryStatus) (detailed : Bool)
    (s1 : OStream) (h1 : reportChargeStatus [] status = .ok s1) :
    ∃ rest, (reportBatteryStatus [] status detailed).stream = s1 ++ rest ∧
      ∀ x ∈ rest, x ∈ (reportRemainingCharge [] status).stream
        ∨ x ∈ reportTail [] status detailed := by
  rw [reportBatteryStatus_eq, h1]
  simp only [Outcome.bind]
  rw [reportRemainingCharge_append]
  cases h2 : reportRemainingCharge [] status with
  | abort why s =>
    exact ⟨s, by simp [Outcome.after, Outcome.bind, Outcome.stream],
      fun x hx => Or.inl (by simpa [Outcome.stream] using hx)⟩
  | ok s2 =>
    refine ⟨s2 ++ reportTail [] status detailed, ?_, ?_⟩
    · simp only [Outcome.after, Outcome.bind, Outcome.stream]
      rw [reportTail_append]
      simp
    · intro x hx
      rcases List.mem_append.mp hx with hx | hx
      · exact Or.inl (by simpa [Outcome.stream] using hx)
      · exact Or.inr hx

/-- C13 (counterexample): a record with `canReportRemainingCharge` and
`canReportRemainingTime` set whose charge status 3 is not charging, with the `Status:`
line due: the program ends in `std::terminate` before the charge line, so no line
carries ` (HH:MM left)`. With a valid record and `remainingTime = 1440` the charge
line is begun but `strftime` has no defined result and no suffix follows. -/
theorem reportBatteryStatus_no_suffix_on_early_end :
    statusInvalidChargeWithTime.canReportRemainingCharge ≠ 0 ∧
    statusInvalidChargeWithTime.chargeStatus ≠ BatteryChargeStatus.charging ∧
    statusInvalidChargeWithTime.canReportRemainingTime ≠ 0 ∧
    Item.lit " left)" ∉ (reportBatteryStatus [] statusInvalidChargeWithTime false).stream ∧
    Item.lit "Current charge: "
      ∉ (reportBatteryStatus [] statusInvalidChargeWithTime false).stream ∧
    (reportBatteryStatus [] statusInvalidChargeWithTime false).stream.str = "    Status: " ∧
    Item.lit " left)" ∉ (reportBatteryStatus [] (statusWithTime 1440) false).stream := by
  refine ⟨?_, ?_, ?_, ?_, ?_, ?_, ?_⟩ <;> decide

/-- C13 (amended): for every status record with `canReportRemainingCharge` non-zero
that can be rendered (a valid charge status where the `Status:` line is due, a time
below 24 hours where the charge line shows one), the status block returns, its charge
line is `Current charge: N%` followed by the time suffix and a newline, and the line
carries ` (HH:MM until charging complete)` exactly when the charge status is charging
and `canReportChargeCompletionTime` is non-zero, ` (HH:MM left)` exactly when it is not
charging and `canReportRemainingTime` is non-zero, and no suffix otherwise. For every
record the code's order of the two tests gives what the order of the specification
gives. -/
theorem reportBatteryStatus_time_suffix (status : SmartBatteryStatus) (detailed : Bool)
    (hcap : status.canReportRemainingCharge ≠ 0) (hr : status.renders) :
    reportBatteryStatus [] status detailed
      = .ok ((reportChargeStatus [] status).stream
          ++ ([.lit "    ", .lit "Current charge: ", .uint status.remainingCharge, .lit "%"]
            ++ timeSuffix status ++ [.lit "\n"])
          ++ reportTail [] status detailed) ∧
    (Item.lit " until charging complete)" ∈ (reportBatteryStatus [] status detailed).stream ↔
      status.chargeStatus = BatteryChargeStatus.charging
        ∧ status.canReportChargeCompletionTime ≠ 0) ∧
    (Item.lit " left)" ∈ (reportBatteryStatus [] status detailed).stream ↔
      status.chargeStatus ≠ BatteryChargeStatus.charging
        ∧ status.canReportRemainingTime ≠ 0) ∧
    (Item.lit " (" ∈ (reportBatteryStatus [] status detailed).stream ↔
      (status.chargeStatus = BatteryChargeStatus.charging
        ∧ status.canReportChargeCompletionTime ≠ 0) ∨
      (status.chargeStatus ≠ BatteryChargeStatus.charging
        ∧ status.canReportRemainingTime ≠ 0)) ∧
    (∀ stream, reportRemainingCharge stream status
      = reportRemainingChargeSpec stream status) := by
  have h1 := reportChargeStatus_ok status hr.1
  have h2 := reportRemainingCharge_of_inRange status hcap (hr.2 hcap).1 (hr.2 hcap).2
  have hout := reportBatteryStatus_of_ok status detailed _ _ h1 h2
  have hmem : ∀ x : Item, (x = .lit " until charging complete)" ∨ x = .lit " left)"
      ∨ x = .lit " (") → (x ∈ (reportBatteryStatus [] status detailed).stream ↔
        x ∈ timeSuffix status) := by
    intro x hx
    rw [hout]
    simp only [Outcome.stream, chargeLine, List.mem_append]
    constructor
    · rintro ((h | (((h | h) | h))) | h)
      · have := mem_reportChargeStatus h
        rcases hx with rfl | rfl | rfl <;> simp at this
      · rcases hx with rfl | rfl | rfl <;> simp at h
      · exact h
      · rcases hx with rfl | rfl | rfl <;> simp at h
      · have := mem_reportTail h
        rcases hx with rfl | rfl | rfl <;> simp [BasicItem, DetailedItem] at this
    · intro h
      exact Or.inl (Or.inr (Or.inl (Or.inr h)))
  refine ⟨hout, ?_, ?_, ?_, fun stream => reportRemainingCharge_eq_spec stream status⟩
  · rw [hmem _ (Or.inl rfl)]
    unfold timeSuffix
    split_ifs <;> simp <;> tauto
  · rw [hmem _ (Or.inr (Or.inl rfl))]
    unfold timeSuffix
    split_ifs <;> simp <;> tauto
  · rw [hmem _ (Or.inr (Or.inr rfl))]
    unfold timeSuffix
    split_ifs <;> simp <;> tauto

/-- C13 (amended) at a record that is not charging, with 125 minutes left: the charge
line carries the suffix ` (02:05 left)`. -/
theorem reportBatteryStatus_time_suffix_witness :
    (Item.lit " left)" ∈ (reportBatteryStatus [] (statusWithTime 125) false).stream ↔
      (statusWithTime 125).chargeStatus ≠ BatteryChargeStatus.charging
        ∧ (statusWithTime 125).canReportRemainingTime ≠ 0) ∧
    Item.lit " left)" ∈ (reportBatteryStatus [] (statusWithTime 125) false).stream :=
  have h := reportBatteryStatus_time_suffix (statusWithTime 125) false (by decide)
    (by simp [SmartBatteryStatus.renders, statusWithTime, BatteryChargeStatus.charging])
  ⟨h.2.2.1, h.2.2.1.mpr (by decide)⟩

/-- C17: for every status record with `canReportChargeStatus` non-zero and a charge
status among inactive, charging, discharging, the first line the status block emits
is `    Status: <state>` with the name of the state, followed by ` (AC)` if and only
if the state is discharging and `acDischarge` is non-zero; this holds of the stream
the block leaves behind however the later lines end. -/
theorem reportBatteryStatus_status_line (status : SmartBatteryStatus) (detailed : Bool)
    (hf : status.canReportChargeStatus ≠ 0) (hv : status.chargeStatusValid) :
    (∃ rest, (reportBatteryStatus [] status detailed).stream = statusLine status ++ rest) ∧
    OStream.str (statusLine status) = "    Status: " ++ chargeStatusName status.chargeStatus
      ++ (if status.chargeStatus = BatteryChargeStatus.discharging ∧ status.acDischarge ≠ 0
          then " (AC)" else "") ++ "\n" ∧
    (status.chargeStatus = BatteryChargeStatus.inactive →
      chargeStatusName status.chargeStatus = "inactive") ∧
    (status.chargeStatus = BatteryChargeStatus.charging →
      chargeStatusName status.chargeStatus = "charging") ∧
    (status.chargeStatus = BatteryChargeStatus.discharging →
      chargeStatusName status.chargeStatus = "discharging") ∧
    (Item.lit " (AC)" ∈ (reportBatteryStatus [] status detailed).stream ↔
      status.chargeStatus = BatteryChargeStatus.discharging ∧ status.acDischarge ≠ 0) := by
  have h1 := reportChargeStatus_of_valid status hf hv
  obtain ⟨rest, hrest, hmem⟩ := reportBatteryStatus_stream_of_ok status detailed _ h1
  refine ⟨⟨rest, hrest⟩, ?_, ?_, ?_, ?_, ?_⟩
  · unfold statusLine
    split_ifs <;>
    · simp only [List.append_nil, List.cons_append, List.nil_append, OStream.str_cons,
        OStream.str_nil, Item.str]
      apply String.ext
      simp [String.data_append]
  · intro h; rw [h]; decide
  · intro h; rw [h]; decide
  · intro h; rw [h]; decide
  · rw [hrest, List.mem_append]
    constructor
    · rintro (h | h)
      · unfold statusLine at h
        split_ifs at h with hc
        · exact hc
        · simp [chargeStatusName] at h
          split_ifs at h <;> exact absurd h (by decide)
      · rcases hmem _ h with h | h
        · have := mem_reportRemainingCharge h
          simp at this
        · have := mem_reportTail h
          simp [BasicItem, DetailedItem] at this
    · intro hc
      left
      unfold statusLine
      rw [if_pos hc]
      simp

/-- C17 at a discharging record on AC power whose charge line ends early: the stream
still starts with `    Status: discharging (AC)`. -/
theorem reportBatteryStatus_status_line_witness :
    (∃ rest, (reportBatteryStatus [] statusDischargingOnAC false).stream
      = statusLine statusDischargingOnAC ++ rest) ∧
    OStream.str (statusLine statusDischargingOnAC) = "    Status: discharging (AC)\n" :=
  have h := reportBatteryStatus_status_line statusDischargingOnAC false (by decide)
    (Or.inr (Or.inr rfl))
  ⟨h.1, h.2.1.trans (by decide)⟩

/-! ## Verbosity and totality of the status block -/

theorem insertBatteryChemistry_eq (stream : OStream) (batteryChemistry : BatteryChemistry) :
    insertBatteryChemistry stream batteryChemistry
      = stream ++ [.lit (chemistryName batteryChemistry)] := by
  unfold insertBatteryChemistry chemistryName
  split_ifs <;> rfl

/-- The `if (detailed)` block writes the seven detailed lines in order, each gated by
its own flag. -/
theorem reportDetailed_eq (stream : OStream) (status : SmartBatteryStatus) :
    reportDetailed stream status = stream ++ detailedLines status := by
  rw [reportDetailed_append]
  congr 1
  unfold reportDetailed
  dsimp only
  rw [reportFirstUseDate_append, reportManufactureDate_append, reportBarCodeNumber_append,
    reportSerialNumber_append, reportDeviceName_append, reportDeviceChemistry_append]
  unfold detailedLines reportManufacturer reportDeviceChemistry reportDeviceName
    reportSerialNumber reportBarCodeNumber reportManufactureDate reportFirstUseDate
  simp only [insertBatteryChemistry_eq, List.nil_append, List.append_assoc, List.cons_append]

/-- The detailed status block is the plain one followed, when it returns, by the
`if (detailed)` block. -/
theorem reportBatteryStatus_detailed (stream : OStream) (status : SmartBatteryStatus) :
    reportBatteryStatus stream status true
      = (reportBatteryStatus stream status false).bind
          fun out => .ok (out ++ detailedLines status) := by
  rw [reportBatteryStatus_eq, reportBatteryStatus_eq]
  cases reportChargeStatus stream status with
  | abort why s => rfl
  | ok s1 =>
    simp only [Outcome.bind]
    cases reportRemainingCharge s1 status with
    | abort why s => rfl
    | ok s2 =>
      simp only [Outcome.bind]
      unfold reportTail
      simp only [if_true, Bool.false_eq_true, if_false]
      rw [reportDetailed_eq]

theorem mem_ite_nil {x : Item} {c : Prop} [Decidable c] {l : List Item} :
    x ∈ (if c then l else []) ↔ c ∧ x ∈ l := by
  split_ifs with h <;> simp [h]

theorem chemistryName_cases (batteryChemistry : BatteryChemistry) :
    chemistryName batteryChemistry ∈
      ["Lithium-Ion", "NiMH", "NiCd", "Lithium-Polymer", "unknown", "Silver-Zinc", "-"] := by
  unfold chemistryName
  split_ifs <;> simp

/-- C19 (counterexample): a record with the `Status:` line due for charge status 3 and
`canReportManufacturer` set. Both verbosities end in `std::terminate` after
`    Status: `; the detailed output is not the plain output followed by the
`Manufacturer:` line, although that line's flag is non-zero. -/
theorem reportBatteryStatus_detailed_early_end :
    statusInvalidChargeDetailed.canReportManufacturer ≠ 0 ∧
    reportBatteryStatus [] statusInvalidChargeDetailed false
      = .abort .terminate [.lit "    ", .lit "Status: "] ∧
    reportBatteryStatus [] statusInvalidChargeDetailed true
      = .abort .terminate [.lit "    ", .lit "Status: "] ∧
    detailedLines statusInvalidChargeDetailed
      = [.lit "    ", .lit "Manufacturer: ", .text "SANYO", .lit "\n"] ∧
    (reportBatteryStatus [] statusInvalidChargeDetailed true).stream
      ≠ (reportBatteryStatus [] statusInvalidChargeDetailed false).stream
        ++ detailedLines statusInvalidChargeDetailed ∧
    Item.lit "Manufacturer: "
      ∉ (reportBatteryStatus [] statusInvalidChargeDetailed true).stream := by
  refine ⟨?_, ?_, ?_, ?_, ?_, ?_⟩ <;> decide

/-- C19 (amended): for every status record that can be rendered (a valid charge status
where the `Status:` line is due, a time below 24 hours where the charge line shows
one), the status block returns in both modes and the output with `detailed = true` is
the output with `detailed = false` followed by the detailed lines, in the order
Manufacturer, Chemistry, FRU, Serial number, Bar code number, Date of manufacture,
Date of first use, each present if and only if its capability flag is non-zero; and
for every status record what the plain report emits is an initial part of what the
detailed report emits. -/
theorem reportBatteryStatus_detailed_appends (status : SmartBatteryStatus) :
    (status.renders → ∃ out, reportBatteryStatus [] status false = .ok out ∧
      reportBatteryStatus [] status true = .ok (out ++ detailedLines status)) ∧
    (∃ rest, (reportBatteryStatus [] status true).stream
      = (reportBatteryStatus [] status false).stream ++ rest) ∧
    (Item.lit "Manufacturer: " ∈ detailedLines status ↔ status.canReportManufacturer ≠ 0) ∧
    (Item.lit "Chemistry: " ∈ detailedLines status ↔ status.canReportDeviceChemistry ≠ 0) ∧
    (Item.lit "FRU: " ∈ detailedLines status ↔ status.canReportDeviceName ≠ 0) ∧
    (Item.lit "Serial number: " ∈ detailedLines status ↔ status.canReportSerialNumber ≠ 0) ∧
    (Item.lit "Bar code number: " ∈ detailedLines status
      ↔ status.canReportBarCodeNumber ≠ 0) ∧
    (Item.lit "Date of manufacture: " ∈ detailedLines status
      ↔ status.canReportManufactureDate ≠ 0) ∧
    (Item.lit "Date of first use: " ∈ detailedLines status
      ↔ status.canReportFirstUseDate ≠ 0) := by
  have hdet := reportBatteryStatus_detailed [] status
  refine ⟨?_, ?_, ?_, ?_, ?_, ?_, ?_, ?_, ?_⟩
  · intro hr
    have hok := reportBatteryStatus_ok_of_renders status false hr
    exact ⟨_, hok, by rw [hdet, hok]; rfl⟩
  · rw [hdet]
    cases reportBatteryStatus [] status false with
    | ok out => exact ⟨detailedLines status, rfl⟩
    | abort why s => exact ⟨[], by simp [Outcome.bind]⟩
  all_goals
    have hname := chemistryName_cases status.deviceChemistry
    simp only [List.mem_cons, List.mem_singleton, List.not_mem_nil, or_false] at hname
    simp only [detailedLines, List.mem_append, mem_ite_nil]
    rcases hname with h | h | h | h | h | h | h <;> rw [h] <;> simp

/-- C19 (amended) at a record with a voltage, a manufacturer and an unknown chemistry
code: the detailed report is the plain report followed by the two detailed lines. -/
theorem reportBatteryStatus_detailed_appends_witness :
    ∃ out, reportBatteryStatus [] statusUnknownChemistry false = .ok out ∧
      reportBatteryStatus [] statusUnknownChemistry true
        = .ok (out ++ [.lit "    ", .lit "Manufacturer: ", .text "SANYO", .lit "\n",
            .lit "    ", .lit "Chemistry: ", .lit "-", .lit "\n"]) :=
  (reportBatteryStatus_detailed_appends statusUnknownChemistry).1
    (by simp [SmartBatteryStatus.renders, statusUnknownChemistry])

/-- The charge line never ends in `std::terminate`. -/
theorem reportRemainingCharge_ne_terminate (stream : OStream) (status : SmartBatteryStatus)
    (out : OStream) : reportRemainingCharge stream status ≠ .abort .terminate out := by
  unfold reportRemainingCharge
  split_ifs
  · dsimp only
    cases strftimeHM _ <;> simp
  · dsimp only
    cases strftimeHM _ <;> simp
  · simp
  · simp

/-- C20 (the code at the failing input): a record with `canReportChargeStatus` zero,
so within the condition of the claim, whose charge line shows `remainingTime =
4294967295` minutes. The code sets `tm_hour = 71582788` and calls
`strftime(timestr, sizeof(timestr), "%H:%M", &timerec)` unguarded: the hour is outside
the range `0..23` of `%H`, the text `71582788:15` does not fit `char timestr[10]`, the
call has no defined result, and the status block stops after `Current charge: 37%`
instead of returning normally. The same at 1440 minutes, the first hour out of range. -/
theorem reportBatteryStatus_not_total :
    (statusWithTime 4294967295).canReportChargeStatus = 0 ∧
    IsUInt32 4294967295 ∧
    reportBatteryStatus [] (statusWithTime 4294967295) true
      = .abort .strftime [.lit "    ", .lit "Current charge: ", .uint 37, .lit "%"] ∧
    reportBatteryStatus [] (statusWithTime 1440) true
      = .abort .strftime [.lit "    ", .lit "Current charge: ", .uint 37, .lit "%"] ∧
    (¬ ∃ out, reportBatteryStatus [] (statusWithTime 1440) true = .ok out) := by
  refine ⟨by decide, by decide, by decide, by decide, ?_⟩
  rintro ⟨out, h⟩
  have : reportBatteryStatus [] (statusWithTime 1440) true
      = .abort .strftime [.lit "    ", .lit "Current charge: ", .uint 37, .lit "%"] := by
    decide
  rw [this] at h
  exact Outcome.noConfusion h

/-- Where the status block ends early. For every status record in which
`canReportChargeStatus` is zero or the charge status is one of 0, 1, 2, the status block
never reaches `std::terminate`, and the only other way it does not return is a time on
the charge line of 24 hours or more, for which `strftimeHM` has no result; a chemistry
code outside the six enumerators renders as `-`; a record with `canReportChargeStatus`
non-zero and a charge status outside 0, 1, 2 reaches `std::terminate`, right after
`    Status: `. -/
theorem reportBatteryStatus_totality (stream : OStream) (status : SmartBatteryStatus)
    (detailed : Bool) :
    (status.canReportChargeStatus = 0 ∨ status.chargeStatusValid →
      (∀ out, reportBatteryStatus stream status detailed ≠ .abort .terminate out) ∧
      ((∃ out, reportBatteryStatus stream status detailed = .ok out) ↔
        (status.canReportRemainingCharge ≠ 0 →
          (status.canReportRemainingTime ≠ 0 ∧
            status.chargeStatus ≠ BatteryChargeStatus.charging →
              status.remainingTime < 1440) ∧
          (status.canReportChargeCompletionTime ≠ 0 ∧
            status.chargeStatus = BatteryChargeStatus.charging →
              status.chargeCompletionTime < 1440)))) ∧
    (∀ code : BatteryChemistry, code ≠ BatteryChemistry.LiIon → code ≠ BatteryChemistry.NiMH →
      code ≠ BatteryChemistry.NiCd → code ≠ BatteryChemistry.LiPolymer →
      code ≠ BatteryChemistry.Unknown → code ≠ BatteryChemistry.SilverZinc →
      ∀ s : OStream, insertBatteryChemistry s code = s ++ [.lit "-"]) ∧
    (status.canReportChargeStatus ≠ 0 → ¬ status.chargeStatusValid →
      reportBatteryStatus stream status detailed
        = .abort .terminate (stream ++ [.lit "    ", .lit "Status: "])) := by
  refine ⟨?_, ?_, ?_⟩
  · intro hcs
    have hcs' : status.canReportChargeStatus ≠ 0 → status.chargeStatusValid := by
      intro hf
      rcases hcs with h | h
      · exact absurd h hf
      · exact h
    refine ⟨?_, ?_⟩
    · intro out hab
      rw [reportBatteryStatus_eq, reportChargeStatus_append,
        reportChargeStatus_ok status hcs'] at hab
      simp only [Outcome.after, Outcome.bind] at hab
      cases h2 : reportRemainingCharge (stream ++ (reportChargeStatus [] status).stream) status
        with
      | ok s2 => rw [h2] at hab; simp [Outcome.bind] at hab
      | abort why s =>
        rw [h2] at hab
        simp only [Outcome.bind, Outcome.abort.injEq] at hab
        rw [hab.1] at h2
        exact reportRemainingCharge_ne_terminate _ _ _ h2
    · rw [reportBatteryStatus_ok_iff_renders]
      unfold SmartBatteryStatus.renders SmartBatteryStatus.chargeStatusValid at *
      constructor
      · intro h; exact h.2
      · intro h; exact ⟨hcs', h⟩
  · intro code h1 h2 h3 h4 h5 h6 s
    unfold insertBatteryChemistry
    simp [h1, h2, h3, h4, h5, h6]
  · intro hf hv
    rw [reportBatteryStatus_eq, reportChargeStatus_of_invalid stream status hf hv]
    rfl

/-- The status block at a record with `canReportChargeStatus` zero, a voltage and the
chemistry code 7: it returns and the chemistry renders as `-`. -/
theorem reportBatteryStatus_totality_witness :
    (∃ out, reportBatteryStatus [] statusUnknownChemistry true = .ok out) ∧
    (∀ s : OStream, insertBatteryChemistry s 7 = s ++ [.lit "-"]) :=
  have h := reportBatteryStatus_totality [] statusUnknownChemistry true
  ⟨((h.1 (Or.inl rfl)).2).mpr (fun hcap => absurd rfl hcap),
    h.2.1 7 (by decide) (by decide) (by decide) (by decide) (by decide) (by decide)⟩

/-- C15: with packing 1, every member at the sum of the widths of the members declared
before it, the declared member sequence of `SmartBatteryStatus` puts each member at
the offset prescribed (0 size, 4 canReportChargeStatus, 8 chargeStatus, 16 acDischarge,
32 canReportRemainingCharge, …, 253 canReportFirstUseDate, 257 firstUseDate) and the
record is 309 bytes in all, the value of `sizeofSmartBatteryStatus`;
`SmartBatteryStatusEx` has `size` at offset 0 and is 64 bytes in all. -/
theorem smartBatteryStatus_layout :
    packedLayout smartBatteryStatusMembers 0 =
      [("size", 0),
       ("canReportChargeStatus", 4), ("chargeStatus", 8),
       ("padding0", 12),
       ("acDischarge", 16),
       ("padding1", 20),
       ("canReportRemainingCharge", 32), ("remainingCharge", 36),
       ("canReportRemainingCapacity", 40), ("remainingCapacity", 44),
       ("canReportRemainingTime", 48), ("remainingTime", 52),
       ("canReportChargeCompletionTime", 56), ("chargeCompletionTime", 60),
       ("canReportVoltage", 64), ("voltage", 68),
       ("canReportCurrent", 72), ("current", 76),
       ("canReportTemperature", 80), ("temperature", 84),
       ("canReportCycleCount", 88), ("cycleCount", 92),
       ("canReportFullChargeCapacity", 96), ("fullChargeCapacity", 100),
       ("canReportDesignCapacity", 104), ("designCapacity", 108),
       ("canReportDesignVoltage", 112), ("designVoltage", 116),
       ("canReportDeviceChemistry", 120), ("deviceChemistry", 124),
       ("canReportSerialNumber", 128), ("serialNumber", 132),
       ("canReportManufactureDate", 136), ("manufactureDate", 140),
       ("canReportManufacturer", 160), ("manufacturer", 164),
       ("canReportDeviceName", 191), ("deviceName", 195),
       ("canReportBarCodeNumber", 222), ("barCodeNumber", 226),
       ("canReportFirstUseDate", 253), ("firstUseDate", 257),
       ("padding2", 277)] ∧
    (smartBatteryStatusMembers.map fun member => (member.1, member.2.width)).filter
        (fun member => member.2 ≠ 4)
      = [("padding1", 12), ("manufactureDate", 20), ("manufacturer", 27), ("deviceName", 27),
         ("barCodeNumber", 27), ("firstUseDate", 20), ("padding2", 32)] ∧
    packedSize smartBatteryStatusMembers = 309 ∧
    packedSize smartBatteryStatusMembers = sizeofSmartBatteryStatus ∧
    packedLayout smartBatteryStatusExMembers 0 = [("size", 0), ("padding0", 4)] ∧
    packedSize smartBatteryStatusExMembers = 64 := by
  refine ⟨?_, ?_, ?_, ?_, ?_, ?_⟩ <;> decide

/-! ## The report modes -/

/-- A battery block calls the status entry point once and no other, however the status
block ends. -/
theorem reportBattery_calls {σ : Type} (sm : SMInterface σ) (header : List Item) (n a b : Int)
    (detailed : Bool) (w : World σ) :
    (reportBattery sm header n a b detailed w).2.calls = w.calls ++ [.getStatus n] ∧
    (reportBattery sm header n a b detailed w).2.cerr = w.cerr := by
  unfold reportBattery tryGetSmartBatteryStatus
  dsimp only [World.out, World.called]
  split_ifs
  · split <;> exact ⟨rfl, rfl⟩
  · exact ⟨rfl, rfl⟩

theorem isWrite_eq_false_iff (c : VendorCall) :
    c.isWrite = false ↔ (∀ b v, c ≠ .setStart b v) ∧ (∀ b v, c ≠ .setStop b v) := by
  cases c <;> simp [VendorCall.isWrite]

/-- The enumeration loop makes no write call, for any amount of fuel and however it
ends. -/
theorem runEnumerate_calls {σ : Type} (sm : SMInterface σ) (detailed : Bool) :
    ∀ (fuel : Nat) (n : Int) (w : World σ),
      ∃ made, (runEnumerate sm detailed fuel n w).world.calls = w.calls ++ made ∧
        ∀ c ∈ made, c.isWrite = false := by
  intro fuel
  induction fuel with
  | zero => intro n w; exact ⟨[], by simp [runEnumerate, RunResult.world], by simp⟩
  | succ f ih =>
    intro n w
    rw [runEnumerate]
    dsimp only
    have hget : ∃ made, (tryGetThresholds sm n w).2.calls = w.calls ++ made ∧
        ∀ c ∈ made, c.isWrite = false := by
      rcases tryGetThresholds_calls sm n w with hc | hc <;>
        exact ⟨_, hc, by simp [VendorCall.isWrite]⟩
    obtain ⟨m1, hm1, hw1⟩ := hget
    cases hr : (tryGetThresholds sm n w).1 with
    | none => exact ⟨m1, hm1, hw1⟩
    | some p =>
      obtain ⟨a, b⟩ := p
      dsimp only
      have hrb := (reportBattery_calls sm [.lit "\nBattery #", .int n, .lit ":\n"] n a b
        detailed (tryGetThresholds sm n w).2).1
      cases hb : (reportBattery sm [.lit "\nBattery #", .int n, .lit ":\n"] n a b detailed
          (tryGetThresholds sm n w).2).1 with
      | some why =>
        refine ⟨m1 ++ [.getStatus n], ?_, ?_⟩
        · simp only [RunResult.world]; rw [hrb, hm1, List.append_assoc]
        · intro c hc
          rcases List.mem_append.mp hc with hc | hc
          · exact hw1 c hc
          · simp at hc; subst hc; rfl
      | none =>
        obtain ⟨m2, hm2, hw2⟩ := ih (wrapInt32 (n + 1)) (reportBattery sm
          [.lit "\nBattery #", .int n, .lit ":\n"] n a b detailed (tryGetThresholds sm n w).2).2
        refine ⟨m1 ++ [.getStatus n] ++ m2, ?_, ?_⟩
        · rw [hm2, hrb, hm1]; simp only [List.append_assoc]
        · intro c hc
          rcases List.mem_append.mp hc with hc | hc
          · rcases List.mem_append.mp hc with hc | hc
            · exact hw1 c hc
            · simp at hc; subst hc; rfl
          · exact hw2 c hc

/-- Single-battery mode makes no write call. -/
theorem runSingle_calls {σ : Type} (sm : SMInterface σ) (args : ProgramArgs) (w : World σ) :
    ∃ made, (runSingle sm args w).world.calls = w.calls ++ made ∧
      ∀ c ∈ made, c.isWrite = false := by
  unfold runSingle
  dsimp only
  have hget : ∃ made, (tryGetThresholds sm args.batteryId w).2.calls = w.calls ++ made ∧
      ∀ c ∈ made, c.isWrite = false := by
    rcases tryGetThresholds_calls sm args.batteryId w with hc | hc <;>
      exact ⟨_, hc, by simp [VendorCall.isWrite]⟩
  obtain ⟨m1, hm1, hw1⟩ := hget
  cases hr : (tryGetThresholds sm args.batteryId w).1 with
  | none => exact ⟨m1, by simp only [RunResult.world, World.err]; exact hm1, hw1⟩
  | some p =>
    obtain ⟨a, b⟩ := p
    dsimp only
    have hrb := (reportBattery_calls sm [.lit "Battery #", .int args.batteryId, .lit ":\n"]
      args.batteryId a b args.detailed (tryGetThresholds sm args.batteryId w).2).1
    have hall : ∀ c ∈ m1 ++ [VendorCall.getStatus args.batteryId], c.isWrite = false := by
      intro c hc
      rcases List.mem_append.mp hc with hc | hc
      · exact hw1 c hc
      · simp at hc; subst hc; rfl
    refine ⟨m1 ++ [.getStatus args.batteryId], ?_, hall⟩
    split <;> (simp only [RunResult.world]; rw [hrb, hm1, List.append_assoc])

/-- C18: for every `ProgramArgs` with `setThreshold = false` (single-battery and
enumerate mode, whatever `startThreshold`, `stopThreshold` and `disableThresholds`
are), every adapter and every amount of fuel, the calls `run` makes include neither
the set-start nor the set-stop entry point, however `run` ends. -/
theorem run_report_modes_never_write {σ : Type} (sm : SMInterface σ) (fuel : Nat)
    (args : ProgramArgs) (w : World σ) (hmode : args.setThreshold = false) :
    ∃ made, (run sm fuel args w).world.calls = w.calls ++ made ∧
      ∀ c ∈ made, (∀ b v, c ≠ .setStart b v) ∧ (∀ b v, c ≠ .setStop b v) := by
  have key : ∃ made, (run sm fuel args w).world.calls = w.calls ++ made ∧
      ∀ c ∈ made, c.isWrite = false := by
    unfold run
    rw [hmode]
    simp only [Bool.false_eq_true, if_false]
    split_ifs
    · exact runSingle_calls sm args w
    · exact runEnumerate_calls sm args.detailed fuel 1 w
  obtain ⟨made, h1, h2⟩ := key
  exact ⟨made, h1, fun c hc => (isWrite_eq_false_iff c).mp (h2 c hc)⟩

/-- C18 for enumerate mode over the storing fake with two batteries, with stray
`--start`, `--stop` and `--disable` values: the calls are getters and status fetches. -/
theorem run_report_modes_never_write_witness :
    ∃ made, (run storingFake 3
        { startThreshold := 40, stopThreshold := 80, disableThresholds := true }
        { vendor := fakeWith 2 none }).world.calls = [] ++ made ∧
      ∀ c ∈ made, (∀ b v, c ≠ .setStart b v) ∧ (∀ b v, c ≠ .setStop b v) :=
  run_report_modes_never_write storingFake 3
    { startThreshold := 40, stopThreshold := 80, disableThresholds := true }
    { vendor := fakeWith 2 none } rfl

/-- C16 (counterexample): single-battery mode for battery 1 of the storing fake, whose
threshold read succeeds and whose status record has `canReportChargeStatus` set and
`chargeStatus = 3`: `run` does not return 0, the program ends in `std::terminate`
inside the status block. -/
theorem run_single_status_terminates :
    (tryGetThresholds storingFake 1 { vendor := fakeWith 1 (some statusInvalidCharge) }).1
      = some (0, 0) ∧
    (run storingFake 0 { batteryId := 1 }
      { vendor := fakeWith 1 (some statusInvalidCharge) }).code = none ∧
    (run storingFake 0 { batteryId := 1 }
      { vendor := fakeWith 1 (some statusInvalidCharge) }).aborted = some .terminate ∧
    (run storingFake 0 { batteryId := 1 }
      { vendor := fakeWith 1 (some statusInvalidCharge) }).world.cout.str
      = "Battery #1:\n    Charge thresholds: disabled\n    Status: " := by
  refine ⟨?_, ?_, ?_, ?_⟩ <;> decide

/-- C16 (amended): in single-battery mode (`setThreshold = false`, `batteryId = n ≠ 0`),
for every adapter: if the threshold read for `n` is absent, `run` writes
`invalid battery id` to stderr, nothing to stdout and returns 1; otherwise, provided
the status record, if the fetch succeeds, can be rendered (a valid charge status where
the `Status:` line is due, a time below 24 hours where the charge line shows one),
`run` returns 0, writes nothing to stderr, and appends to stdout exactly
`Battery #n:\n`, the threshold line for the pair read, and the status block if and
only if the status fetch for `n` succeeds. -/
theorem run_single {σ : Type} (sm : SMInterface σ) (fuel : Nat) (args : ProgramArgs)
    (w : World σ) (hmode : args.setThreshold = false) (hid : args.batteryId ≠ 0) :
    ((tryGetThresholds sm args.batteryId w).1 = none →
      (run sm fuel args w).code = some 1 ∧
      (run sm fuel args w).world.cerr = w.cerr ++ [.lit "invalid battery id"] ∧
      (run sm fuel args w).world.cout = w.cout) ∧
    (∀ a b, (tryGetThresholds sm args.batteryId w).1 = some (a, b) →
      ((tryGetSmartBatteryStatus sm args.batteryId
          { vendor := (tryGetThresholds sm args.batteryId w).2.vendor }).1.1 = true →
        (tryGetSmartBatteryStatus sm args.batteryId
          { vendor := (tryGetThresholds sm args.batteryId w).2.vendor }).1.2.renders) →
      (run sm fuel args w).code = some 0 ∧
      (run sm fuel args w).world.cout = w.cout ++
        ([.lit "Battery #", .int args.batteryId, .lit ":\n"]
          ++ reportBatteryThresholds [] a b
          ++ (if (tryGetSmartBatteryStatus sm args.batteryId
                { vendor := (tryGetThresholds sm args.batteryId w).2.vendor }).1.1
              then (reportBatteryStatus [] (tryGetSmartBatteryStatus sm args.batteryId
                { vendor := (tryGetThresholds sm args.batteryId w).2.vendor }).1.2
                args.detailed).stream
              else [])) ∧
      (run sm fuel args w).world.cerr = w.cerr) := by
  have hrun : run sm fuel args w = runSingle sm args w := by
    simp [run, hmode, hid]
  rw [hrun]
  unfold runSingle
  dsimp only
  refine ⟨?_, ?_⟩
  · intro hnone
    rw [hnone]
    exact ⟨rfl, by simp [RunResult.world, World.err, tryGetThresholds_cerr],
      by simp [RunResult.world, World.err, tryGetThresholds_cout]⟩
  · intro a b hsome hren
    rw [hsome]
    dsimp only
    have hrb := reportBattery_spec sm [.lit "Battery #", .int args.batteryId, .lit ":\n"]
      args.batteryId a b args.detailed (tryGetThresholds sm args.batteryId w).2 hren
    rw [hrb.1]
    exact ⟨rfl, by simp only [RunResult.world]; rw [hrb.2.1, tryGetThresholds_cout],
      by simp only [RunResult.world]; rw [hrb.2.2.2.2, tryGetThresholds_cerr]⟩

/-- C16 (amended) for battery 1 of the storing fake with a renderable status record,
and for battery 5, which it rejects. -/
theorem run_single_witness :
    (run storingFake 0 { batteryId := 1 }
      { vendor := fakeWith 1 (some (statusWithTime 125)) }).code = some 0 ∧
    (run storingFake 0 { batteryId := 1 }
      { vendor := fakeWith 1 (some (statusWithTime 125)) }).world.cout.str
      = "Battery #1:\n    Charge thresholds: disabled\n    Current charge: 37% (02:05 left)\n"
      ∧
    (run storingFake 0 { batteryId := 5 }
      { vendor := fakeWith 1 (some (statusWithTime 125)) }).code = some 1 ∧
    (run storingFake 0 { batteryId := 5 }
      { vendor := fakeWith 1 (some (statusWithTime 125)) }).world.cerr.str
      = "invalid battery id" :=
  have h1 := (run_single storingFake 0 { batteryId := 1 }
    { vendor := fakeWith 1 (some (statusWithTime 125)) } rfl (by decide)).2 0 0 (by decide)
    (fun _ => by
      show (statusWithTime 125).renders
      simp [SmartBatteryStatus.renders, statusWithTime, BatteryChargeStatus.charging])
  have h5 := (run_single storingFake 0 { batteryId := 5 }
    { vendor := fakeWith 1 (some (statusWithTime 125)) } rfl (by decide)).1 (by decide)
  ⟨h1.1, (congrArg OStream.str h1.2.1).trans (by decide), h5.1,
    (congrArg OStream.str h5.2.1).trans (by decide)⟩

/-! ## Order of the calls in set-mode -/

/-- A write, case by case on what the two setters answer. -/
theorem trySetThresholds_cases {σ : Type} (sm : SMInterface σ) (batteryId a b : Int)
    (w : World σ) :
    ((sm.setChargeCapacityStartThreshold_ batteryId { threshold := a } w.vendor).result ≠ 0 ∧
      (trySetThresholds sm batteryId a b w).1 = false ∧
      (trySetThresholds sm batteryId a b w).2.calls = w.calls ++ [.setStart batteryId a]) ∨
    ((sm.setChargeCapacityStartThreshold_ batteryId { threshold := a } w.vendor).result = 0 ∧
      (trySetThresholds sm batteryId a b w).2.calls
        = w.calls ++ [.setStart batteryId a, .setStop batteryId b] ∧
      ((trySetThresholds sm batteryId a b w).1 = true ↔
        (sm.setChargeCapacityStopThreshold_ batteryId { threshold := b }
          (sm.setChargeCapacityStartThreshold_ batteryId { threshold := a }
            w.vendor).vendor).result = 0)) := by
  unfold trySetThresholds
  dsimp only [World.called]
  by_cases h1 : (sm.setChargeCapacityStartThreshold_ batteryId { threshold := a }
      w.vendor).result = 0
  · right
    refine ⟨h1, ?_, ?_⟩
    · rw [if_neg (by simpa using h1)]
      split_ifs <;> simp
    · rw [if_neg (by simpa using h1)]
      split_ifs with h2
      · simp; exact h2
      · simp; exact not_not.mp h2
  · left
    refine ⟨h1, ?_, ?_⟩ <;> rw [if_pos h1]

/-- The calls of set-mode from the write on are an initial part of: set start, set
stop, get start, get stop; and the stop setter is called only when the start setter
answered 0. -/
theorem writeAndVerify_order {σ : Type} (sm : SMInterface σ) (args : ProgramArgs)
    (w : World σ) :
    ∃ made rest, (writeAndVerify sm args w).world.calls = w.calls ++ made ∧
      made ++ rest = [.setStart args.batteryId (wrapInt32 (args.startThreshold - 1)),
        .setStop args.batteryId args.stopThreshold, .getStart args.batteryId,
        .getStop args.batteryId] ∧
      (.setStop args.batteryId args.stopThreshold ∈ made →
        (sm.setChargeCapacityStartThreshold_ args.batteryId
          { threshold := wrapInt32 (args.startThreshold - 1) } w.vendor).result = 0) := by
  rcases hwrite : trySetThresholds sm args.batteryId (wrapInt32 (args.startThreshold - 1))
    args.stopThreshold w with ⟨ok, w1⟩
  have hspec := writeAndVerify_spec sm args w ok w1 hwrite
  have hcases := trySetThresholds_cases sm args.batteryId (wrapInt32 (args.startThreshold - 1))
    args.stopThreshold w
  rw [hwrite] at hcases
  dsimp only at hcases
  cases ok with
  | false =>
    rw [hspec.1 rfl]
    rcases hcases with ⟨h1, _, hc⟩ | ⟨h1, hc, _⟩
    · refine ⟨_, _, by simp only [RunResult.world, World.err]; exact hc, rfl, ?_⟩
      intro hmem
      simp at hmem
    · exact ⟨_, _, by simp only [RunResult.world, World.err]; exact hc, rfl, fun _ => h1⟩
  | true =>
    rcases hcases with ⟨_, hf, _⟩ | ⟨h1, hc, _⟩
    · exact absurd hf (by decide)
    · rcases hread : tryGetThresholds sm args.batteryId (w1.out (confirmation args))
        with ⟨r, w3⟩
      have hspec2 := hspec.2 rfl r w3 hread
      have hcalls2 := tryGetThresholds_calls sm args.batteryId (w1.out (confirmation args))
      rw [hread] at hcalls2
      simp only [World.out] at hcalls2
      have hworld : (writeAndVerify sm args w).world.calls = w3.calls := by
        cases r with
        | none => rw [hspec2.1 rfl]; rfl
        | some p =>
          by_cases hp : p = expectedReadback args
          · rw [hspec2.2.1 p rfl hp]; rfl
          · rw [hspec2.2.2 p rfl hp]; rfl
      rw [hworld]
      rcases hcalls2 with hc2 | hc2 <;> rw [hc2, hc]
      · exact ⟨_, [.getStop args.batteryId], by rw [List.append_assoc], rfl, fun _ => h1⟩
      · exact ⟨_, [], by rw [List.append_assoc], rfl, fun _ => h1⟩

/-- Set-mode either stops before the write, returning 1 after at most the two getter
calls of the initial read, or goes on to the write phase with the values after the
`--disable` override. -/
theorem runSet_cases {σ : Type} (sm : SMInterface σ) (args : ProgramArgs) (w : World σ) :
    (1 ≤ args.batteryId ∧ (tryGetThresholds sm args.batteryId w).1 ≠ none ∧
      (args.disableThresholds = true ∨
        (0 ≤ args.startThreshold ∧ args.startThreshold ≤ 100 ∧ 0 ≤ args.stopThreshold ∧
          args.stopThreshold ≤ 100 ∧ args.startThreshold < args.stopThreshold)) ∧
      runSet sm args w
        = writeAndVerify sm (effectiveArgs args) (tryGetThresholds sm args.batteryId w).2) ∨
    (∃ w2, runSet sm args w = .exit 1 w2 ∧
      (w2.calls = w.calls ∨ w2.calls = (tryGetThresholds sm args.batteryId w).2.calls)) := by
  have hspec := runSet_spec sm args w
  by_cases hid : args.batteryId < 1
  · exact Or.inr ⟨_, hspec.1 hid, Or.inl rfl⟩
  · rcases hread : tryGetThresholds sm args.batteryId w with ⟨r, w1⟩
    have hspec2 := hspec.2 (by omega) r w1 hread
    dsimp only
    by_cases hr : r = none
    · exact Or.inr ⟨_, hspec2.1 hr, Or.inr rfl⟩
    · cases hd : args.disableThresholds with
      | true =>
        refine Or.inl ⟨by omega, hr, Or.inl rfl, ?_⟩
        rw [(hspec2.2 hr).1 hd]
        simp [effectiveArgs, hd]
      | false =>
        have hspec3 := (hspec2.2 hr).2 hd
        by_cases h1 : args.startThreshold < 0 ∨ args.startThreshold > 100
        · exact Or.inr ⟨_, hspec3.1 h1, Or.inr rfl⟩
        · have hspec4 := hspec3.2 (by omega) (by omega)
          by_cases h2 : args.stopThreshold < 0 ∨ args.stopThreshold > 100
          · exact Or.inr ⟨_, hspec4.1 h2, Or.inr rfl⟩
          · have hspec5 := hspec4.2 (by omega) (by omega)
            by_cases h3 : args.stopThreshold ≤ args.startThreshold
            · exact Or.inr ⟨_, hspec5.1 h3, Or.inr rfl⟩
            · refine Or.inl ⟨by omega, hr, Or.inr ⟨by omega, by omega, by omega, by omega,
                by omega⟩, ?_⟩
              rw [hspec5.2 (by omega)]
              simp [effectiveArgs, hd]

/-- C14: for every `ProgramArgs` with `setThreshold = true` and every adapter, the
entry-point calls `run` makes are an initial part of
[get start, get stop, set start, set stop, get start, get stop]; set stop is among them
only if set start, called after the initial read, answered 0; and when the write is
reached, set start answers 0 and set stop does not, `run` writes the
`Failed to set battery thresholds` diagnostic to stderr, returns 1 and has made exactly
the four calls up to set stop, so no further call and no rollback write. -/
theorem run_set_call_order {σ : Type} (sm : SMInterface σ) (fuel : Nat) (args : ProgramArgs)
    (w : World σ) (hset : args.setThreshold = true) :
    (∃ made rest, (run sm fuel args w).world.calls = w.calls ++ made ∧
      made ++ rest = setModeCalls args ∧
      (.setStop args.batteryId (expectedReadback args).2 ∈ made →
        (sm.setChargeCapacityStartThreshold_ args.batteryId
          { threshold := (expectedReadback args).1 }
          (tryGetThresholds sm args.batteryId w).2.vendor).result = 0)) ∧
    (1 ≤ args.batteryId → (tryGetThresholds sm args.batteryId w).1 ≠ none →
      (args.disableThresholds = true ∨
        (0 ≤ args.startThreshold ∧ args.startThreshold ≤ 100 ∧ 0 ≤ args.stopThreshold ∧
          args.stopThreshold ≤ 100 ∧ args.startThreshold < args.stopThreshold)) →
      (sm.setChargeCapacityStartThreshold_ args.batteryId
        { threshold := (expectedReadback args).1 }
        (tryGetThresholds sm args.batteryId w).2.vendor).result = 0 →
      (sm.setChargeCapacityStopThreshold_ args.batteryId
        { threshold := (expectedReadback args).2 }
        (sm.setChargeCapacityStartThreshold_ args.batteryId
          { threshold := (expectedReadback args).1 }
          (tryGetThresholds sm args.batteryId w).2.vendor).vendor).result ≠ 0 →
      (run sm fuel args w).code = some 1 ∧
      (run sm fuel args w).world.cerr = w.cerr ++ writeFailure (effectiveArgs args) ∧
      (run sm fuel args w).world.calls = w.calls ++
        [.getStart args.batteryId, .getStop args.batteryId,
         .setStart args.batteryId (expectedReadback args).1,
         .setStop args.batteryId (expectedReadback args).2]) := by
  rw [run_of_setThreshold sm fuel args w hset]
  obtain ⟨hb, ha, hs⟩ := effectiveArgs_facts args
  refine ⟨?_, ?_⟩
  · rcases runSet_cases sm args w with ⟨hid, hread, _, hrun⟩ | ⟨w2, hrun, hc⟩
    · rw [hrun]
      have hcalls := tryGetThresholds_calls_of_some sm args.batteryId w hread
      obtain ⟨made, rest, h1, h2, h3⟩ := writeAndVerify_order sm (effectiveArgs args)
        (tryGetThresholds sm args.batteryId w).2
      rw [hb, ha, hs] at h2 h3
      refine ⟨[.getStart args.batteryId, .getStop args.batteryId] ++ made, rest, ?_, ?_, ?_⟩
      · rw [h1, hcalls, List.append_assoc]
      · rw [List.append_assoc, h2]; rfl
      · intro hmem
        apply h3
        simpa using hmem
    · rw [hrun]
      rcases hc with hc | hc
      · exact ⟨[], setModeCalls args, by simp [RunResult.world, hc], rfl, by simp⟩
      · rcases tryGetThresholds_calls sm args.batteryId w with hg | hg
        · refine ⟨[.getStart args.batteryId], (setModeCalls args).tail, ?_, rfl, by simp⟩
          simp only [RunResult.world]; rw [hc, hg]
        · refine ⟨[.getStart args.batteryId, .getStop args.batteryId],
            (setModeCalls args).tail.tail, ?_, rfl, by simp⟩
          simp only [RunResult.world]; rw [hc, hg]
  · intro hid hread hvalid hstart hstop
    rw [runSet_reach sm args w hid hread hvalid]
    have hcalls := tryGetThresholds_calls_of_some sm args.batteryId w hread
    have hcerr := tryGetThresholds_cerr sm args.batteryId w
    rcases hwrite : trySetThresholds sm (effectiveArgs args).batteryId
      (wrapInt32 ((effectiveArgs args).startThreshold - 1))
      (effectiveArgs args).stopThreshold (tryGetThresholds sm args.batteryId w).2
      with ⟨ok, w1⟩
    have hspec := writeAndVerify_spec sm (effectiveArgs args) _ ok w1 hwrite
    have hcases := trySetThresholds_cases sm (effectiveArgs args).batteryId
      (wrapInt32 ((effectiveArgs args).startThreshold - 1))
      (effectiveArgs args).stopThreshold (tryGetThresholds sm args.batteryId w).2
    have hcerr2 := trySetThresholds_cerr sm (effectiveArgs args).batteryId
      (wrapInt32 ((effectiveArgs args).startThreshold - 1))
      (effectiveArgs args).stopThreshold (tryGetThresholds sm args.batteryId w).2
    rw [hwrite] at hcases hcerr2
    rw [hb, ha, hs] at hcases
    dsimp only at hcases hcerr2
    rcases hcases with ⟨h1, _, _⟩ | ⟨_, hc, hiff⟩
    · exact absurd hstart h1
    · have hok : ok = false := by
        cases ok with
        | false => rfl
        | true => exact absurd (hiff.mp rfl) hstop
      rw [hspec.1 hok]
      refine ⟨rfl, ?_, ?_⟩
      · simp only [RunResult.world, World.err]; rw [hcerr2, hcerr]
      · simp only [RunResult.world, World.err]; rw [hc, hcalls, List.append_assoc]; rfl

/-- C14 at `--set -b 1 --start 40 --stop 80`: over the storing fake all six calls
are made, in order; over a fake whose stop setter fails `run` returns 1 after the four
calls up to set stop, with the diagnostic on stderr. -/
theorem run_set_call_order_witness :
    (∃ made rest, (run storingFake 0
        { setThreshold := true, batteryId := 1, startThreshold := 40, stopThreshold := 80 }
        { vendor := fakeWith 1 none }).world.calls = [] ++ made ∧
      made ++ rest
        = [.getStart 1, .getStop 1, .setStart 1 39, .setStop 1 80, .getStart 1, .getStop 1]) ∧
    (run stopFailingFake 0
        { setThreshold := true, batteryId := 1, startThreshold := 40, stopThreshold := 80 }
        { vendor := () }).code = some 1 ∧
    (run stopFailingFake 0
        { setThreshold := true, batteryId := 1, startThreshold := 40, stopThreshold := 80 }
        { vendor := () }).world.cerr.str
      = "Failed to set battery thresholds 40%..80% for battery #1\n" ∧
    (run stopFailingFake 0
        { setThreshold := true, batteryId := 1, startThreshold := 40, stopThreshold := 80 }
        { vendor := () }).world.calls
      = [.getStart 1, .getStop 1, .setStart 1 39, .setStop 1 80] :=
  have h := (run_set_call_order storingFake 0
    { setThreshold := true, batteryId := 1, startThreshold := 40, stopThreshold := 80 }
    { vendor := fakeWith 1 none } rfl).1
  have h2 := (run_set_call_order stopFailingFake 0
    { setThreshold := true, batteryId := 1, startThreshold := 40, stopThreshold := 80 }
    { vendor := () } rfl).2 (by decide) (by decide) (Or.inr (by decide)) (by decide)
    (by decide)
  ⟨h.elim fun made h2 => h2.elim fun rest h3 => ⟨made, rest, h3.1, h3.2.1.trans (by decide)⟩,
    h2.1, (congrArg OStream.str h2.2.1).trans (by decide), h2.2.2.trans (by decide)⟩

/-- C12 (the code at the failing input): two records with `canReportChargeStatus = 0`
that agree on every capability flag and on every field except `chargeStatus`
(inactive in one, charging in the other), with `canReportRemainingCharge` and
`canReportRemainingTime` set. `reportBatteryStatus` renders
`    Current charge: 37% (02:05 left)` for the first and `    Current charge: 37%` for
the second, in both verbosity modes: the time-suffix test reads `chargeStatus` without
consulting `canReportChargeStatus`. -/
theorem reportBatteryStatus_reads_unflagged_chargeStatus :
    (statusWithTime 125).canReportChargeStatus = 0 ∧
    (statusWithTimeCharging 125).canReportChargeStatus = 0 ∧
    statusWithTimeCharging 125
      = { statusWithTime 125 with chargeStatus := BatteryChargeStatus.charging } ∧
    (statusWithTime 125).chargeStatus = BatteryChargeStatus.inactive ∧
    (reportBatteryStatus [] (statusWithTime 125) false).stream.str
      = "    Current charge: 37% (02:05 left)\n" ∧
    (reportBatteryStatus [] (statusWithTimeCharging 125) false).stream.str
      = "    Current charge: 37%\n" ∧
    reportBatteryStatus [] (statusWithTime 125) false
      ≠ reportBatteryStatus [] (statusWithTimeCharging 125) false ∧
    reportBatteryStatus [] (statusWithTime 125) true
      ≠ reportBatteryStatus [] (statusWithTimeCharging 125) true := by
  refine ⟨rfl, rfl, rfl, rfl, ?_, ?_, ?_, ?_⟩ <;> decide

end TPBatteryControl
